import Mathlib

/-! # GEVCU: the Brusa DMC5 motor-controller CAN protocol engine and the throttle detector

A shallow embedding of `src/BrusaMotorController.cpp` and of the class declared in
`src/ThrottleDetector.h`.

* Stateful member functions become functions on the record `BrusaMotorController`
  that return the new record together with what they emit (the frame handed to
  `CanHandler::sendFrame`, or the list of `Logger` events).
* Machine integers are `Nat`/`Int` with explicit truncation: `toU8`, `toU16`, `toU32`
  for unsigned stores, `toInt16` for a store into a signed 16-bit field, `intBits`
  for the two's-complement image of an `int` operand of `&`.
* `BrusaMotorController.h`, `MotorController.h` and the header of the CAN frame types
  are not among the source files. Their constants (frame identifiers, bit masks) are
  the parameter `Header`; the types of the member variables follow the data model of
  the specification and are named where they are declared.
* `int` is 32 bits wide (the target is a 32-bit ARM); a `uint8_t` operand is promoted
  to `int` before `<<` and `|`.
* `Logger` calls are recorded with their severity and format string; the formatted
  arguments (among them the `float` conversions) are not part of the model.
* `src/ThrottleDetector.h` declares the throttle detector; its member functions are
  defined in `ThrottleDetector.cpp`, which is not among the source files. The enumeration
  and the members are taken from the header, the behaviour of the handlers from section
  4.4 of the specification.
-/

namespace GEVCU

/-! ## Machine integers and the byte codec -/

/-- Store into a `uint8_t`. -/
def toU8 (v : Nat) : Nat := v % 256

/-- Store into a `uint16_t`. -/
def toU16 (v : Nat) : Nat := v % 65536

/-- Store into a `uint32_t`. -/
def toU32 (v : Nat) : Nat := v % 4294967296

/-- Store of a non-negative `int` into an `int16_t` (two's-complement wrap). -/
def toInt16 (v : Nat) : Int :=
  if v % 65536 < 32768 then ((v % 65536 : Nat) : Int) else ((v % 65536 : Nat) : Int) - 65536

/-- Two's-complement bit pattern of a (32-bit) `int`, the operand of `& 0xFF00`. -/
def intBits (v : Int) : Nat := (v % 4294967296).toNat

/-- Encode path, first byte of a pair: `(v & 0xFF00) >> 8`. -/
def hiByte (v : Nat) : Nat := (v &&& 0xFF00) >>> 8

/-- Encode path, second byte of a pair: `v & 0x00FF`. -/
def loByte (v : Nat) : Nat := v &&& 0x00FF

/-- Decode path: `lo | (hi << 8)`, written `frame->data[i+1] | (frame->data[i] << 8)`. -/
def word16 (hi lo : Nat) : Nat := lo ||| (hi <<< 8)

/-! ## Frames -/

/-- The eight data bytes `data[0..7]` of a CAN frame. -/
structure CanData where
  d0 : Nat
  d1 : Nat
  d2 : Nat
  d3 : Nat
  d4 : Nat
  d5 : Nat
  d6 : Nat
  d7 : Nat
  deriving DecidableEq, Repr

/-- Read of `data[i]`, a `uint8_t`. -/
def CanData.get (d : CanData) : Nat → Nat
  | 0 => toU8 d.d0
  | 1 => toU8 d.d1
  | 2 => toU8 d.d2
  | 3 => toU8 d.d3
  | 4 => toU8 d.d4
  | 5 => toU8 d.d5
  | 6 => toU8 d.d6
  | 7 => toU8 d.d7
  | _ => 0

/-- Assignment `data[i] = v`, truncating to a `uint8_t`. -/
def CanData.set (d : CanData) : Nat → Nat → CanData
  | 0, v => { d with d0 := toU8 v }
  | 1, v => { d with d1 := toU8 v }
  | 2, v => { d with d2 := toU8 v }
  | 3, v => { d with d3 := toU8 v }
  | 4, v => { d with d4 := toU8 v }
  | 5, v => { d with d5 := toU8 v }
  | 6, v => { d with d6 := toU8 v }
  | 7, v => { d with d7 := toU8 v }
  | _, _ => d

/-- Every stored value is a byte. -/
def CanData.IsBytes (d : CanData) : Prop :=
  d.d0 < 256 ∧ d.d1 < 256 ∧ d.d2 < 256 ∧ d.d3 < 256 ∧
  d.d4 < 256 ∧ d.d5 < 256 ∧ d.d6 < 256 ∧ d.d7 < 256

instance (d : CanData) : Decidable d.IsBytes :=
  inferInstanceAs (Decidable (_ ∧ _))

/-- A received frame (`RX_CAN_FRAME`): the identifier and data bytes that
`handleCanFrame` reads, and the length code, which it does not read. -/
structure RX_CAN_FRAME where
  id : Nat
  dlc : Nat
  data : CanData
  deriving DecidableEq, Repr

/-- The member `outputFrame`, the frame handed to `sendFrame`, with the five members
that `prepareOutputFrame` and the senders assign. -/
structure OutputFrame where
  id : Nat
  dlc : Nat
  ide : Nat
  rtr : Nat
  data : CanData
  deriving DecidableEq, Repr

/-! ## Logger events -/

/-- The severities of `Logger::debug`, `Logger::info`, `Logger::warn`, `Logger::error`. -/
inductive Severity where
  | debug
  | info
  | warn
  | error
  deriving DecidableEq, Repr

/-- One call of `Logger::debug/info/warn/error`, with its format string. -/
structure LogEvent where
  level : Severity
  msg : String
  deriving DecidableEq, Repr

/-- The statement `if (c) Logger::level(msg);`. -/
def logIf (c : Bool) (level : Severity) (msg : String) : List LogEvent :=
  if c then [⟨level, msg⟩] else []

/-! ## Constants of the absent header -/

/-- The constants that `BrusaMotorController.cpp` takes from `BrusaMotorController.h`:
frame identifiers and the bit masks of the control, status, error and warning words. -/
structure Header where
  CAN_ID_CONTROL : Nat
  CAN_ID_CONTROL_2 : Nat
  CAN_ID_LIMIT : Nat
  CAN_ID_STATUS : Nat
  CAN_ID_ACTUAL_VALUES : Nat
  CAN_ID_ERRORS : Nat
  CAN_ID_TORQUE_LIMIT : Nat
  CAN_ID_TEMP : Nat
  enablePositiveTorqueSpeed : Nat
  enableNegativeTorqueSpeed : Nat
  clearErrorLatch : Nat
  enableOscillationLimiter : Nat
  enableSpeedMode : Nat
  enablePowerStage : Nat
  stateReady : Nat
  stateRunning : Nat
  errorFlag : Nat
  warningFlag : Nat
  motorModelLimitation : Nat
  mechanicalPowerLimitation : Nat
  maxTorqueLimitation : Nat
  acCurrentLimitation : Nat
  temperatureLimitation : Nat
  speedLimitation : Nat
  voltageLimitation : Nat
  currentLimitation : Nat
  torqueLimitation : Nat
  slewRateLimitation : Nat
  motorTemperatureLimitation : Nat
  speedSensorSupply : Nat
  speedSensor : Nat
  canLimitMessageInvalid : Nat
  canControlMessageInvalid : Nat
  canLimitMessageLost : Nat
  overvoltageSkyConverter : Nat
  voltageMeasurement : Nat
  shortCircuit : Nat
  canControlMessageLost : Nat
  overtemp : Nat
  overtempMotor : Nat
  overspeed : Nat
  undervoltage : Nat
  overvoltage : Nat
  overcurrent : Nat
  initalisation : Nat
  analogInput : Nat
  driverShutdown : Nat
  powerMismatch : Nat
  canControl2MessageLost : Nat
  motorEeprom : Nat
  storage : Nat
  enablePinSignalLost : Nat
  canCommunicationStartup : Nat
  internalSupply : Nat
  acOvercurrent : Nat
  osTrap : Nat
  systemCheckActive : Nat
  externalShutdownPathAw2Off : Nat
  externalShutdownPathAw1Off : Nat
  oscillationLimitControllerActive : Nat
  driverShutdownPathActive : Nat
  powerMismatchDetected : Nat
  speedSensorSignal : Nat
  hvUndervoltage : Nat
  maximumModulationLimiter : Nat
  temperatureSensor : Nat
  deriving Repr

/-- The list of the six control masks. -/
def Header.controlMasks (h : Header) : List Nat :=
  [h.enablePositiveTorqueSpeed, h.enableNegativeTorqueSpeed, h.clearErrorLatch,
   h.enableOscillationLimiter, h.enableSpeedMode, h.enablePowerStage]

/-- The control masks are pairwise distinct single bits of the control byte. -/
def Header.ControlMasksOk (h : Header) : Prop :=
  (∀ m ∈ h.controlMasks, ∃ k, k < 8 ∧ m = 2 ^ k) ∧ h.controlMasks.Pairwise (fun a b => a ≠ b)

instance (h : Header) : Decidable h.ControlMasksOk :=
  inferInstanceAs (Decidable (_ ∧ _))

/-- The three identifiers of the transmitted frames are pairwise distinct. -/
def Header.TxIdsDistinct (h : Header) : Prop :=
  h.CAN_ID_CONTROL ≠ h.CAN_ID_CONTROL_2 ∧ h.CAN_ID_CONTROL ≠ h.CAN_ID_LIMIT ∧
  h.CAN_ID_CONTROL_2 ≠ h.CAN_ID_LIMIT

instance (h : Header) : Decidable h.TxIdsDistinct :=
  inferInstanceAs (Decidable (_ ∧ _))

/-- The five identifiers of the received frames (the `case` labels of `handleCanFrame`)
are pairwise distinct. -/
def Header.RxIdsDistinct (h : Header) : Prop :=
  [h.CAN_ID_STATUS, h.CAN_ID_ACTUAL_VALUES, h.CAN_ID_ERRORS, h.CAN_ID_TORQUE_LIMIT,
    h.CAN_ID_TEMP].Pairwise (fun a b => a ≠ b)

instance (h : Header) : Decidable h.RxIdsDistinct :=
  inferInstanceAs (Decidable (List.Pairwise _ _))

/-- A contiguous big-endian 32-bit read of four bytes, most significant first; the
layout that the error word does not have. -/
def be32 (b0 b1 b2 b3 : Nat) : Nat := (b0 <<< 24) ||| (b1 <<< 16) ||| (b2 <<< 8) ||| b3

/-- The big-endian 16-bit two's-complement encoding of an integer, in the words of the
specification: the 16-bit pattern `v mod 2^16`, high byte first. -/
def encodeBE16 (v : Int) : Nat × Nat :=
  ((v % 65536).toNat / 256, (v % 65536).toNat % 256)

/-! ## Controller state -/

/-- Modelled from the spec: the enumeration of `powerMode`, declared in the absent
`MotorController.h`; the specification gives `powerMode ∈ {Torque, Speed}` and the source
names the values `modeTorque` and `modeSpeed`. -/
inductive PowerMode where
  | modeTorque
  | modeSpeed
  deriving DecidableEq, Repr

/-- Modelled from the spec: the types of the member variables, which are declared in
the absent `BrusaMotorController.h` and `MotorController.h`. The members themselves are
those that the constructor initialises, plus `outputFrame`.

Following the data model of the specification, `torqueAvailable`, `torqueActual` and
`speedActual` are signed 16-bit fields, `requestedRPM`, `requestedTorque`,
`requestedThrottle`, `maxTorque`, `maxRPM` are signed, `statusBitField` and
`warningBitField` are 16-bit words and `errorBitField` is a 32-bit word. For the
remaining telemetry the specification gives no sign: these fields keep the 16-bit word
(8-bit for `limiterStateNumber` and `temperatureSystem`) that the decoder assigns. -/
structure BrusaMotorController where
  dmcReady : Bool
  dmcRunning : Bool
  dmcError : Bool
  dmcWarning : Bool
  torqueAvailable : Int
  torqueActual : Int
  speedActual : Int
  dcVoltage : Nat
  dcCurrent : Nat
  acCurrent : Nat
  mechanicalPower : Nat
  temperatureInverter : Nat
  temperatureMotor : Nat
  temperatureSystem : Nat
  errorBitField : Nat
  warningBitField : Nat
  statusBitField : Nat
  maxPositiveTorque : Nat
  minNegativeTorque : Nat
  limiterStateNumber : Nat
  tickCounter : Nat
  powerMode : PowerMode
  maxTorque : Int
  maxRPM : Int
  requestedRPM : Int
  requestedTorque : Int
  requestedThrottle : Int
  outputFrame : OutputFrame
  deriving DecidableEq, Repr

namespace BrusaMotorController

/-- The constructor `BrusaMotorController::BrusaMotorController()`. It does not
initialise `outputFrame`, whose content is therefore an argument. -/
def new (outputFrame : OutputFrame) : BrusaMotorController where
  dmcReady := false
  dmcRunning := false
  dmcError := false
  dmcWarning := false
  torqueAvailable := 0
  torqueActual := 0
  speedActual := 0
  dcVoltage := 0
  dcCurrent := 0
  acCurrent := 0
  mechanicalPower := 0
  temperatureInverter := 0
  temperatureMotor := 0
  temperatureSystem := 0
  errorBitField := 0
  warningBitField := 0
  statusBitField := 0
  maxPositiveTorque := 0
  minNegativeTorque := 0
  limiterStateNumber := 0
  tickCounter := 0
  powerMode := PowerMode.modeTorque
  maxTorque := 20
  maxRPM := 2000
  requestedRPM := 0
  requestedTorque := 0
  requestedThrottle := 0
  outputFrame := outputFrame

/-- The assignment `outputFrame.data[i] = v`. -/
def setData (s : BrusaMotorController) (i v : Nat) : BrusaMotorController :=
  { s with outputFrame := { s.outputFrame with data := s.outputFrame.data.set i v } }

/-- The assignment `outputFrame.data[i] |= m`. -/
def orData (s : BrusaMotorController) (i m : Nat) : BrusaMotorController :=
  s.setData i (s.outputFrame.data.get i ||| m)

/-- `BrusaMotorController::prepareOutputFrame`: header fields and `data[1..7]`;
`data[0]` is left as it is. -/
def prepareOutputFrame (s : BrusaMotorController) (id : Nat) : BrusaMotorController :=
  let s := { s with outputFrame := { s.outputFrame with dlc := 8 } }
  let s := { s with outputFrame := { s.outputFrame with id := id } }
  let s := { s with outputFrame := { s.outputFrame with ide := 0 } }
  let s := { s with outputFrame := { s.outputFrame with rtr := 0 } }
  let s := s.setData 1 0
  let s := s.setData 2 0
  let s := s.setData 3 0
  let s := s.setData 4 0
  let s := s.setData 5 0
  let s := s.setData 6 0
  s.setData 7 0

/-- `BrusaMotorController::sendControl`: the new state and the frame sent.
A guarded assignment `if (c) x = v;` is the update `x := if c then v else x`. -/
def sendControl (h : Header) (s : BrusaMotorController) : BrusaMotorController × OutputFrame :=
  let s := s.prepareOutputFrame h.CAN_ID_CONTROL
  let s := { s with requestedTorque := 50 }
  let s := { s with requestedRPM := if s.speedActual = 0 then 1000 else s.requestedRPM }
  let s := { s with requestedRPM := if s.speedActual > 950 then 0 else s.requestedRPM }
  let s := s.setData 0 (h.enablePositiveTorqueSpeed ||| h.enableNegativeTorqueSpeed)
  let s :=
    if s.dmcError then
      s.orData 0 h.clearErrorLatch
    else
      if s.dmcReady || decide (s.speedActual > 1000) then
        let s := s.orData 0 h.enablePowerStage
        if s.dmcRunning then
          let s := if s.powerMode = PowerMode.modeSpeed then s.orData 0 h.enableSpeedMode else s
          let s := s.setData 2 (hiByte (intBits s.requestedRPM))
          let s := s.setData 3 (loByte (intBits s.requestedRPM))
          let s := s.setData 4 (hiByte (intBits (s.requestedTorque * 10)))
          s.setData 5 (loByte (intBits (s.requestedTorque * 10)))
        else s
      else s
  (s, s.outputFrame)

/-- `BrusaMotorController::sendControl2`. -/
def sendControl2 (h : Header) (s : BrusaMotorController) : BrusaMotorController × OutputFrame :=
  let torqueSlewRate : Nat := 0
  let speedSlewRate : Nat := 0
  let maxMechanicalPowerMotor : Nat := 50000
  let maxMechanicalPowerRegen : Nat := 50000
  let s := s.prepareOutputFrame h.CAN_ID_CONTROL_2
  let s := s.setData 0 (hiByte torqueSlewRate)
  let s := s.setData 1 (loByte torqueSlewRate)
  let s := s.setData 2 (hiByte speedSlewRate)
  let s := s.setData 3 (loByte speedSlewRate)
  let s := s.setData 4 (hiByte maxMechanicalPowerMotor)
  let s := s.setData 5 (loByte maxMechanicalPowerMotor)
  let s := s.setData 6 (hiByte maxMechanicalPowerRegen)
  let s := s.setData 7 (loByte maxMechanicalPowerRegen)
  (s, s.outputFrame)

/-- `BrusaMotorController::sendLimits`. -/
def sendLimits (h : Header) (s : BrusaMotorController) : BrusaMotorController × OutputFrame :=
  let dcVoltLimitMotor : Nat := 1000
  let dcVoltLimitRegen : Nat := 1000
  let dcCurrentLimitMotor : Nat := 0
  let dcCurrentLimitRegen : Nat := 0
  let s := s.prepareOutputFrame h.CAN_ID_LIMIT
  let s := s.setData 0 (hiByte dcVoltLimitMotor)
  let s := s.setData 1 (loByte dcVoltLimitMotor)
  let s := s.setData 2 (hiByte dcVoltLimitRegen)
  let s := s.setData 3 (loByte dcVoltLimitRegen)
  let s := s.setData 4 (hiByte dcCurrentLimitMotor)
  let s := s.setData 5 (loByte dcCurrentLimitMotor)
  let s := s.setData 6 (hiByte dcCurrentLimitRegen)
  let s := s.setData 7 (loByte dcCurrentLimitRegen)
  (s, s.outputFrame)

/-- `BrusaMotorController::handleTick`: the new state and the frames sent, in order. -/
def handleTick (h : Header) (s : BrusaMotorController) :
    BrusaMotorController × List OutputFrame :=
  let s := { s with tickCounter := s.tickCounter + 1 }
  let r := sendControl h s
  if r.1.tickCounter > 4 then
    let r2 := sendControl2 h r.1
    let r3 := sendLimits h r2.1
    ({ r3.1 with tickCounter := 0 }, [r.2, r2.2, r3.2])
  else
    (r.1, [r.2])

/-- The log events of the `CAN_ID_STATUS` case, in program order, for the decoded status
word `w` and the four readiness flags just computed. -/
def statusLog (h : Header) (w : Nat) (ready running err warning : Bool) : List LogEvent :=
  [⟨Severity.debug, "status: %X, torque avail: %fNm, actual torque: %fNm, speed actual: %drpm"⟩]
  ++ logIf ready Severity.info "DMC5: ready"
  ++ logIf running Severity.info "DMC5: running"
  ++ logIf err Severity.error "DMC5: error is present, see error message"
  ++ logIf warning Severity.warn "DMC5: warning is present, see warning message"
  ++ logIf (decide (w &&& h.motorModelLimitation ≠ 0)) Severity.info "DMC5: torque limit by motor model"
  ++ logIf (decide (w &&& h.mechanicalPowerLimitation ≠ 0)) Severity.info "DMC5: torque limit by mechanical power"
  ++ logIf (decide (w &&& h.maxTorqueLimitation ≠ 0)) Severity.info "DMC5: torque limit by max torque"
  ++ logIf (decide (w &&& h.acCurrentLimitation ≠ 0)) Severity.info "DMC5: torque limit by AC current"
  ++ logIf (decide (w &&& h.temperatureLimitation ≠ 0)) Severity.warn "DMC5: torque limit by temperature"
  ++ logIf (decide (w &&& h.speedLimitation ≠ 0)) Severity.info "DMC5: torque limit by speed"
  ++ logIf (decide (w &&& h.voltageLimitation ≠ 0)) Severity.info "DMC5: torque limit by DC voltage"
  ++ logIf (decide (w &&& h.currentLimitation ≠ 0)) Severity.info "DMC5: torque limit by DC current"
  ++ logIf (decide (w &&& h.torqueLimitation ≠ 0)) Severity.info "DMC5: torque limitation is active"
  ++ logIf (decide (w &&& h.slewRateLimitation ≠ 0)) Severity.info "DMC5: torque limit by slew rate"
  ++ logIf (decide (w &&& h.motorTemperatureLimitation ≠ 0)) Severity.warn "DMC5: torque limit by motor temperature"

/-- The error-severity events of the `CAN_ID_ERRORS` case, in program order. -/
def errorLog (h : Header) (e : Nat) : List LogEvent :=
  []
  ++ logIf (decide (e &&& h.speedSensorSupply ≠ 0)) Severity.error "DMC5: speed sensor supply"
  ++ logIf (decide (e &&& h.speedSensor ≠ 0)) Severity.error "DMC5: speed sensor"
  ++ logIf (decide (e &&& h.canLimitMessageInvalid ≠ 0)) Severity.error "DMC5: can limit message invalid"
  ++ logIf (decide (e &&& h.canControlMessageInvalid ≠ 0)) Severity.error "DMC5: can control message invalid"
  ++ logIf (decide (e &&& h.canLimitMessageLost ≠ 0)) Severity.error "DMC5: can limit message lost"
  ++ logIf (decide (e &&& h.overvoltageSkyConverter ≠ 0)) Severity.error "DMC5: overvoltage sky converter"
  ++ logIf (decide (e &&& h.voltageMeasurement ≠ 0)) Severity.error "DMC5: voltage measurement"
  ++ logIf (decide (e &&& h.shortCircuit ≠ 0)) Severity.error "DMC5: short circuit"
  ++ logIf (decide (e &&& h.canControlMessageLost ≠ 0)) Severity.error "DMC5: can control message lost"
  ++ logIf (decide (e &&& h.overtemp ≠ 0)) Severity.error "DMC5: overtemp"
  ++ logIf (decide (e &&& h.overtempMotor ≠ 0)) Severity.error "DMC5: overtemp motor"
  ++ logIf (decide (e &&& h.overspeed ≠ 0)) Severity.error "DMC5: overspeed"
  ++ logIf (decide (e &&& h.undervoltage ≠ 0)) Severity.error "DMC5: undervoltage"
  ++ logIf (decide (e &&& h.overvoltage ≠ 0)) Severity.error "DMC5: overvoltage"
  ++ logIf (decide (e &&& h.overcurrent ≠ 0)) Severity.error "DMC5: overcurrent"
  ++ logIf (decide (e &&& h.initalisation ≠ 0)) Severity.error "DMC5: initalisation"
  ++ logIf (decide (e &&& h.analogInput ≠ 0)) Severity.error "DMC5: analogInput"
  ++ logIf (decide (e &&& h.driverShutdown ≠ 0)) Severity.error "DMC5: driver shutdown"
  ++ logIf (decide (e &&& h.powerMismatch ≠ 0)) Severity.error "DMC5: power mismatch"
  ++ logIf (decide (e &&& h.canControl2MessageLost ≠ 0)) Severity.error "DMC5: can Control2 message lost"
  ++ logIf (decide (e &&& h.motorEeprom ≠ 0)) Severity.error "DMC5: motor Eeprom"
  ++ logIf (decide (e &&& h.storage ≠ 0)) Severity.error "DMC5: storage"
  ++ logIf (decide (e &&& h.enablePinSignalLost ≠ 0)) Severity.error "DMC5: lost signal on enable pin"
  ++ logIf (decide (e &&& h.canCommunicationStartup ≠ 0)) Severity.error "DMC5: can communication startup"
  ++ logIf (decide (e &&& h.internalSupply ≠ 0)) Severity.error "DMC5: internal supply"
  ++ logIf (decide (e &&& h.acOvercurrent ≠ 0)) Severity.error "DMC5: AC Overcurrent"
  ++ logIf (decide (e &&& h.osTrap ≠ 0)) Severity.error "DMC5: OS trap"

/-- The warn-severity events of the `CAN_ID_ERRORS` case, in program order. -/
def warningLog (h : Header) (w : Nat) : List LogEvent :=
  []
  ++ logIf (decide (w &&& h.systemCheckActive ≠ 0)) Severity.warn "DMC5: system check active"
  ++ logIf (decide (w &&& h.externalShutdownPathAw2Off ≠ 0)) Severity.warn "DMC5: external shutdown path Aw2 off"
  ++ logIf (decide (w &&& h.externalShutdownPathAw1Off ≠ 0)) Severity.warn "DMC5: external shutdown path Aw1 off"
  ++ logIf (decide (w &&& h.oscillationLimitControllerActive ≠ 0)) Severity.warn "DMC5: oscillation limit controller active"
  ++ logIf (decide (w &&& h.driverShutdownPathActive ≠ 0)) Severity.warn "DMC5: driver shutdown path active"
  ++ logIf (decide (w &&& h.powerMismatchDetected ≠ 0)) Severity.warn "DMC5: power mismatch detected"
  ++ logIf (decide (w &&& h.speedSensorSignal ≠ 0)) Severity.warn "DMC5: speed sensor signal"
  ++ logIf (decide (w &&& h.hvUndervoltage ≠ 0)) Severity.warn "DMC5: HV undervoltage"
  ++ logIf (decide (w &&& h.maximumModulationLimiter ≠ 0)) Severity.warn "DMC5: maximum modulation limiter"
  ++ logIf (decide (w &&& h.temperatureSensor ≠ 0)) Severity.warn "DMC5: temperature sensor"

/-- `BrusaMotorController::handleCanFrame`: the new state and the log events, in order.
The `switch` on `frame->id` is a chain of comparisons in the order of its `case` labels
(which are distinct constants in the program). In the `CAN_ID_ERRORS` case the operand
`frame->data[4] << 24` is taken as its 32-bit pattern. -/
def handleCanFrame (h : Header) (s : BrusaMotorController) (frame : RX_CAN_FRAME) :
    BrusaMotorController × List LogEvent :=
  if frame.id = h.CAN_ID_STATUS then
    let s := { s with statusBitField := toU16 (word16 (frame.data.get 0) (frame.data.get 1)) }
    let s := { s with torqueAvailable := toInt16 (word16 (frame.data.get 2) (frame.data.get 3)) }
    let s := { s with torqueActual := toInt16 (word16 (frame.data.get 4) (frame.data.get 5)) }
    let s := { s with speedActual := toInt16 (word16 (frame.data.get 6) (frame.data.get 7)) }
    let s := { s with dmcReady := decide (s.statusBitField &&& h.stateReady ≠ 0) }
    let s := { s with dmcRunning := decide (s.statusBitField &&& h.stateRunning ≠ 0) }
    let s := { s with dmcError := decide (s.statusBitField &&& h.errorFlag ≠ 0) }
    let s := { s with dmcWarning := decide (s.statusBitField &&& h.warningFlag ≠ 0) }
    (s, statusLog h s.statusBitField s.dmcReady s.dmcRunning s.dmcError s.dmcWarning)
  else if frame.id = h.CAN_ID_ACTUAL_VALUES then
    let s := { s with dcVoltage := toU16 (word16 (frame.data.get 0) (frame.data.get 1)) }
    let s := { s with dcCurrent := toU16 (word16 (frame.data.get 2) (frame.data.get 3)) }
    let s := { s with acCurrent := toU16 (word16 (frame.data.get 4) (frame.data.get 5)) }
    let s := { s with mechanicalPower := toU16 (word16 (frame.data.get 6) (frame.data.get 7)) }
    (s, [⟨Severity.debug,
      "actual values: DC Volts: %fV, DC current: %fA, AC current: %fA, mechPower: %fkW"⟩])
  else if frame.id = h.CAN_ID_ERRORS then
    let e := frame.data.get 1 ||| (frame.data.get 0 <<< 8) ||| (frame.data.get 5 <<< 16)
      ||| (frame.data.get 4 <<< 24)
    let s := { s with errorBitField := toU32 e }
    let s := { s with warningBitField := toU16 (word16 (frame.data.get 6) (frame.data.get 7)) }
    (s, [⟨Severity.debug, "errors: %X, warning: %X"⟩]
      ++ errorLog h s.errorBitField ++ warningLog h s.warningBitField)
  else if frame.id = h.CAN_ID_TORQUE_LIMIT then
    let s := { s with maxPositiveTorque := toU16 (word16 (frame.data.get 0) (frame.data.get 1)) }
    let s := { s with minNegativeTorque := toU16 (word16 (frame.data.get 2) (frame.data.get 3)) }
    let s := { s with limiterStateNumber := toU8 (frame.data.get 4) }
    (s, [⟨Severity.debug, "torque limit: max positive: %fNm, min negative: %fNm"⟩])
  else if frame.id = h.CAN_ID_TEMP then
    let s := { s with temperatureInverter := toU16 (word16 (frame.data.get 0) (frame.data.get 1)) }
    let s := { s with temperatureMotor := toU16 (word16 (frame.data.get 2) (frame.data.get 3)) }
    let s := { s with temperatureSystem := toU8 (frame.data.get 4) }
    (s, [⟨Severity.debug, "temperature: inverter: %f C, motor: %f C, system: %d C"⟩])
  else
    (s, [⟨Severity.debug, "DMC5: received unknown frame id %X"⟩])

/-- State after `n` consecutive calls of `handleTick`. -/
def tickN (h : Header) (s : BrusaMotorController) : Nat → BrusaMotorController
  | 0 => s
  | n + 1 => (handleTick h (tickN h s n)).1

/-- All frames sent by `n` consecutive calls of `handleTick`, in order. -/
def framesOfTicks (h : Header) (s : BrusaMotorController) : Nat → List OutputFrame
  | 0 => []
  | n + 1 => framesOfTicks h s n ++ (handleTick h (tickN h s n)).2

end BrusaMotorController

/-- A sample instance of the header constants, used to evaluate the model on concrete
inputs: every mask is a single bit, masks of one word are pairwise distinct, and
`stateRunning` is bit 2 of the status word as in the end-to-end scenario of the
specification. -/
def sampleHeader : Header where
  CAN_ID_CONTROL := 0x210
  CAN_ID_CONTROL_2 := 0x211
  CAN_ID_LIMIT := 0x212
  CAN_ID_STATUS := 0x258
  CAN_ID_ACTUAL_VALUES := 0x259
  CAN_ID_ERRORS := 0x25A
  CAN_ID_TORQUE_LIMIT := 0x268
  CAN_ID_TEMP := 0x458
  enablePositiveTorqueSpeed := 0x01
  enableNegativeTorqueSpeed := 0x02
  clearErrorLatch := 0x08
  enableOscillationLimiter := 0x20
  enableSpeedMode := 0x40
  enablePowerStage := 0x80
  stateReady := 0x8000
  stateRunning := 0x0004
  errorFlag := 0x0200
  warningFlag := 0x0400
  motorModelLimitation := 0x0001
  mechanicalPowerLimitation := 0x0002
  maxTorqueLimitation := 0x4000
  acCurrentLimitation := 0x0008
  temperatureLimitation := 0x0010
  speedLimitation := 0x0020
  voltageLimitation := 0x0040
  currentLimitation := 0x0080
  torqueLimitation := 0x0100
  slewRateLimitation := 0x1000
  motorTemperatureLimitation := 0x2000
  speedSensorSupply := 0x00000001
  speedSensor := 0x00000002
  canLimitMessageInvalid := 0x00000004
  canControlMessageInvalid := 0x00000008
  canLimitMessageLost := 0x00000010
  overvoltageSkyConverter := 0x00000020
  voltageMeasurement := 0x00000040
  shortCircuit := 0x00000080
  canControlMessageLost := 0x00000100
  overtemp := 0x00000200
  overtempMotor := 0x00000400
  overspeed := 0x00000800
  undervoltage := 0x00001000
  overvoltage := 0x00002000
  overcurrent := 0x00004000
  initalisation := 0x00008000
  analogInput := 0x00010000
  driverShutdown := 0x00020000
  powerMismatch := 0x00040000
  canControl2MessageLost := 0x00080000
  motorEeprom := 0x00100000
  storage := 0x00200000
  enablePinSignalLost := 0x00400000
  canCommunicationStartup := 0x00800000
  internalSupply := 0x01000000
  acOvercurrent := 0x02000000
  osTrap := 0x04000000
  systemCheckActive := 0x0001
  externalShutdownPathAw2Off := 0x0002
  externalShutdownPathAw1Off := 0x0004
  oscillationLimitControllerActive := 0x0008
  driverShutdownPathActive := 0x0010
  powerMismatchDetected := 0x0020
  speedSensorSignal := 0x0040
  hvUndervoltage := 0x0080
  maximumModulationLimiter := 0x0100
  temperatureSensor := 0x0200

/-- A state with every gate open (ready, running, speed mode, 3000 rpm) but the
error flag raised. -/
def errorState : BrusaMotorController :=
  { BrusaMotorController.new ⟨0x7FF, 3, 1, 1, ⟨0xAA, 0xAA, 0xAA, 0xAA, 0xAA, 0xAA, 0xAA, 0xAA⟩⟩ with
    dmcReady := true, dmcRunning := true, dmcError := true, speedActual := 3000,
    powerMode := PowerMode.modeSpeed, requestedRPM := 1500, requestedTorque := 120 }

/-- A state spinning at 1001 rpm that is neither ready nor in error. -/
def spinningState : BrusaMotorController :=
  { BrusaMotorController.new ⟨0x7FF, 3, 1, 1, ⟨0xAA, 0xAA, 0xAA, 0xAA, 0xAA, 0xAA, 0xAA, 0xAA⟩⟩ with
    speedActual := 1001 }

/-- A Status frame reporting ready, running and error (status word `0x8204` for the
sample header), 2.00 Nm available, -1.00 Nm actual torque and -3000 rpm. -/
def faultStatusFrame : RX_CAN_FRAME :=
  ⟨0x258, 8, ⟨0x82, 0x04, 0x00, 0xC8, 0xFF, 0x9C, 0xF4, 0x48⟩⟩

/-- The Status frame of the end-to-end scenario: data bytes `00 04 00 C8 00 64 03 E8`. -/
def scenarioStatusFrame : RX_CAN_FRAME :=
  ⟨0x258, 8, ⟨0x00, 0x04, 0x00, 0xC8, 0x00, 0x64, 0x03, 0xE8⟩⟩

/-- An Errors frame with `E1 E0 = 12 34`, filler `56 78`, `E3 E2 = 9A BC` and
`W1 W0 = DE F0`. -/
def sampleErrorsFrame : RX_CAN_FRAME :=
  ⟨0x25A, 8, ⟨0x12, 0x34, 0x56, 0x78, 0x9A, 0xBC, 0xDE, 0xF0⟩⟩

/-- A state that is ready and running in speed mode at 500 rpm, with a request of
-200 rpm. -/
def runningState : BrusaMotorController :=
  { BrusaMotorController.new ⟨0x7FF, 3, 1, 1, ⟨0xAA, 0xAA, 0xAA, 0xAA, 0xAA, 0xAA, 0xAA, 0xAA⟩⟩ with
    dmcReady := true, dmcRunning := true, speedActual := 500,
    powerMode := PowerMode.modeSpeed, requestedRPM := -200, requestedTorque := 120 }

/-- An output buffer whose bytes are all `0xAA`, standing for the content left by
an earlier frame. -/
def staleFrame : OutputFrame :=
  ⟨0x7FF, 3, 1, 1, ⟨0xAA, 0xAA, 0xAA, 0xAA, 0xAA, 0xAA, 0xAA, 0xAA⟩⟩

/-- A frame with an identifier that is none of the five received ones, and a short
length code. -/
def unknownFrame : RX_CAN_FRAME :=
  ⟨0x123, 8, ⟨0x82, 0x04, 0x00, 0xC8, 0xFF, 0x9C, 0xF4, 0x48⟩⟩

/-- A Status frame (error flag raised, 3000 rpm) whose length code is 3 instead of 8. -/
def shortStatusFrame : RX_CAN_FRAME :=
  ⟨0x258, 3, ⟨0x02, 0x00, 0x00, 0xC8, 0x00, 0x64, 0x0B, 0xB8⟩⟩

/-- The events that a table of named conditions (mask, message) yields for a bit-field
word `w` at one severity: one event for each entry whose mask test `w & mask` is
non-zero, in the order of the table. -/
def tableLog (level : Severity) (w : Nat) (table : List (Nat × String)) : List LogEvent :=
  (table.filter (fun p => decide (w &&& p.1 ≠ 0))).map (fun p => ⟨level, p.2⟩)

/-- The named error conditions of the `CAN_ID_ERRORS` case, mask and message, in the
order of the tests on `errorBitField`. -/
def Header.errorTable (h : Header) : List (Nat × String) :=
  [(h.speedSensorSupply, "DMC5: speed sensor supply"),
   (h.speedSensor, "DMC5: speed sensor"),
   (h.canLimitMessageInvalid, "DMC5: can limit message invalid"),
   (h.canControlMessageInvalid, "DMC5: can control message invalid"),
   (h.canLimitMessageLost, "DMC5: can limit message lost"),
   (h.overvoltageSkyConverter, "DMC5: overvoltage sky converter"),
   (h.voltageMeasurement, "DMC5: voltage measurement"),
   (h.shortCircuit, "DMC5: short circuit"),
   (h.canControlMessageLost, "DMC5: can control message lost"),
   (h.overtemp, "DMC5: overtemp"),
   (h.overtempMotor, "DMC5: overtemp motor"),
   (h.overspeed, "DMC5: overspeed"),
   (h.undervoltage, "DMC5: undervoltage"),
   (h.overvoltage, "DMC5: overvoltage"),
   (h.overcurrent, "DMC5: overcurrent"),
   (h.initalisation, "DMC5: initalisation"),
   (h.analogInput, "DMC5: analogInput"),
   (h.driverShutdown, "DMC5: driver shutdown"),
   (h.powerMismatch, "DMC5: power mismatch"),
   (h.canControl2MessageLost, "DMC5: can Control2 message lost"),
   (h.motorEeprom, "DMC5: motor Eeprom"),
   (h.storage, "DMC5: storage"),
   (h.enablePinSignalLost, "DMC5: lost signal on enable pin"),
   (h.canCommunicationStartup, "DMC5: can communication startup"),
   (h.internalSupply, "DMC5: internal supply"),
   (h.acOvercurrent, "DMC5: AC Overcurrent"),
   (h.osTrap, "DMC5: OS trap")]

/-- The named warning conditions of the `CAN_ID_ERRORS` case, mask and message, in the
order of the tests on `warningBitField`. -/
def Header.warningTable (h : Header) : List (Nat × String) :=
  [(h.systemCheckActive, "DMC5: system check active"),
   (h.externalShutdownPathAw2Off, "DMC5: external shutdown path Aw2 off"),
   (h.externalShutdownPathAw1Off, "DMC5: external shutdown path Aw1 off"),
   (h.oscillationLimitControllerActive, "DMC5: oscillation limit controller active"),
   (h.driverShutdownPathActive, "DMC5: driver shutdown path active"),
   (h.powerMismatchDetected, "DMC5: power mismatch detected"),
   (h.speedSensorSignal, "DMC5: speed sensor signal"),
   (h.hvUndervoltage, "DMC5: HV undervoltage"),
   (h.maximumModulationLimiter, "DMC5: maximum modulation limiter"),
   (h.temperatureSensor, "DMC5: temperature sensor")]

/-- The number of events of one severity in a log. -/
def countLevel (level : Severity) (log : List LogEvent) : Nat :=
  (log.filter (fun e => decide (e.level = level))).length

/-- An Errors frame in which every named error bit and every named warning bit of the
sample header is set: error word `0x07FFFFFF`, warning word `0x03FF`. -/
def allFaultsFrame : RX_CAN_FRAME :=
  ⟨0x25A, 8, ⟨0xFF, 0xFF, 0x00, 0x00, 0x07, 0xFF, 0x03, 0xFF⟩⟩

/-- A running state in speed mode that is not ready and turns backwards at -3000 rpm. -/
def reverseState : BrusaMotorController :=
  { BrusaMotorController.new ⟨0x7FF, 3, 1, 1, ⟨0xAA, 0xAA, 0xAA, 0xAA, 0xAA, 0xAA, 0xAA, 0xAA⟩⟩ with
    dmcRunning := true, speedActual := -3000, powerMode := PowerMode.modeSpeed,
    requestedRPM := 700, requestedTorque := 120 }

/-- The status word carried by a frame: bytes 0-1, as the `CAN_ID_STATUS` case reads them. -/
def statusWord (f : RX_CAN_FRAME) : Nat := toU16 (word16 (f.data.get 0) (f.data.get 1))

/-- One call from the outside: a scheduler tick or the arrival of a CAN frame. -/
inductive Event where
  | tick
  | frame (f : RX_CAN_FRAME)
  deriving DecidableEq, Repr

/-- The effect of one event: `handleTick` sends frames, `handleCanFrame` sends none. -/
def step (h : Header) (s : BrusaMotorController) : Event → BrusaMotorController × List OutputFrame
  | Event.tick => BrusaMotorController.handleTick h s
  | Event.frame f => ((BrusaMotorController.handleCanFrame h s f).1, [])

/-- The effect of a sequence of events, in order: the final state and all frames sent. -/
def run (h : Header) (s : BrusaMotorController) : List Event → BrusaMotorController × List OutputFrame
  | [] => (s, [])
  | e :: es => ((run h (step h s e).1 es).1, (step h s e).2 ++ (run h (step h s e).1 es).2)

/-- The event is a tick or a frame other than a Status frame. -/
def Event.NotStatus (h : Header) : Event → Prop
  | Event.tick => True
  | Event.frame f => f.id ≠ h.CAN_ID_STATUS

/-- The event is a frame other than a Status frame. -/
def Event.OtherFrame (h : Header) : Event → Prop
  | Event.tick => False
  | Event.frame f => f.id ≠ h.CAN_ID_STATUS

instance (h : Header) (e : Event) : Decidable (e.NotStatus h) := by
  cases e
  · exact inferInstanceAs (Decidable True)
  · exact inferInstanceAs (Decidable (_ ≠ _))

instance (h : Header) (e : Event) : Decidable (e.OtherFrame h) := by
  cases e
  · exact inferInstanceAs (Decidable False)
  · exact inferInstanceAs (Decidable (_ ≠ _))

/-- A Status frame reporting ready and running without error at 500 rpm (status word
`0x8004` for the sample header). -/
def readyStatusFrame : RX_CAN_FRAME :=
  ⟨0x258, 8, ⟨0x80, 0x04, 0x00, 0xC8, 0x00, 0x64, 0x01, 0xF4⟩⟩

/-- Events between two Status frames: ticks interleaved with an Errors frame, a frame
with an unknown identifier and a sixth tick that also sends the static frames. -/
def faultEpisode : List Event :=
  [Event.tick, Event.frame sampleErrorsFrame, Event.tick, Event.frame unknownFrame,
   Event.tick, Event.tick, Event.tick, Event.tick]

/-- Frames other than Status frames, with no tick among them. -/
def quietEpisode : List Event :=
  [Event.frame sampleErrorsFrame, Event.frame unknownFrame]

/-! ## Throttle detector

`src/ThrottleDetector.h` declares the class: the enumeration `DetectionState`, the
member variables and the names of the member functions. The bodies are in
`ThrottleDetector.cpp`, which is not among the source files; they are modelled from
section 4.4 of the specification. -/

/-- `ThrottleDetector::DetectionState`, as declared in `src/ThrottleDetector.h`. -/
inductive DetectionState where
  | DoNothing
  | DetectBothMinWait
  | DetectBothMinCalibrate
  | DetectBothMaxWait
  | DetectBothMaxCalibrate
  | DetectMinWait
  | DetectMinCalibrate
  | DetectMaxWait
  | DetectMaxCalibrate
  deriving DecidableEq, Repr

/-- The member variables of `ThrottleDetector`, as declared in `src/ThrottleDetector.h`
(the pointer `throttle` to the sensor is replaced by the readings passed to each call). -/
structure ThrottleDetector where
  state : DetectionState
  startTime : Nat
  potentiometerCount : Int
  throttle1Value : Nat
  throttle1Min : Nat
  throttle1Max : Nat
  throttle2Value : Nat
  throttle2Min : Nat
  throttle2Max : Nat
  throttle1HighLow : Bool
  throttle2HighLow : Bool
  throttle2Inverse : Bool
  throttle1MinRest : Int
  throttle2MinRest : Int
  throttle2MaxRest : Int
  maxThrottleReadingDeviationPercent : Int
  deriving DecidableEq, Repr

/-- What one call of the detector sees of its collaborators: the clock and the raw analog
reading of each throttle channel. -/
structure Reading where
  millis : Nat
  raw1 : Nat
  raw2 : Nat
  deriving DecidableEq, Repr

/-- Modelled from the spec: the quantities that section 4.4 names without fixing them
(`ThrottleDetector.cpp`, which holds them, is absent): the test that the values have
stabilised near the rest or extreme position, the minimum dwell time of a `*Wait` phase and
the fixed duration of a `*Calibrate` phase. -/
structure DetectorConfig where
  stable : ThrottleDetector → Reading → Bool
  dwellTime : Nat
  calibrateTime : Nat

/-- The display side effect of `displayCalibratedValues(bool minPedal)`. -/
structure DisplayEvent where
  minPedal : Bool
  deriving DecidableEq, Repr

/-- Modelled from the spec: the order of the phases of section 4.4, which the absent
`ThrottleDetector.cpp` implements: each phase with the one that follows it; `DoNothing` is
terminal. -/
def DetectionState.next : DetectionState → DetectionState
  | DetectionState.DoNothing => DetectionState.DoNothing
  | DetectionState.DetectBothMinWait => DetectionState.DetectBothMinCalibrate
  | DetectionState.DetectBothMinCalibrate => DetectionState.DetectBothMaxWait
  | DetectionState.DetectBothMaxWait => DetectionState.DetectBothMaxCalibrate
  | DetectionState.DetectBothMaxCalibrate => DetectionState.DoNothing
  | DetectionState.DetectMinWait => DetectionState.DetectMinCalibrate
  | DetectionState.DetectMinCalibrate => DetectionState.DetectMaxWait
  | DetectionState.DetectMaxWait => DetectionState.DetectMaxCalibrate
  | DetectionState.DetectMaxCalibrate => DetectionState.DoNothing

/-- A numbering of the phases that falls along both sequences of section 4.4 and gives
different numbers to different phases. -/
def DetectionState.code : DetectionState → Nat
  | DetectionState.DoNothing => 0
  | DetectionState.DetectBothMaxCalibrate => 1
  | DetectionState.DetectBothMaxWait => 2
  | DetectionState.DetectBothMinCalibrate => 3
  | DetectionState.DetectBothMinWait => 4
  | DetectionState.DetectMaxCalibrate => 11
  | DetectionState.DetectMaxWait => 12
  | DetectionState.DetectMinCalibrate => 13
  | DetectionState.DetectMinWait => 14

namespace ThrottleDetector

/-- Modelled from the spec: `ThrottleDetector::readThrottleValues` (body absent): the
latest raw sample of each channel, stored in the 16-bit members `throttle1Value` and
`throttle2Value`. -/
def readThrottleValues (t : ThrottleDetector) (x : Reading) : ThrottleDetector :=
  { t with throttle1Value := toU16 x.raw1, throttle2Value := toU16 x.raw2 }

/-- Modelled from the spec: `ThrottleDetector::resetValues` (body absent): a calibration
segment starts from the latest sample, which is so far its most extreme value on either
side, with the polarity and correlation flags cleared. -/
def resetValues (t : ThrottleDetector) : ThrottleDetector :=
  { t with
    throttle1Min := t.throttle1Value, throttle1Max := t.throttle1Value,
    throttle2Min := t.throttle2Value, throttle2Max := t.throttle2Value,
    throttle1HighLow := false, throttle2HighLow := false, throttle2Inverse := false }

/-- Modelled from the spec: the tracking step of a `*Calibrate` phase for channel 1
(body absent): the most extreme value seen is kept as `min`/`max`, and the polarity is
high-to-low when the sampled value has decreased to a new minimum, low-to-high when it has
increased to a new maximum. -/
def track1 (t : ThrottleDetector) : ThrottleDetector :=
  if t.throttle1Value < t.throttle1Min then
    { t with throttle1Min := t.throttle1Value, throttle1HighLow := true }
  else if t.throttle1Value > t.throttle1Max then
    { t with throttle1Max := t.throttle1Value, throttle1HighLow := false }
  else t

/-- Modelled from the spec: the tracking step of a `*Calibrate` phase for channel 2
(body absent), as for channel 1. -/
def track2 (t : ThrottleDetector) : ThrottleDetector :=
  if t.throttle2Value < t.throttle2Min then
    { t with throttle2Min := t.throttle2Value, throttle2HighLow := true }
  else if t.throttle2Value > t.throttle2Max then
    { t with throttle2Max := t.throttle2Value, throttle2HighLow := false }
  else t

/-- Modelled from the spec: the common body of the four `*Wait` handlers (absent): sample
each tick; a reading that is not stable with respect to the detector as it stands
restarts the dwell window at `startTime`; once the values have been stable for the minimum
dwell time the paired `*Calibrate` phase is entered, its segment starting from the sample
just taken. -/
def waitPhase (t : ThrottleDetector) (cfg : DetectorConfig) (x : Reading)
    (calibrate : DetectionState) : ThrottleDetector × List DisplayEvent :=
  let stable := cfg.stable t x
  let t := t.readThrottleValues x
  if stable = false then
    ({ t with startTime := x.millis }, [])
  else if x.millis - t.startTime ≥ cfg.dwellTime then
    ({ t.resetValues with startTime := x.millis, state := calibrate }, [])
  else
    (t, [])

/-- Modelled from the spec: `ThrottleDetector::detectBothMinWait` (body absent). -/
def detectBothMinWait (t : ThrottleDetector) (cfg : DetectorConfig) (x : Reading) :
    ThrottleDetector × List DisplayEvent :=
  t.waitPhase cfg x DetectionState.DetectBothMinCalibrate

/-- Modelled from the spec: `ThrottleDetector::detectBothMinCalibrate` (body absent):
sample and track both channels for the fixed duration; then keep the rest-position
trackers, infer the correlation of the two channels from the sign of their movement,
display the segment and advance. -/
def detectBothMinCalibrate (t : ThrottleDetector) (cfg : DetectorConfig) (x : Reading) :
    ThrottleDetector × List DisplayEvent :=
  if x.millis - t.startTime < cfg.calibrateTime then
    (((t.readThrottleValues x).track1).track2, [])
  else
    ({ t with
        throttle1MinRest := t.throttle1Min, throttle2MinRest := t.throttle2Min,
        throttle2MaxRest := t.throttle2Max,
        throttle2Inverse := t.throttle1HighLow != t.throttle2HighLow,
        startTime := x.millis, state := DetectionState.DetectBothMaxWait },
      [⟨true⟩])

/-- Modelled from the spec: `ThrottleDetector::detectBothMaxWait` (body absent). -/
def detectBothMaxWait (t : ThrottleDetector) (cfg : DetectorConfig) (x : Reading) :
    ThrottleDetector × List DisplayEvent :=
  t.waitPhase cfg x DetectionState.DetectBothMaxCalibrate

/-- Modelled from the spec: `ThrottleDetector::detectBothMaxCalibrate` (body absent):
sample and track both channels for the fixed duration; then infer the correlation of the
two channels, display the segment and return to `DoNothing` with the results in place. -/
def detectBothMaxCalibrate (t : ThrottleDetector) (cfg : DetectorConfig) (x : Reading) :
    ThrottleDetector × List DisplayEvent :=
  if x.millis - t.startTime < cfg.calibrateTime then
    (((t.readThrottleValues x).track1).track2, [])
  else
    ({ t with
        throttle2Inverse := t.throttle1HighLow != t.throttle2HighLow,
        state := DetectionState.DoNothing },
      [⟨false⟩])

/-- Modelled from the spec: `ThrottleDetector::detectMinWait` (body absent). -/
def detectMinWait (t : ThrottleDetector) (cfg : DetectorConfig) (x : Reading) :
    ThrottleDetector × List DisplayEvent :=
  t.waitPhase cfg x DetectionState.DetectMinCalibrate

/-- Modelled from the spec: `ThrottleDetector::detectMinCalibrate` (body absent): the
single-channel counterpart of `detectBothMinCalibrate`. -/
def detectMinCalibrate (t : ThrottleDetector) (cfg : DetectorConfig) (x : Reading) :
    ThrottleDetector × List DisplayEvent :=
  if x.millis - t.startTime < cfg.calibrateTime then
    ((t.readThrottleValues x).track1, [])
  else
    ({ t with
        throttle1MinRest := t.throttle1Min,
        startTime := x.millis, state := DetectionState.DetectMaxWait },
      [⟨true⟩])

/-- Modelled from the spec: `ThrottleDetector::detectMaxWait` (body absent). -/
def detectMaxWait (t : ThrottleDetector) (cfg : DetectorConfig) (x : Reading) :
    ThrottleDetector × List DisplayEvent :=
  t.waitPhase cfg x DetectionState.DetectMaxCalibrate

/-- Modelled from the spec: `ThrottleDetector::detectMaxCalibrate` (body absent): the
single-channel counterpart of `detectBothMaxCalibrate`. -/
def detectMaxCalibrate (t : ThrottleDetector) (cfg : DetectorConfig) (x : Reading) :
    ThrottleDetector × List DisplayEvent :=
  if x.millis - t.startTime < cfg.calibrateTime then
    ((t.readThrottleValues x).track1, [])
  else
    ({ t with state := DetectionState.DoNothing }, [⟨false⟩])

/-- Modelled from the spec: `ThrottleDetector::handleTick` (body absent): dispatch on the
current phase to one handler per phase; `DoNothing` is idle. -/
def handleTick (t : ThrottleDetector) (cfg : DetectorConfig) (x : Reading) :
    ThrottleDetector × List DisplayEvent :=
  match t.state with
  | DetectionState.DoNothing => (t, [])
  | DetectionState.DetectBothMinWait => t.detectBothMinWait cfg x
  | DetectionState.DetectBothMinCalibrate => t.detectBothMinCalibrate cfg x
  | DetectionState.DetectBothMaxWait => t.detectBothMaxWait cfg x
  | DetectionState.DetectBothMaxCalibrate => t.detectBothMaxCalibrate cfg x
  | DetectionState.DetectMinWait => t.detectMinWait cfg x
  | DetectionState.DetectMinCalibrate => t.detectMinCalibrate cfg x
  | DetectionState.DetectMaxWait => t.detectMaxWait cfg x
  | DetectionState.DetectMaxCalibrate => t.detectMaxCalibrate cfg x

/-- Modelled from the spec: `ThrottleDetector::detect` (body absent): `throttle2Provided()`
is evaluated once, here, and chooses the dual-channel or the single-channel sequence and
the channel count. -/
def detect (t : ThrottleDetector) (x : Reading) (throttle2Provided : Bool) : ThrottleDetector :=
  { t with
    potentiometerCount := if throttle2Provided then 2 else 1,
    startTime := x.millis,
    state := if throttle2Provided then DetectionState.DetectBothMinWait
      else DetectionState.DetectMinWait }

/-- Modelled from the spec: `ThrottleDetector::detectMin` (body absent): forces the
`DetectMinWait` phase at once. -/
def detectMin (t : ThrottleDetector) (x : Reading) : ThrottleDetector :=
  { t with startTime := x.millis, state := DetectionState.DetectMinWait }

/-- Modelled from the spec: `ThrottleDetector::detectMax` (body absent): forces the
`DetectMaxWait` phase at once. -/
def detectMax (t : ThrottleDetector) (x : Reading) : ThrottleDetector :=
  { t with startTime := x.millis, state := DetectionState.DetectMaxWait }

/-- Modelled from the spec: `ThrottleDetector::isThrottle1HighLow` (body absent): the getter of
the polarity flag of channel 1. -/
def isThrottle1HighLow (t : ThrottleDetector) : Bool := t.throttle1HighLow

/-- Modelled from the spec: `ThrottleDetector::isThrottle2HighLow` (body absent): the getter of
the polarity flag of channel 2. -/
def isThrottle2HighLow (t : ThrottleDetector) : Bool := t.throttle2HighLow

/-- Modelled from the spec: `ThrottleDetector::isThrottle2Inverse` (body absent): the getter of
the correlation flag of the two channels. -/
def isThrottle2Inverse (t : ThrottleDetector) : Bool := t.throttle2Inverse

/-- The detector after a sequence of `handleTick` calls, one per reading. -/
def runTicks (t : ThrottleDetector) (cfg : DetectorConfig) : List Reading → ThrottleDetector
  | [] => t
  | x :: xs => runTicks (t.handleTick cfg x).1 cfg xs

/-- The phases that a sequence of `handleTick` calls goes through: the phase before the
first call, then the phase after each call. -/
def trace (t : ThrottleDetector) (cfg : DetectorConfig) : List Reading → List DetectionState
  | [] => [t.state]
  | x :: xs => t.state :: trace (t.handleTick cfg x).1 cfg xs

end ThrottleDetector

/-- The phase is one of the four `*Calibrate` phases. -/
def DetectionState.IsCalibrate (p : DetectionState) : Prop :=
  p = DetectionState.DetectBothMinCalibrate ∨ p = DetectionState.DetectBothMaxCalibrate ∨
  p = DetectionState.DetectMinCalibrate ∨ p = DetectionState.DetectMaxCalibrate

/-- The phase is one of the two dual-channel `*Calibrate` phases. -/
def DetectionState.IsBothCalibrate (p : DetectionState) : Prop :=
  p = DetectionState.DetectBothMinCalibrate ∨ p = DetectionState.DetectBothMaxCalibrate

instance (p : DetectionState) : Decidable p.IsCalibrate :=
  inferInstanceAs (Decidable (_ ∨ _))

instance (p : DetectionState) : Decidable p.IsBothCalibrate :=
  inferInstanceAs (Decidable (_ ∨ _))

/-- A sample sequence that never rises. -/
def NonIncreasing (vs : List Nat) : Prop := vs.Chain' (fun a b => b ≤ a)

/-- A sample sequence that never falls. -/
def NonDecreasing (vs : List Nat) : Prop := vs.Chain' (fun a b => a ≤ b)

/-- A sample sequence in which some sample differs from the first one. -/
def NonConstant (vs : List Nat) : Prop := ∃ v ∈ vs, some v ≠ vs.head?

instance (vs : List Nat) : Decidable (NonIncreasing vs) :=
  inferInstanceAs (Decidable (List.Chain' _ _))

instance (vs : List Nat) : Decidable (NonDecreasing vs) :=
  inferInstanceAs (Decidable (List.Chain' _ _))

instance (vs : List Nat) : Decidable (NonConstant vs) :=
  inferInstanceAs (Decidable (∃ v, v ∈ vs ∧ _))

/-- A configuration used to run the detector model: a reading counts as stable when
channel 1 is within 10 counts of the previous sample, the dwell time is 2000 ms and a
calibration segment lasts 2000 ms. -/
def sampleConfig : DetectorConfig where
  stable := fun t x =>
    decide (toU16 x.raw1 ≤ t.throttle1Value + 10 ∧ t.throttle1Value ≤ toU16 x.raw1 + 10)
  dwellTime := 2000
  calibrateTime := 2000

/-- A detector at rest, before any detection. -/
def idleDetector : ThrottleDetector :=
  ⟨DetectionState.DoNothing, 0, 0, 0, 0, 0, 0, 0, 0, false, false, false, 0, 0, 0, 0⟩

/-- The phase belongs to the dual-channel sequence (`dual = true`) or to the
single-channel sequence (`dual = false`) of section 4.4; `DoNothing` ends both. -/
def DetectionState.onPath (dual : Bool) : DetectionState → Bool
  | DetectionState.DoNothing => true
  | DetectionState.DetectBothMinWait => dual
  | DetectionState.DetectBothMinCalibrate => dual
  | DetectionState.DetectBothMaxWait => dual
  | DetectionState.DetectBothMaxCalibrate => dual
  | DetectionState.DetectMinWait => !dual
  | DetectionState.DetectMinCalibrate => !dual
  | DetectionState.DetectMaxWait => !dual
  | DetectionState.DetectMaxCalibrate => !dual

/-- Readings of a complete detection: pedal at rest (channel 1 near 500, channel 2 near
3000), then pressed (channel 1 near 3000, channel 2 near 400) and moving during the last
segment, channel 1 down and channel 2 up. -/
def sampleReadings : List Reading :=
  [⟨100, 500, 3000⟩, ⟨2100, 505, 3000⟩, ⟨2200, 480, 3010⟩, ⟨2300, 470, 3050⟩,
   ⟨4200, 0, 0⟩, ⟨4300, 3000, 400⟩, ⟨4400, 3001, 401⟩, ⟨6500, 3002, 399⟩,
   ⟨6600, 2900, 500⟩, ⟨6700, 2800, 600⟩, ⟨8600, 1, 1⟩, ⟨9000, 1, 1⟩]

/-- The calibration data of one channel: the latest sample, the most extreme values of
the segment and the polarity flag. -/
structure Channel where
  value : Nat
  min : Nat
  max : Nat
  highLow : Bool
  deriving DecidableEq, Repr

/-- The effect of sampling `v` and then `track1` (or `track2`) on the data of the
channel. -/
def Channel.feed (c : Channel) (v : Nat) : Channel :=
  if v < c.min then ⟨v, v, c.max, true⟩
  else if v > c.max then ⟨v, c.min, v, false⟩
  else ⟨v, c.min, c.max, c.highLow⟩

/-- The calibration data of channel 1 in the detector. -/
def ThrottleDetector.channel1 (t : ThrottleDetector) : Channel :=
  ⟨t.throttle1Value, t.throttle1Min, t.throttle1Max, t.throttle1HighLow⟩

/-- The calibration data of channel 2 in the detector. -/
def ThrottleDetector.channel2 (t : ThrottleDetector) : Channel :=
  ⟨t.throttle2Value, t.throttle2Min, t.throttle2Max, t.throttle2HighLow⟩

/-- The samples of channel 1 that a list of readings stores. -/
def samples1 (xs : List Reading) : List Nat := xs.map (fun x => toU16 x.raw1)

/-- The samples of channel 2 that a list of readings stores. -/
def samples2 (xs : List Reading) : List Nat := xs.map (fun x => toU16 x.raw2)

/-- A detector waiting at full pedal, about to enter `DetectBothMaxCalibrate`. -/
def waitingDetector : ThrottleDetector :=
  ⟨DetectionState.DetectBothMaxWait, 1000, 2, 3000, 470, 505, 400, 3000, 3050,
    false, false, false, 470, 3000, 3050, 0⟩

/-- A sweep inside one calibration segment: channel 1 falls from 3000 to 2500 while
channel 2 rises from 400 to 900. -/
def sweepReadings : List Reading :=
  [⟨3100, 2900, 500⟩, ⟨3200, 2900, 650⟩, ⟨3300, 2700, 800⟩, ⟨3400, 2500, 900⟩]

end GEVCU


/-! # Theorems -/

namespace GEVCU

open BrusaMotorController

/-! ## Arithmetic of bytes and masks -/

theorem toU8_of_lt {v : Nat} (hv : v < 256) : toU8 v = v := by
  unfold toU8; omega

theorem toU8_lt (v : Nat) : toU8 v < 256 := by
  unfold toU8; omega

theorem toU8_toU8 (v : Nat) : toU8 (toU8 v) = toU8 v := by
  unfold toU8; omega

theorem loByte_eq (v : Nat) : loByte v = v % 256 := by
  unfold loByte
  exact Nat.and_pow_two_sub_one_eq_mod v 8

theorem hiByte_eq (v : Nat) : hiByte v = v / 256 % 256 := by
  unfold hiByte
  have h1 : (v &&& 0xFF00) >>> 8 = (v >>> 8) &&& (2 ^ 8 - 1) := by
    apply Nat.eq_of_testBit_eq
    intro i
    have h2 : (0xFF00 : Nat) = (2 ^ 8 - 1) <<< 8 := by decide
    rw [h2]
    simp only [Nat.testBit_shiftRight, Nat.testBit_and, Nat.testBit_shiftLeft,
      Nat.testBit_two_pow_sub_one]
    simp
  rw [h1, Nat.and_pow_two_sub_one_eq_mod, Nat.shiftRight_eq_div_pow]

theorem word16_eq (hi lo : Nat) (hlo : lo < 256) : word16 hi lo = hi * 256 + lo := by
  unfold word16
  rw [Nat.shiftLeft_eq, Nat.or_comm, Nat.mul_comm]
  exact (Nat.mul_add_lt_is_or (i := 8) hlo hi).symm

theorem or_and_self_right (x m : Nat) : (x ||| m) &&& m = m := by
  apply Nat.eq_of_testBit_eq
  intro i
  simp only [Nat.testBit_and, Nat.testBit_or]
  cases x.testBit i <;> cases m.testBit i <;> rfl

theorem or_and_distrib_right (x y m : Nat) : (x ||| y) &&& m = (x &&& m) ||| (y &&& m) := by
  apply Nat.eq_of_testBit_eq
  intro i
  simp only [Nat.testBit_and, Nat.testBit_or]
  cases x.testBit i <;> cases y.testBit i <;> cases m.testBit i <;> rfl

theorem two_pow_and_two_pow_of_ne {i j : Nat} (hij : i ≠ j) : 2 ^ i &&& 2 ^ j = 0 := by
  apply Nat.eq_of_testBit_eq
  intro k
  simp only [Nat.testBit_and, Nat.testBit_two_pow, Nat.zero_testBit]
  by_cases h1 : i = k
  · subst h1; simp [Ne.symm hij]
  · simp [h1]

/-- Two distinct single-bit masks have no bit in common. -/
theorem bit_and_bit_of_ne {a b : Nat} (ha : ∃ k, k < 8 ∧ a = 2 ^ k) (hb : ∃ k, k < 8 ∧ b = 2 ^ k)
    (hab : a ≠ b) : a &&& b = 0 := by
  obtain ⟨i, _, rfl⟩ := ha
  obtain ⟨j, _, rfl⟩ := hb
  apply two_pow_and_two_pow_of_ne
  intro hij
  exact hab (by rw [hij])

theorem bit_lt_256 {a : Nat} (ha : ∃ k, k < 8 ∧ a = 2 ^ k) : a < 256 := by
  obtain ⟨i, hi, rfl⟩ := ha
  calc 2 ^ i < 2 ^ 8 := Nat.pow_lt_pow_right (by decide) hi
    _ = 256 := by decide

theorem bit_ne_zero {a : Nat} (ha : ∃ k, k < 8 ∧ a = 2 ^ k) : a ≠ 0 := by
  obtain ⟨i, _, rfl⟩ := ha
  exact Nat.pos_iff_ne_zero.mp (Nat.pow_pos (by decide))

theorem or_lt_256 {a b : Nat} (ha : a < 256) (hb : b < 256) : a ||| b < 256 :=
  Nat.or_lt_two_pow (n := 8) ha hb

/-! ## The control frame -/

/-- The value that `sendControl` leaves in `requestedRPM` (the ramp of lines 103-106). -/
theorem sendControl_requestedRPM (h : Header) (s : BrusaMotorController) :
    (sendControl h s).1.requestedRPM =
      if s.speedActual > 950 then 0 else if s.speedActual = 0 then 1000 else s.requestedRPM := by
  cases s
  rename_i dmcReady dmcRunning dmcError dmcWarning _ _ speedActual _ _ _ _ _ _ _ _ _ _ _ _ _ _
    powerMode _ _ _ _ _ _
  cases dmcError <;> cases dmcReady <;> cases dmcRunning <;> cases powerMode <;>
    by_cases hs : speedActual > 1000 <;>
    simp [sendControl, prepareOutputFrame, setData, orData, CanData.set, CanData.get, hs]

/-- The value that `sendControl` leaves in `requestedTorque` (line 102). -/
theorem sendControl_requestedTorque (h : Header) (s : BrusaMotorController) :
    (sendControl h s).1.requestedTorque = 50 := by
  cases s
  rename_i dmcReady dmcRunning dmcError dmcWarning _ _ speedActual _ _ _ _ _ _ _ _ _ _ _ _ _ _
    powerMode _ _ _ _ _ _
  cases dmcError <;> cases dmcReady <;> cases dmcRunning <;> cases powerMode <;>
    by_cases hs : speedActual > 1000 <;>
    simp [sendControl, prepareOutputFrame, setData, orData, CanData.set, CanData.get, hs]

/-- The frame sent by `sendControl`, by cases on the gating flags. -/
theorem sendControl_frame (h : Header) (s : BrusaMotorController) :
    (sendControl h s).2 = ⟨h.CAN_ID_CONTROL, 8, 0, 0,
      if s.dmcError then
        ⟨toU8 (toU8 (h.enablePositiveTorqueSpeed ||| h.enableNegativeTorqueSpeed)
          ||| h.clearErrorLatch), 0, 0, 0, 0, 0, 0, 0⟩
      else if s.dmcReady || decide (s.speedActual > 1000) then
        if s.dmcRunning then
          ⟨if s.powerMode = PowerMode.modeSpeed then
              toU8 (toU8 (toU8 (h.enablePositiveTorqueSpeed ||| h.enableNegativeTorqueSpeed)
                ||| h.enablePowerStage) ||| h.enableSpeedMode)
            else
              toU8 (toU8 (h.enablePositiveTorqueSpeed ||| h.enableNegativeTorqueSpeed)
                ||| h.enablePowerStage),
            0,
            toU8 (hiByte (intBits (if s.speedActual > 950 then 0
              else if s.speedActual = 0 then 1000 else s.requestedRPM))),
            toU8 (loByte (intBits (if s.speedActual > 950 then 0
              else if s.speedActual = 0 then 1000 else s.requestedRPM))),
            toU8 (hiByte (intBits (50 * 10))),
            toU8 (loByte (intBits (50 * 10))),
            0, 0⟩
        else
          ⟨toU8 (toU8 (h.enablePositiveTorqueSpeed ||| h.enableNegativeTorqueSpeed)
            ||| h.enablePowerStage), 0, 0, 0, 0, 0, 0, 0⟩
      else
        ⟨toU8 (h.enablePositiveTorqueSpeed ||| h.enableNegativeTorqueSpeed),
          0, 0, 0, 0, 0, 0, 0⟩⟩ := by
  cases s
  rename_i dmcReady dmcRunning dmcError dmcWarning _ _ speedActual _ _ _ _ _ _ _ _ _ _ _ _ _ _
    powerMode _ _ _ _ _ _
  cases dmcError <;> cases dmcReady <;> cases dmcRunning <;> cases powerMode <;>
    by_cases hs : speedActual > 1000 <;>
    simp [sendControl, prepareOutputFrame, setData, orData, CanData.set, CanData.get, hs,
      toU8_toU8] <;>
    simp [toU8]

theorem toU8_or (x y : Nat) : toU8 (x ||| y) = toU8 x ||| toU8 y := by
  unfold toU8
  apply Nat.eq_of_testBit_eq
  intro i
  have h8 : (256 : Nat) = 2 ^ 8 := by decide
  rw [h8]
  simp only [Nat.testBit_mod_two_pow, Nat.testBit_or]
  cases decide (i < 8) <;> simp

theorem or_and_absorb (p y : Nat) : p ||| (y &&& p) = p := by
  apply Nat.eq_of_testBit_eq
  intro i
  simp only [Nat.testBit_and, Nat.testBit_or]
  cases p.testBit i <;> cases y.testBit i <;> rfl

/-- Membership of each control mask in `controlMasks`, unfolded. -/
theorem controlMasksOk_bits {h : Header} (hOk : h.ControlMasksOk) :
    (∃ k, k < 8 ∧ h.enablePositiveTorqueSpeed = 2 ^ k) ∧
    (∃ k, k < 8 ∧ h.enableNegativeTorqueSpeed = 2 ^ k) ∧
    (∃ k, k < 8 ∧ h.clearErrorLatch = 2 ^ k) ∧
    (∃ k, k < 8 ∧ h.enableOscillationLimiter = 2 ^ k) ∧
    (∃ k, k < 8 ∧ h.enableSpeedMode = 2 ^ k) ∧
    (∃ k, k < 8 ∧ h.enablePowerStage = 2 ^ k) := by
  have hb := hOk.1
  simp only [Header.controlMasks, List.mem_cons, List.mem_singleton, forall_eq_or_imp,
    forall_eq, List.not_mem_nil, false_implies, implies_true, and_true] at hb
  exact hb

/-- C1 (contract): with `dmcError` set, the control frame carries only the two
torque-speed enable bits and the error-latch-clear bit in byte 0, bytes 1..7 are zero,
and, the control masks being pairwise distinct single bits, the power-stage bit is
clear; the other flags, the speed, the power mode and the requests play no part. -/
theorem sendControl_error_only_clears_latch (h : Header) (s : BrusaMotorController)
    (hErr : s.dmcError = true) :
    (sendControl h s).2.data =
      ⟨toU8 (toU8 (h.enablePositiveTorqueSpeed ||| h.enableNegativeTorqueSpeed)
        ||| h.clearErrorLatch), 0, 0, 0, 0, 0, 0, 0⟩ ∧
    (h.ControlMasksOk →
      (sendControl h s).2.data.d0 =
        h.enablePositiveTorqueSpeed ||| h.enableNegativeTorqueSpeed ||| h.clearErrorLatch ∧
      (sendControl h s).2.data.d0 &&& h.enablePowerStage = 0) := by
  have hf := sendControl_frame h s
  rw [hErr] at hf
  simp only [if_true] at hf
  rw [hf]
  refine ⟨rfl, ?_⟩
  intro hOk
  obtain ⟨hp, hn, hc, _, _, hps⟩ := controlMasksOk_bits hOk
  have hd := hOk.2
  simp only [Header.controlMasks, List.pairwise_cons, List.mem_cons, List.mem_singleton,
    forall_eq_or_imp, forall_eq] at hd
  have e1 : toU8 (toU8 (h.enablePositiveTorqueSpeed ||| h.enableNegativeTorqueSpeed)
      ||| h.clearErrorLatch)
      = h.enablePositiveTorqueSpeed ||| h.enableNegativeTorqueSpeed ||| h.clearErrorLatch := by
    rw [toU8_of_lt (or_lt_256 (bit_lt_256 hp) (bit_lt_256 hn))]
    exact toU8_of_lt (or_lt_256 (or_lt_256 (bit_lt_256 hp) (bit_lt_256 hn)) (bit_lt_256 hc))
  refine ⟨e1, ?_⟩
  show toU8 _ &&& _ = 0
  rw [e1, or_and_distrib_right, or_and_distrib_right,
    bit_and_bit_of_ne hp hps (by tauto), bit_and_bit_of_ne hn hps (by tauto),
    bit_and_bit_of_ne hc hps (by tauto)]
  rfl

theorem sendControl_error_only_clears_latch_witness :
    errorState.dmcError = true ∧ sampleHeader.ControlMasksOk ∧
    (sendControl sampleHeader errorState).2.data = ⟨0x0B, 0, 0, 0, 0, 0, 0, 0⟩ ∧
    (sendControl sampleHeader errorState).2.data.d0 &&& sampleHeader.enablePowerStage = 0 :=
  have hw := sendControl_error_only_clears_latch sampleHeader errorState (by decide)
  ⟨by decide, by decide, hw.1, (hw.2 (by decide)).2⟩

/-- C2 (contract): with `dmcError` clear and `speedActual > 1000`, byte 0 of the
control frame has the power-stage bit set, whatever `dmcReady` is (the mask being a
single bit of the control byte). -/
theorem sendControl_power_stage_above_1000 (h : Header) (s : BrusaMotorController)
    (hErr : s.dmcError = false) (hSpeed : s.speedActual > 1000)
    (hBit : ∃ k, k < 8 ∧ h.enablePowerStage = 2 ^ k) :
    (sendControl h s).2.data.d0 &&& h.enablePowerStage = h.enablePowerStage ∧
    (sendControl h s).2.data.d0 &&& h.enablePowerStage ≠ 0 := by
  have hlt := bit_lt_256 hBit
  have key : (sendControl h s).2.data.d0 &&& h.enablePowerStage = h.enablePowerStage := by
    have hf := sendControl_frame h s
    rw [hErr] at hf
    have hc : (s.dmcReady || decide (s.speedActual > 1000)) = true := by
      simp [hSpeed]
    rw [hc] at hf
    rw [hf]
    cases s.dmcRunning <;> simp only [if_true, Bool.false_eq_true, if_false]
    · rw [toU8_or, toU8_of_lt hlt, or_and_self_right]
    · split
      · rw [toU8_or, toU8_toU8, toU8_or (toU8 _), toU8_of_lt hlt, or_and_distrib_right,
          or_and_self_right, or_and_absorb]
      · rw [toU8_or, toU8_of_lt hlt, or_and_self_right]
  exact ⟨key, by rw [key]; exact bit_ne_zero hBit⟩

theorem sendControl_power_stage_above_1000_witness :
    spinningState.dmcError = false ∧ spinningState.speedActual > 1000 ∧
    spinningState.dmcReady = false ∧
    (sendControl sampleHeader spinningState).2.data.d0 &&& sampleHeader.enablePowerStage
      = sampleHeader.enablePowerStage :=
  ⟨by decide, by decide, by decide,
    (sendControl_power_stage_above_1000 sampleHeader spinningState (by decide) (by decide)
      ⟨7, by decide, by decide⟩).1⟩

/-! ## Decoding a Status frame -/

theorem get_of_isBytes {d : CanData} (hB : d.IsBytes) :
    d.get 0 = d.d0 ∧ d.get 1 = d.d1 ∧ d.get 2 = d.d2 ∧ d.get 3 = d.d3 ∧
    d.get 4 = d.d4 ∧ d.get 5 = d.d5 ∧ d.get 6 = d.d6 ∧ d.get 7 = d.d7 := by
  obtain ⟨h0, h1, h2, h3, h4, h5, h6, h7⟩ := hB
  simp only [CanData.get]
  exact ⟨toU8_of_lt h0, toU8_of_lt h1, toU8_of_lt h2, toU8_of_lt h3,
    toU8_of_lt h4, toU8_of_lt h5, toU8_of_lt h6, toU8_of_lt h7⟩

theorem word16_lt {hi lo : Nat} (hhi : hi < 256) (hlo : lo < 256) : word16 hi lo < 65536 := by
  rw [word16_eq hi lo hlo]; omega

theorem toU16_word16 {hi lo : Nat} (hhi : hi < 256) (hlo : lo < 256) :
    toU16 (word16 hi lo) = (hi <<< 8) ||| lo := by
  unfold toU16
  rw [Nat.mod_eq_of_lt (word16_lt hhi hlo)]
  exact Nat.or_comm _ _

theorem toInt16_bits (w : Nat) : (toInt16 w % 65536).toNat = w % 65536 := by
  unfold toInt16
  split <;> omega

/-- The state left by the `CAN_ID_STATUS` case, as one record update of the prior state. -/
theorem handleCanFrame_status (h : Header) (s : BrusaMotorController) (f : RX_CAN_FRAME)
    (hId : f.id = h.CAN_ID_STATUS) :
    (handleCanFrame h s f).1 =
      { s with
        statusBitField := toU16 (word16 (f.data.get 0) (f.data.get 1))
        torqueAvailable := toInt16 (word16 (f.data.get 2) (f.data.get 3))
        torqueActual := toInt16 (word16 (f.data.get 4) (f.data.get 5))
        speedActual := toInt16 (word16 (f.data.get 6) (f.data.get 7))
        dmcReady := decide (toU16 (word16 (f.data.get 0) (f.data.get 1)) &&& h.stateReady ≠ 0)
        dmcRunning :=
          decide (toU16 (word16 (f.data.get 0) (f.data.get 1)) &&& h.stateRunning ≠ 0)
        dmcError := decide (toU16 (word16 (f.data.get 0) (f.data.get 1)) &&& h.errorFlag ≠ 0)
        dmcWarning :=
          decide (toU16 (word16 (f.data.get 0) (f.data.get 1)) &&& h.warningFlag ≠ 0) } := by
  simp only [handleCanFrame, hId, if_true]

/-- C3 (contract): after a Status frame, `statusBitField` is `(b0 << 8) | b1`;
`torqueAvailable`, `torqueActual` and `speedActual` are the big-endian words at bytes
2-3, 4-5, 6-7 (stored in signed 16-bit fields, whose bit pattern is that word); each of
the four readiness flags is its mask test on the new status word; and the flags are the
same from every prior state. -/
theorem handleCanFrame_status_decode (h : Header) (s : BrusaMotorController)
    (f : RX_CAN_FRAME) (hId : f.id = h.CAN_ID_STATUS) (hB : f.data.IsBytes) :
    (handleCanFrame h s f).1.statusBitField = (f.data.d0 <<< 8) ||| f.data.d1 ∧
    (handleCanFrame h s f).1.torqueAvailable = toInt16 ((f.data.d2 <<< 8) ||| f.data.d3) ∧
    (handleCanFrame h s f).1.torqueActual = toInt16 ((f.data.d4 <<< 8) ||| f.data.d5) ∧
    (handleCanFrame h s f).1.speedActual = toInt16 ((f.data.d6 <<< 8) ||| f.data.d7) ∧
    ((handleCanFrame h s f).1.torqueAvailable % 65536).toNat
      = (f.data.d2 <<< 8) ||| f.data.d3 ∧
    ((handleCanFrame h s f).1.torqueActual % 65536).toNat = (f.data.d4 <<< 8) ||| f.data.d5 ∧
    ((handleCanFrame h s f).1.speedActual % 65536).toNat = (f.data.d6 <<< 8) ||| f.data.d7 ∧
    ((handleCanFrame h s f).1.dmcReady = true ↔
      (handleCanFrame h s f).1.statusBitField &&& h.stateReady ≠ 0) ∧
    ((handleCanFrame h s f).1.dmcRunning = true ↔
      (handleCanFrame h s f).1.statusBitField &&& h.stateRunning ≠ 0) ∧
    ((handleCanFrame h s f).1.dmcError = true ↔
      (handleCanFrame h s f).1.statusBitField &&& h.errorFlag ≠ 0) ∧
    ((handleCanFrame h s f).1.dmcWarning = true ↔
      (handleCanFrame h s f).1.statusBitField &&& h.warningFlag ≠ 0) ∧
    (∀ t : BrusaMotorController,
      (handleCanFrame h t f).1.dmcReady = (handleCanFrame h s f).1.dmcReady ∧
      (handleCanFrame h t f).1.dmcRunning = (handleCanFrame h s f).1.dmcRunning ∧
      (handleCanFrame h t f).1.dmcError = (handleCanFrame h s f).1.dmcError ∧
      (handleCanFrame h t f).1.dmcWarning = (handleCanFrame h s f).1.dmcWarning) := by
  obtain ⟨g0, g1, g2, g3, g4, g5, g6, g7⟩ := get_of_isBytes hB
  obtain ⟨b0, b1, b2, b3, b4, b5, b6, b7⟩ := hB
  have w01 := toU16_word16 b0 b1
  have c23 : word16 f.data.d2 f.data.d3 = (f.data.d2 <<< 8) ||| f.data.d3 := Nat.or_comm _ _
  have c45 : word16 f.data.d4 f.data.d5 = (f.data.d4 <<< 8) ||| f.data.d5 := Nat.or_comm _ _
  have c67 : word16 f.data.d6 f.data.d7 = (f.data.d6 <<< 8) ||| f.data.d7 := Nat.or_comm _ _
  have l23 := word16_lt b2 b3
  have l45 := word16_lt b4 b5
  have l67 := word16_lt b6 b7
  rw [handleCanFrame_status h s f hId]
  simp only [g0, g1, g2, g3, g4, g5, g6, g7, w01, c23, c45, c67, decide_eq_true_eq]
  rw [c23] at l23
  rw [c45] at l45
  rw [c67] at l67
  refine ⟨trivial, trivial, trivial, trivial, ?_, ?_, ?_, trivial, trivial, trivial, trivial, ?_⟩
  · rw [toInt16_bits]; exact Nat.mod_eq_of_lt l23
  · rw [toInt16_bits]; exact Nat.mod_eq_of_lt l45
  · rw [toInt16_bits]; exact Nat.mod_eq_of_lt l67
  · intro t
    rw [handleCanFrame_status h t f hId]
    simp only [g0, g1, w01]
    exact ⟨trivial, trivial, trivial, trivial⟩

theorem handleCanFrame_status_decode_witness :
    faultStatusFrame.id = sampleHeader.CAN_ID_STATUS ∧ faultStatusFrame.data.IsBytes ∧
    (handleCanFrame sampleHeader (new staleFrame) faultStatusFrame).1.statusBitField = 0x8204 ∧
    (handleCanFrame sampleHeader (new staleFrame) faultStatusFrame).1.torqueAvailable = 200 ∧
    (handleCanFrame sampleHeader (new staleFrame) faultStatusFrame).1.torqueActual = -100 ∧
    (handleCanFrame sampleHeader (new staleFrame) faultStatusFrame).1.speedActual = -3000 ∧
    (handleCanFrame sampleHeader errorState faultStatusFrame).1.dmcWarning
      = (handleCanFrame sampleHeader (new staleFrame) faultStatusFrame).1.dmcWarning :=
  have hw := handleCanFrame_status_decode sampleHeader (new staleFrame) faultStatusFrame
    (by decide) (by decide)
  ⟨by decide, by decide, hw.1, hw.2.1.trans (by decide), hw.2.2.1.trans (by decide),
    hw.2.2.2.1.trans (by decide), (hw.2.2.2.2.2.2.2.2.2.2.2 errorState).2.2.2⟩

/-! ## The tick schedule -/

theorem sendControl_tickCounter (h : Header) (s : BrusaMotorController) :
    (sendControl h s).1.tickCounter = s.tickCounter := by
  cases s
  rename_i dmcReady dmcRunning dmcError dmcWarning _ _ speedActual _ _ _ _ _ _ _ _ _ _ _ _ _ _
    powerMode _ _ _ _ _ _
  cases dmcError <;> cases dmcReady <;> cases dmcRunning <;> cases powerMode <;>
    by_cases hs : speedActual > 1000 <;>
    simp [sendControl, prepareOutputFrame, setData, orData, CanData.set, CanData.get, hs]

theorem sendControl2_tickCounter (h : Header) (s : BrusaMotorController) :
    (sendControl2 h s).1.tickCounter = s.tickCounter := by
  simp [sendControl2, prepareOutputFrame, setData]

theorem sendControl2_frame (h : Header) (s : BrusaMotorController) :
    (sendControl2 h s).2 = ⟨h.CAN_ID_CONTROL_2, 8, 0, 0,
      ⟨0x00, 0x00, 0x00, 0x00, 0xC3, 0x50, 0xC3, 0x50⟩⟩ := by
  simp [sendControl2, prepareOutputFrame, setData, CanData.set, toU8, hiByte, loByte]
  decide

theorem sendLimits_frame (h : Header) (s : BrusaMotorController) :
    (sendLimits h s).2 = ⟨h.CAN_ID_LIMIT, 8, 0, 0,
      ⟨0x03, 0xE8, 0x03, 0xE8, 0x00, 0x00, 0x00, 0x00⟩⟩ := by
  simp [sendLimits, prepareOutputFrame, setData, CanData.set, toU8, hiByte, loByte]
  decide

/-- One tick: the identifiers of the frames sent, in order, and the counter left. -/
theorem handleTick_step (h : Header) (s : BrusaMotorController) :
    (handleTick h s).2.map OutputFrame.id =
      (if s.tickCounter + 1 > 4 then [h.CAN_ID_CONTROL, h.CAN_ID_CONTROL_2, h.CAN_ID_LIMIT]
        else [h.CAN_ID_CONTROL]) ∧
    (handleTick h s).1.tickCounter = (if s.tickCounter + 1 > 4 then 0 else s.tickCounter + 1) := by
  unfold handleTick
  simp only [sendControl_tickCounter]
  split
  · simp [sendControl_frame, sendControl2_frame, sendLimits_frame]
  · simp [sendControl_frame, sendControl_tickCounter]

theorem tickN_tickCounter (h : Header) (s : BrusaMotorController) (hs : s.tickCounter = 0)
    (n : Nat) : (tickN h s n).tickCounter = n % 5 := by
  induction n with
  | zero => simpa [tickN] using hs
  | succ n ih =>
    simp only [tickN]
    rw [(handleTick_step h (tickN h s n)).2, ih]
    split <;> omega

theorem framesOfTicks_count (h : Header) (s : BrusaMotorController) (hs : s.tickCounter = 0)
    (hIds : h.TxIdsDistinct) (n : Nat) :
    ((framesOfTicks h s n).map OutputFrame.id).count h.CAN_ID_CONTROL = n ∧
    ((framesOfTicks h s n).map OutputFrame.id).count h.CAN_ID_CONTROL_2 = n / 5 ∧
    ((framesOfTicks h s n).map OutputFrame.id).count h.CAN_ID_LIMIT = n / 5 := by
  obtain ⟨h12, h13, h23⟩ := hIds
  induction n with
  | zero => simp [framesOfTicks]
  | succ n ih =>
    obtain ⟨i1, i2, i3⟩ := ih
    simp only [framesOfTicks, List.map_append, List.count_append]
    rw [(handleTick_step h (tickN h s n)).1, tickN_tickCounter h s hs n, i1, i2, i3]
    split
    · simp [List.count_cons, h12, h13, h23, Ne.symm h12, Ne.symm h13, Ne.symm h23]
      omega
    · simp [List.count_cons, h12, h13, h23, Ne.symm h12, Ne.symm h13, Ne.symm h23]
      omega

/-- C4 (contract): from the constructor state, the `(n+1)`-th call of `handleTick` sends
exactly `[Control]` when `n+1` is not a multiple of 5 and exactly
`[Control, Control-2, Limits]`, in this order, when it is; afterwards
`tickCounter = (n+1) mod 5`, which is at most 4; and (the three identifiers being
distinct) `n` ticks send the Control frame `n` times and the Control-2 and Limits
frames `n / 5` times each. -/
theorem handleTick_schedule (h : Header) (buf : OutputFrame) (n : Nat)
    (hIds : h.TxIdsDistinct) :
    (handleTick h (tickN h (new buf) n)).2.map OutputFrame.id =
      (if (n + 1) % 5 = 0 then [h.CAN_ID_CONTROL, h.CAN_ID_CONTROL_2, h.CAN_ID_LIMIT]
        else [h.CAN_ID_CONTROL]) ∧
    (handleTick h (tickN h (new buf) n)).1 = tickN h (new buf) (n + 1) ∧
    (tickN h (new buf) (n + 1)).tickCounter = (n + 1) % 5 ∧
    (tickN h (new buf) n).tickCounter ≤ 4 ∧
    ((framesOfTicks h (new buf) n).map OutputFrame.id).count h.CAN_ID_CONTROL = n ∧
    ((framesOfTicks h (new buf) n).map OutputFrame.id).count h.CAN_ID_CONTROL_2 = n / 5 ∧
    ((framesOfTicks h (new buf) n).map OutputFrame.id).count h.CAN_ID_LIMIT = n / 5 := by
  have h0 : (new buf).tickCounter = 0 := rfl
  have hc := tickN_tickCounter h (new buf) h0
  refine ⟨?_, rfl, hc (n + 1), ?_, framesOfTicks_count h (new buf) h0 hIds n⟩
  · rw [(handleTick_step h (tickN h (new buf) n)).1, hc n]
    split <;> split <;> first | rfl | omega
  · rw [hc n]; omega

theorem handleTick_schedule_witness :
    sampleHeader.TxIdsDistinct ∧
    (handleTick sampleHeader (tickN sampleHeader (new staleFrame) 9)).2.map OutputFrame.id
      = [0x210, 0x211, 0x212] ∧
    (tickN sampleHeader (new staleFrame) 10).tickCounter = 0 ∧
    ((framesOfTicks sampleHeader (new staleFrame) 9).map OutputFrame.id).count 0x211 = 1 :=
  have hw := handleTick_schedule sampleHeader staleFrame 9 (by decide)
  ⟨by decide, hw.1, hw.2.2.1, hw.2.2.2.2.2.1⟩

/-! ## The end-to-end scenario -/

/-- The frames of one tick in terms of the three senders. -/
theorem handleTick_frames_of_le (h : Header) (s : BrusaMotorController)
    (hc : s.tickCounter + 1 ≤ 4) :
    (handleTick h s).2 = [(sendControl h { s with tickCounter := s.tickCounter + 1 }).2] := by
  unfold handleTick
  simp only [sendControl_tickCounter]
  rw [if_neg (by omega)]

/-- C5, as the claim states it, fails: in the scenario, with `stateRunning` at bit 2, the
only frame of the next tick is the control frame `03 00 00 00 00 00 00 00`, in which the
power-stage bit (`0x80` in the sample header) is clear. -/
theorem scenario_power_stage_not_enabled :
    sampleHeader.stateRunning = 0x0004 ∧
    (handleCanFrame sampleHeader (new staleFrame) scenarioStatusFrame).1.speedActual = 1000 ∧
    (handleCanFrame sampleHeader (new staleFrame) scenarioStatusFrame).1.dmcReady = false ∧
    (handleTick sampleHeader
        (handleCanFrame sampleHeader (new staleFrame) scenarioStatusFrame).1).2
      = [⟨sampleHeader.CAN_ID_CONTROL, 8, 0, 0, ⟨0x03, 0, 0, 0, 0, 0, 0, 0⟩⟩] ∧
    ¬ (∃ f ∈ (handleTick sampleHeader
        (handleCanFrame sampleHeader (new staleFrame) scenarioStatusFrame).1).2,
      f.data.d0 &&& sampleHeader.enablePowerStage ≠ 0) := by
  decide

/-- C5 (contract, amended): from the constructor state, the Status frame
`00 04 00 C8 00 64 03 E8` decodes to `statusBitField = 0x0004`, `torqueAvailable = 200`,
`torqueActual = 100`, `speedActual = 1000`; with bit 2 the `stateRunning` mask and
`stateReady`, `errorFlag` not containing bit 2, `dmcRunning = true`, `dmcReady = false`
and `dmcError = false`. The next `handleTick` sends one frame, the control frame, whose
byte 0 is `enablePositiveTorqueSpeed | enableNegativeTorqueSpeed` and whose bytes 1..7 are
zero: 1000 rpm is not above the threshold, so the power-stage bit is clear. -/
theorem scenario_decode_then_tick (h : Header) (buf : OutputFrame) (dlc : Nat)
    (hRun : h.stateRunning = 0x0004) (hReady : h.stateReady &&& 0x0004 = 0)
    (hErr : h.errorFlag &&& 0x0004 = 0) :
    (handleCanFrame h (new buf)
      ⟨h.CAN_ID_STATUS, dlc, ⟨0x00, 0x04, 0x00, 0xC8, 0x00, 0x64, 0x03, 0xE8⟩⟩).1
      = { new buf with
          statusBitField := 0x0004, torqueAvailable := 200, torqueActual := 100,
          speedActual := 1000, dmcRunning := true, dmcReady := false, dmcError := false,
          dmcWarning := decide (0x0004 &&& h.warningFlag ≠ 0) } ∧
    (handleTick h (handleCanFrame h (new buf)
      ⟨h.CAN_ID_STATUS, dlc, ⟨0x00, 0x04, 0x00, 0xC8, 0x00, 0x64, 0x03, 0xE8⟩⟩).1).2
      = [⟨h.CAN_ID_CONTROL, 8, 0, 0,
          ⟨toU8 (h.enablePositiveTorqueSpeed ||| h.enableNegativeTorqueSpeed),
            0, 0, 0, 0, 0, 0, 0⟩⟩] ∧
    (h.ControlMasksOk →
      toU8 (h.enablePositiveTorqueSpeed ||| h.enableNegativeTorqueSpeed)
        = h.enablePositiveTorqueSpeed ||| h.enableNegativeTorqueSpeed ∧
      toU8 (h.enablePositiveTorqueSpeed ||| h.enableNegativeTorqueSpeed)
        &&& h.enablePowerStage = 0) := by
  have hs1 : (handleCanFrame h (new buf)
      ⟨h.CAN_ID_STATUS, dlc, ⟨0x00, 0x04, 0x00, 0xC8, 0x00, 0x64, 0x03, 0xE8⟩⟩).1
      = { new buf with
          statusBitField := 0x0004, torqueAvailable := 200, torqueActual := 100,
          speedActual := 1000, dmcRunning := true, dmcReady := false, dmcError := false,
          dmcWarning := decide (0x0004 &&& h.warningFlag ≠ 0) } := by
    rw [handleCanFrame_status h _ _ rfl]
    have w : toU16 (word16 (CanData.get ⟨0x00, 0x04, 0x00, 0xC8, 0x00, 0x64, 0x03, 0xE8⟩ 0)
        (CanData.get ⟨0x00, 0x04, 0x00, 0xC8, 0x00, 0x64, 0x03, 0xE8⟩ 1)) = 4 := by decide
    have t1 : toInt16 (word16 (CanData.get ⟨0x00, 0x04, 0x00, 0xC8, 0x00, 0x64, 0x03, 0xE8⟩ 2)
        (CanData.get ⟨0x00, 0x04, 0x00, 0xC8, 0x00, 0x64, 0x03, 0xE8⟩ 3)) = 200 := by decide
    have t2 : toInt16 (word16 (CanData.get ⟨0x00, 0x04, 0x00, 0xC8, 0x00, 0x64, 0x03, 0xE8⟩ 4)
        (CanData.get ⟨0x00, 0x04, 0x00, 0xC8, 0x00, 0x64, 0x03, 0xE8⟩ 5)) = 100 := by decide
    have t3 : toInt16 (word16 (CanData.get ⟨0x00, 0x04, 0x00, 0xC8, 0x00, 0x64, 0x03, 0xE8⟩ 6)
        (CanData.get ⟨0x00, 0x04, 0x00, 0xC8, 0x00, 0x64, 0x03, 0xE8⟩ 7)) = 1000 := by decide
    have r1 : (4 : Nat) &&& h.stateReady = 0 := by rw [Nat.and_comm]; exact hReady
    have r2 : (4 : Nat) &&& h.errorFlag = 0 := by rw [Nat.and_comm]; exact hErr
    simp only [w, t1, t2, t3, hRun, r1, r2]
    rfl
  refine ⟨hs1, ?_, ?_⟩
  · rw [hs1, handleTick_frames_of_le h _ (by show (0 : Nat) + 1 ≤ 4; omega), sendControl_frame]
    rfl
  · intro hOk
    obtain ⟨hp, hn, _, _, _, hps⟩ := controlMasksOk_bits hOk
    have hd := hOk.2
    simp only [Header.controlMasks, List.pairwise_cons, List.mem_cons, List.mem_singleton,
      forall_eq_or_imp, forall_eq] at hd
    have e1 := toU8_of_lt (or_lt_256 (bit_lt_256 hp) (bit_lt_256 hn))
    refine ⟨e1, ?_⟩
    rw [e1, or_and_distrib_right, bit_and_bit_of_ne hp hps (by tauto),
      bit_and_bit_of_ne hn hps (by tauto)]
    rfl

theorem scenario_decode_then_tick_witness :
    sampleHeader.stateRunning = 0x0004 ∧ sampleHeader.stateReady &&& 0x0004 = 0 ∧
    sampleHeader.errorFlag &&& 0x0004 = 0 ∧ sampleHeader.ControlMasksOk ∧
    (handleTick sampleHeader (handleCanFrame sampleHeader (new staleFrame)
      ⟨sampleHeader.CAN_ID_STATUS, 8, ⟨0x00, 0x04, 0x00, 0xC8, 0x00, 0x64, 0x03, 0xE8⟩⟩).1).2
      = [⟨0x210, 8, 0, 0, ⟨0x03, 0, 0, 0, 0, 0, 0, 0⟩⟩] ∧
    (0x03 : Nat) &&& sampleHeader.enablePowerStage = 0 :=
  have hw := scenario_decode_then_tick sampleHeader staleFrame 8 (by decide) (by decide)
    (by decide)
  ⟨by decide, by decide, by decide, by decide, hw.2.1, (hw.2.2 (by decide)).2⟩

/-! ## Decoding an Errors frame -/

theorem rxIdsDistinct_errors {h : Header} (hIds : h.RxIdsDistinct) :
    h.CAN_ID_ERRORS ≠ h.CAN_ID_STATUS ∧ h.CAN_ID_ERRORS ≠ h.CAN_ID_ACTUAL_VALUES := by
  simp only [Header.RxIdsDistinct, List.pairwise_cons, List.mem_cons, List.mem_singleton,
    forall_eq_or_imp, forall_eq] at hIds
  exact ⟨Ne.symm hIds.1.2.1, Ne.symm hIds.2.1.1⟩

/-- The state left by the `CAN_ID_ERRORS` case, as one record update of the prior state. -/
theorem handleCanFrame_errors (h : Header) (s : BrusaMotorController) (f : RX_CAN_FRAME)
    (hIds : h.RxIdsDistinct) (hId : f.id = h.CAN_ID_ERRORS) :
    (handleCanFrame h s f).1 =
      { s with
        errorBitField := toU32 (f.data.get 1 ||| (f.data.get 0 <<< 8) ||| (f.data.get 5 <<< 16)
          ||| (f.data.get 4 <<< 24))
        warningBitField := toU16 (word16 (f.data.get 6) (f.data.get 7)) } := by
  obtain ⟨n1, n2⟩ := rxIdsDistinct_errors hIds
  simp only [handleCanFrame, hId, if_neg n1, if_neg n2, if_true]

theorem pack32 {a b c d : Nat} (ha : a < 256) (hb : b < 256) (hc : c < 256) (_hd : d < 256) :
    a ||| (b <<< 8) ||| (c <<< 16) ||| (d <<< 24)
      = a + b * 256 + c * 65536 + d * 16777216 := by
  have e1 : a ||| (b <<< 8) = a + b * 256 := by
    have := Nat.mul_add_lt_is_or (i := 8) ha b
    rw [Nat.shiftLeft_eq, Nat.or_comm, Nat.mul_comm]
    omega
  have l1 : a + b * 256 < 2 ^ 16 := by omega
  have e2 : (a + b * 256) ||| (c <<< 16) = a + b * 256 + c * 65536 := by
    have := Nat.mul_add_lt_is_or (i := 16) l1 c
    rw [Nat.shiftLeft_eq, Nat.or_comm, Nat.mul_comm]
    omega
  have l2 : a + b * 256 + c * 65536 < 2 ^ 24 := by omega
  have e3 : (a + b * 256 + c * 65536) ||| (d <<< 24)
      = a + b * 256 + c * 65536 + d * 16777216 := by
    have := Nat.mul_add_lt_is_or (i := 24) l2 d
    rw [Nat.shiftLeft_eq, Nat.or_comm, Nat.mul_comm]
    omega
  rw [e1, e2, e3]

/-- Four base-256 digits are determined by the number they make up. -/
theorem digits_inj {a b c d a' b' c' d' : Nat} (ha : a < 256) (hb : b < 256) (hc : c < 256)
    (ha' : a' < 256) (hb' : b' < 256) (hc' : c' < 256)
    (he : a + b * 256 + c * 65536 + d * 16777216
      = a' + b' * 256 + c' * 65536 + d' * 16777216) :
    a = a' ∧ b = b' ∧ c = c' ∧ d = d' := by
  have h1 : a = a' := by omega
  subst h1
  have h2 : b = b' := by omega
  subst h2
  have h3 : c = c' := by omega
  subst h3
  have h4 : d = d' := by omega
  exact ⟨rfl, rfl, rfl, h4⟩

theorem be32_eq {b0 b1 b2 b3 : Nat} (h0 : b0 < 256) (h1 : b1 < 256) (h2 : b2 < 256)
    (h3 : b3 < 256) : be32 b0 b1 b2 b3 = b3 + b2 * 256 + b1 * 65536 + b0 * 16777216 := by
  rw [← pack32 h3 h2 h1 h0]
  unfold be32
  apply Nat.eq_of_testBit_eq
  intro i
  simp only [Nat.testBit_or]
  cases (b0 <<< 24).testBit i <;> cases (b1 <<< 16).testBit i <;>
    cases (b2 <<< 8).testBit i <;> cases b3.testBit i <;> rfl

/-- C6 (numerical): after an Errors frame `[E1, E0, _, _, E3, E2, W1, W0]`,
`errorBitField = E0 | (E1 << 8) | (E2 << 16) | (E3 << 24)` and
`warningBitField = W0 | (W1 << 8)`; replacing bytes 2 and 3 changes neither the state nor
the log; and when bytes 2-3 differ from bytes 4-5 the error word is neither the contiguous
big-endian read of bytes 0..3 nor the same assembly taken from bytes 0-1 and 2-3. -/
theorem handleCanFrame_errors_decode (h : Header) (s : BrusaMotorController)
    (f : RX_CAN_FRAME) (hIds : h.RxIdsDistinct) (hId : f.id = h.CAN_ID_ERRORS)
    (hB : f.data.IsBytes) :
    (handleCanFrame h s f).1.errorBitField =
      f.data.d1 ||| (f.data.d0 <<< 8) ||| (f.data.d5 <<< 16) ||| (f.data.d4 <<< 24) ∧
    (handleCanFrame h s f).1.errorBitField < 2 ^ 32 ∧
    (handleCanFrame h s f).1.warningBitField = f.data.d7 ||| (f.data.d6 <<< 8) ∧
    (∀ x y : Nat,
      handleCanFrame h s { f with data := { f.data with d2 := x, d3 := y } }
        = handleCanFrame h s f) ∧
    ((f.data.d2, f.data.d3) ≠ (f.data.d4, f.data.d5) →
      (handleCanFrame h s f).1.errorBitField
        ≠ be32 f.data.d0 f.data.d1 f.data.d2 f.data.d3 ∧
      (handleCanFrame h s f).1.errorBitField
        ≠ f.data.d1 ||| (f.data.d0 <<< 8) ||| (f.data.d3 <<< 16) ||| (f.data.d2 <<< 24)) := by
  obtain ⟨g0, g1, g2, g3, g4, g5, g6, g7⟩ := get_of_isBytes hB
  obtain ⟨b0, b1, b2, b3, b4, b5, b6, b7⟩ := hB
  have hp := pack32 b1 b0 b5 b4
  have he : (handleCanFrame h s f).1.errorBitField =
      f.data.d1 ||| (f.data.d0 <<< 8) ||| (f.data.d5 <<< 16) ||| (f.data.d4 <<< 24) := by
    rw [handleCanFrame_errors h s f hIds hId]
    simp only [g0, g1, g4, g5]
    unfold toU32
    rw [hp]
    omega
  refine ⟨he, ?_, ?_, ?_, ?_⟩
  · rw [he, hp]; omega
  · rw [handleCanFrame_errors h s f hIds hId]
    simp only [g6, g7]
    have := toU16_word16 b6 b7
    rw [this]
    exact Nat.or_comm _ _
  · intro x y
    obtain ⟨n1, n2⟩ := rxIdsDistinct_errors hIds
    simp only [handleCanFrame, hId, if_neg n1, if_neg n2, if_true, CanData.get]
  · intro hne
    rw [he, hp, be32_eq b0 b1 b2 b3, pack32 b1 b0 b3 b2]
    have hne2 : ¬ (f.data.d2 = f.data.d4 ∧ f.data.d3 = f.data.d5) := by
      intro hh
      exact hne (by rw [hh.1, hh.2])
    constructor
    · intro heq
      obtain ⟨e1, e2, e3, e4⟩ := digits_inj b1 b0 b5 b3 b2 b1 heq
      exact hne2 ⟨by omega, by omega⟩
    · intro heq
      obtain ⟨_, _, e3, e4⟩ := digits_inj b1 b0 b5 b1 b0 b3 heq
      exact hne2 ⟨e4.symm, e3.symm⟩

theorem handleCanFrame_errors_decode_witness :
    sampleHeader.RxIdsDistinct ∧ sampleErrorsFrame.id = sampleHeader.CAN_ID_ERRORS ∧
    sampleErrorsFrame.data.IsBytes ∧
    (handleCanFrame sampleHeader (new staleFrame) sampleErrorsFrame).1.errorBitField
      = 0x9ABC1234 ∧
    (handleCanFrame sampleHeader (new staleFrame) sampleErrorsFrame).1.warningBitField
      = 0xDEF0 ∧
    (handleCanFrame sampleHeader (new staleFrame) sampleErrorsFrame).1.errorBitField
      ≠ be32 0x12 0x34 0x56 0x78 :=
  have hw := handleCanFrame_errors_decode sampleHeader (new staleFrame) sampleErrorsFrame
    (by decide) (by decide) (by decide)
  ⟨by decide, by decide, by decide, hw.1.trans (by decide), hw.2.2.1.trans (by decide),
    (hw.2.2.2.2 (by decide)).1⟩

/-! ## Stale buffer content -/

theorem sendControl2_frame_eq (h : Header) (s t : BrusaMotorController) :
    (sendControl2 h s).2 = (sendControl2 h t).2 := by
  rw [sendControl2_frame, sendControl2_frame]

theorem sendLimits_frame_eq (h : Header) (s t : BrusaMotorController) :
    (sendLimits h s).2 = (sendLimits h t).2 := by
  rw [sendLimits_frame, sendLimits_frame]

/-- C7 (hyperproperty): whatever the output buffer holds from an earlier frame, each of
`sendControl`, `sendControl2` and `sendLimits` sends the same frame, with its own
identifier, `dlc = 8`, `ide = 0`, `rtr = 0`; in the control frame bytes 1, 6, 7 are zero
and bytes 2..5 are zero unless the command fields are written; `prepareOutputFrame`
itself leaves byte 0 as it was. -/
theorem senders_ignore_stale_buffer (h : Header) (s : BrusaMotorController)
    (f1 f2 : OutputFrame) :
    ((sendControl h { s with outputFrame := f1 }).2
      = (sendControl h { s with outputFrame := f2 }).2 ∧
    (sendControl2 h { s with outputFrame := f1 }).2
      = (sendControl2 h { s with outputFrame := f2 }).2 ∧
    (sendLimits h { s with outputFrame := f1 }).2
      = (sendLimits h { s with outputFrame := f2 }).2) ∧
    ((sendControl h s).2.id = h.CAN_ID_CONTROL ∧ (sendControl h s).2.dlc = 8 ∧
      (sendControl h s).2.ide = 0 ∧ (sendControl h s).2.rtr = 0) ∧
    ((sendControl2 h s).2.id = h.CAN_ID_CONTROL_2 ∧ (sendControl2 h s).2.dlc = 8 ∧
      (sendControl2 h s).2.ide = 0 ∧ (sendControl2 h s).2.rtr = 0) ∧
    ((sendLimits h s).2.id = h.CAN_ID_LIMIT ∧ (sendLimits h s).2.dlc = 8 ∧
      (sendLimits h s).2.ide = 0 ∧ (sendLimits h s).2.rtr = 0) ∧
    ((sendControl h s).2.data.d1 = 0 ∧ (sendControl h s).2.data.d6 = 0 ∧
      (sendControl h s).2.data.d7 = 0) ∧
    ((s.dmcError = true ∨ (s.dmcReady = false ∧ ¬ s.speedActual > 1000) ∨ s.dmcRunning = false) →
      (sendControl h s).2.data.d2 = 0 ∧ (sendControl h s).2.data.d3 = 0 ∧
      (sendControl h s).2.data.d4 = 0 ∧ (sendControl h s).2.data.d5 = 0) ∧
    (∀ id : Nat, (s.prepareOutputFrame id).outputFrame.data.d0 = s.outputFrame.data.d0) := by
  refine ⟨⟨?_, sendControl2_frame_eq h _ _, sendLimits_frame_eq h _ _⟩, ?_, ?_, ?_, ?_, ?_, ?_⟩
  · rw [sendControl_frame, sendControl_frame]
  · rw [sendControl_frame]; exact ⟨rfl, rfl, rfl, rfl⟩
  · rw [sendControl2_frame]; exact ⟨rfl, rfl, rfl, rfl⟩
  · rw [sendLimits_frame]; exact ⟨rfl, rfl, rfl, rfl⟩
  · rw [sendControl_frame]
    cases s.dmcError <;> cases (s.dmcReady || decide (s.speedActual > 1000)) <;>
      cases s.dmcRunning <;> exact ⟨rfl, rfl, rfl⟩
  · intro hgate
    rw [sendControl_frame]
    rcases hgate with he | ⟨hr, hsp⟩ | hrun
    · rw [he]; exact ⟨rfl, rfl, rfl, rfl⟩
    · have hc : (s.dmcReady || decide (s.speedActual > 1000)) = false := by simp [hr, hsp]
      rw [hc]
      cases s.dmcError <;> exact ⟨rfl, rfl, rfl, rfl⟩
    · rw [hrun]
      cases s.dmcError <;> cases (s.dmcReady || decide (s.speedActual > 1000)) <;>
        exact ⟨rfl, rfl, rfl, rfl⟩
  · intro id
    rfl

theorem senders_ignore_stale_buffer_witness :
    (sendControl sampleHeader { errorState with outputFrame := staleFrame }).2
      = (sendControl sampleHeader
          { errorState with outputFrame := ⟨0, 0, 0, 0, ⟨1, 2, 3, 4, 5, 6, 7, 8⟩⟩ }).2 ∧
    errorState.dmcError = true ∧
    (sendControl sampleHeader errorState).2.data.d2 = 0 ∧
    (sendControl sampleHeader errorState).2.data.d5 = 0 :=
  have hw := senders_ignore_stale_buffer sampleHeader errorState staleFrame
    ⟨0, 0, 0, 0, ⟨1, 2, 3, 4, 5, 6, 7, 8⟩⟩
  ⟨hw.1.1, by decide, (hw.2.2.2.2.2.1 (Or.inl (by decide))).1,
    (hw.2.2.2.2.2.1 (Or.inl (by decide))).2.2.2⟩

/-! ## The command fields of the control frame -/

theorem toU8_hiByte_intBits (v : Int) : toU8 (hiByte (intBits v)) = (encodeBE16 v).1 := by
  rw [hiByte_eq]
  unfold toU8 intBits encodeBE16
  omega

theorem toU8_loByte_intBits (v : Int) : toU8 (loByte (intBits v)) = (encodeBE16 v).2 := by
  rw [loByte_eq]
  unfold toU8 intBits encodeBE16
  omega

/-- Under `ControlMasksOk`: the masks are bytes and the speed-mode bit is in none of the
other masks that `sendControl` writes. -/
theorem controlMasksOk_speedMode {h : Header} (hOk : h.ControlMasksOk) :
    h.enablePositiveTorqueSpeed &&& h.enableSpeedMode = 0 ∧
    h.enableNegativeTorqueSpeed &&& h.enableSpeedMode = 0 ∧
    h.clearErrorLatch &&& h.enableSpeedMode = 0 ∧
    h.enablePowerStage &&& h.enableSpeedMode = 0 := by
  obtain ⟨hp, hn, hc, _, hsm, hps⟩ := controlMasksOk_bits hOk
  have hd := hOk.2
  simp only [Header.controlMasks, List.pairwise_cons, List.mem_cons, List.mem_singleton,
    forall_eq_or_imp, forall_eq] at hd
  exact ⟨bit_and_bit_of_ne hp hsm (by tauto), bit_and_bit_of_ne hn hsm (by tauto),
    bit_and_bit_of_ne hc hsm (by tauto), bit_and_bit_of_ne hps hsm (by tauto)⟩

/-- C8 (contract): if `dmcRunning` is false the control frame has the speed-mode bit clear
and bytes 2..5 zero; and when the command fields are written (no error, ready or above
1000 rpm, running), bytes 2-3 are the big-endian 16-bit two's-complement encoding of
`requestedRPM` and bytes 4-5 that of `requestedTorque * 10`, both as they stand when
`sendControl` writes them, and the speed-mode bit is set exactly when
`powerMode = modeSpeed`. -/
theorem sendControl_command_fields (h : Header) (s : BrusaMotorController)
    (hOk : h.ControlMasksOk) :
    (s.dmcRunning = false →
      (sendControl h s).2.data.d0 &&& h.enableSpeedMode = 0 ∧
      (sendControl h s).2.data.d2 = 0 ∧ (sendControl h s).2.data.d3 = 0 ∧
      (sendControl h s).2.data.d4 = 0 ∧ (sendControl h s).2.data.d5 = 0) ∧
    (s.dmcError = false → (s.dmcReady = true ∨ s.speedActual > 1000) → s.dmcRunning = true →
      ((sendControl h s).2.data.d2, (sendControl h s).2.data.d3)
        = encodeBE16 (sendControl h s).1.requestedRPM ∧
      ((sendControl h s).2.data.d4, (sendControl h s).2.data.d5)
        = encodeBE16 ((sendControl h s).1.requestedTorque * 10) ∧
      ((sendControl h s).2.data.d0 &&& h.enableSpeedMode ≠ 0 ↔
        s.powerMode = PowerMode.modeSpeed)) := by
  obtain ⟨hp, hn, hc, _, hsm, hps⟩ := controlMasksOk_bits hOk
  obtain ⟨a1, a2, a3, a4⟩ := controlMasksOk_speedMode hOk
  have lpn := or_lt_256 (bit_lt_256 hp) (bit_lt_256 hn)
  have e0 := toU8_of_lt lpn
  have e1 := toU8_of_lt (or_lt_256 lpn (bit_lt_256 hc))
  have e2 := toU8_of_lt (or_lt_256 lpn (bit_lt_256 hps))
  have e3 := toU8_of_lt (or_lt_256 (or_lt_256 lpn (bit_lt_256 hps)) (bit_lt_256 hsm))
  have z0 : (h.enablePositiveTorqueSpeed ||| h.enableNegativeTorqueSpeed)
      &&& h.enableSpeedMode = 0 := by
    rw [or_and_distrib_right, a1, a2]; rfl
  have z1 : (h.enablePositiveTorqueSpeed ||| h.enableNegativeTorqueSpeed ||| h.clearErrorLatch)
      &&& h.enableSpeedMode = 0 := by
    rw [or_and_distrib_right, z0, a3]; rfl
  have z2 : (h.enablePositiveTorqueSpeed ||| h.enableNegativeTorqueSpeed ||| h.enablePowerStage)
      &&& h.enableSpeedMode = 0 := by
    rw [or_and_distrib_right, z0, a4]; rfl
  constructor
  · intro hrun
    rw [sendControl_frame, hrun]
    cases s.dmcError <;> cases (s.dmcReady || decide (s.speedActual > 1000)) <;>
      simp only [if_true, Bool.false_eq_true, if_false, e0, e1, e2, z0, z1, z2] <;>
      exact ⟨trivial, trivial, trivial, trivial, trivial⟩
  · intro herr hgate hrun
    have hg : (s.dmcReady || decide (s.speedActual > 1000)) = true := by
      rcases hgate with hr | hsp
      · simp [hr]
      · simp [hsp]
    rw [sendControl_requestedRPM, sendControl_requestedTorque, sendControl_frame, herr, hg, hrun]
    simp only [if_true, Bool.false_eq_true, if_false, toU8_hiByte_intBits,
      toU8_loByte_intBits]
    refine ⟨by trivial, by trivial, ?_⟩
    cases hm : s.powerMode
    · simp only [if_neg (show PowerMode.modeTorque ≠ PowerMode.modeSpeed by decide), e0, e2, z2]
      simp
    · simp only [if_true, e0, e2, e3, or_and_self_right]
      simp [bit_ne_zero hsm]

theorem sendControl_command_fields_witness :
    sampleHeader.ControlMasksOk ∧ runningState.dmcError = false ∧
    runningState.dmcReady = true ∧ runningState.dmcRunning = true ∧
    (sendControl sampleHeader runningState).2.data
      = ⟨0xC3, 0x00, 0xFF, 0x38, 0x01, 0xF4, 0x00, 0x00⟩ ∧
    ((sendControl sampleHeader runningState).2.data.d2,
      (sendControl sampleHeader runningState).2.data.d3)
      = encodeBE16 (sendControl sampleHeader runningState).1.requestedRPM ∧
    (sendControl sampleHeader runningState).1.requestedRPM = -200 :=
  have hw := (sendControl_command_fields sampleHeader runningState (by decide)).2
    (by decide) (Or.inl (by decide)) (by decide)
  ⟨by decide, by decide, by decide, by decide, by decide, hw.1, by decide⟩

/-! ## The byte codec -/

/-- C9 (algebraic): the encode path's byte pair `((v & 0xFF00) >> 8, v & 0x00FF)` of a
16-bit value is mapped back to the value by the decode path's `lo | (hi << 8)`, and
encoding a decoded pair of bytes returns the pair; the high byte is the first of the two
payload bytes on both paths (bytes 4-5 of the Control-2 frame, bytes 0-1 of the Limits
frame and of a Status frame). -/
theorem codec_round_trip (v hi lo : Nat) (hv : v < 65536) (hhi : hi < 256) (hlo : lo < 256)
    (h : Header) (s : BrusaMotorController) (dlc : Nat) (d : CanData) :
    word16 (hiByte v) (loByte v) = v ∧
    hiByte v < 256 ∧ loByte v < 256 ∧
    hiByte (word16 hi lo) = hi ∧ loByte (word16 hi lo) = lo ∧ word16 hi lo < 65536 ∧
    ((sendControl2 h s).2.data.d4 = hiByte 50000 ∧ (sendControl2 h s).2.data.d5 = loByte 50000) ∧
    ((sendLimits h s).2.data.d0 = hiByte 1000 ∧ (sendLimits h s).2.data.d1 = loByte 1000) ∧
    (handleCanFrame h s ⟨h.CAN_ID_STATUS, dlc, d⟩).1.statusBitField
      = toU16 (word16 (d.get 0) (d.get 1)) := by
  have hl : loByte v < 256 := by rw [loByte_eq]; omega
  refine ⟨?_, ?_, hl, ?_, ?_, word16_lt hhi hlo, ?_, ?_, ?_⟩
  · rw [word16_eq _ _ hl, hiByte_eq, loByte_eq]; omega
  · rw [hiByte_eq]; omega
  · rw [word16_eq _ _ hlo, hiByte_eq]; omega
  · rw [word16_eq _ _ hlo, loByte_eq]; omega
  · rw [sendControl2_frame]; exact ⟨rfl, rfl⟩
  · rw [sendLimits_frame]; exact ⟨rfl, rfl⟩
  · rw [handleCanFrame_status h s _ rfl]

theorem codec_round_trip_witness :
    word16 (hiByte 0xF448) (loByte 0xF448) = 0xF448 ∧
    hiByte (word16 0xC3 0x50) = 0xC3 ∧ loByte (word16 0xC3 0x50) = 0x50 ∧
    word16 0xC3 0x50 = 50000 :=
  have hw := codec_round_trip 0xF448 0xC3 0x50 (by decide) (by decide) (by decide)
    sampleHeader (new staleFrame) 8 ⟨0, 0, 0, 0, 0, 0, 0, 0⟩
  ⟨hw.1, hw.2.2.2.1, hw.2.2.2.2.1, by decide⟩

/-! ## Decoding twice -/

/-- C10 (algebraic): decoding the same frame a second time changes nothing: the state
after two applications of `handleCanFrame` is the state after one (every field), and the
second application emits the same log events again. This holds for every frame, in
particular for every Status frame. -/
theorem handleCanFrame_idempotent (h : Header) (s : BrusaMotorController)
    (f : RX_CAN_FRAME) :
    (handleCanFrame h (handleCanFrame h s f).1 f).1 = (handleCanFrame h s f).1 ∧
    (handleCanFrame h (handleCanFrame h s f).1 f).2 = (handleCanFrame h s f).2 := by
  simp only [handleCanFrame]
  split_ifs <;> exact ⟨rfl, rfl⟩

/-! ## Unknown identifiers and the length code -/

/-- C11 (error handling): a frame whose identifier is none of `CAN_ID_STATUS`,
`CAN_ID_ACTUAL_VALUES`, `CAN_ID_ERRORS`, `CAN_ID_TORQUE_LIMIT`, `CAN_ID_TEMP` leaves the
whole controller state as it was, whatever its payload, and the only effect is one
debug-severity log event; `handleCanFrame` is a total function, so nothing is raised. -/
theorem handleCanFrame_unknown_id (h : Header) (s : BrusaMotorController) (f : RX_CAN_FRAME)
    (h1 : f.id ≠ h.CAN_ID_STATUS) (h2 : f.id ≠ h.CAN_ID_ACTUAL_VALUES)
    (h3 : f.id ≠ h.CAN_ID_ERRORS) (h4 : f.id ≠ h.CAN_ID_TORQUE_LIMIT)
    (h5 : f.id ≠ h.CAN_ID_TEMP) :
    handleCanFrame h s f = (s, [⟨Severity.debug, "DMC5: received unknown frame id %X"⟩]) ∧
    (handleCanFrame h s f).1 = s ∧
    (handleCanFrame h s f).2.length = 1 ∧
    (∀ e ∈ (handleCanFrame h s f).2, e.level = Severity.debug) := by
  have he : handleCanFrame h s f
      = (s, [⟨Severity.debug, "DMC5: received unknown frame id %X"⟩]) := by
    simp only [handleCanFrame, if_neg h1, if_neg h2, if_neg h3, if_neg h4, if_neg h5]
  rw [he]
  refine ⟨rfl, rfl, rfl, ?_⟩
  intro e hm
  rw [List.mem_singleton] at hm
  rw [hm]

theorem handleCanFrame_unknown_id_witness :
    unknownFrame.id ≠ sampleHeader.CAN_ID_STATUS ∧
    (handleCanFrame sampleHeader errorState unknownFrame).1 = errorState ∧
    (handleCanFrame sampleHeader errorState unknownFrame).2.length = 1 :=
  have hw := handleCanFrame_unknown_id sampleHeader errorState unknownFrame
    (by decide) (by decide) (by decide) (by decide) (by decide)
  ⟨by decide, hw.2.1, hw.2.2.1⟩

/-- C12, as the claim states it, fails: a Status frame with length code 3 is not dropped;
it raises `dmcError` and sets `speedActual = 3000` in a state where both were clear. -/
theorem short_status_frame_is_decoded :
    shortStatusFrame.dlc = 3 ∧ shortStatusFrame.id = sampleHeader.CAN_ID_STATUS ∧
    (new staleFrame).dmcError = false ∧
    (handleCanFrame sampleHeader (new staleFrame) shortStatusFrame).1.dmcError = true ∧
    (handleCanFrame sampleHeader (new staleFrame) shortStatusFrame).1.speedActual = 3000 ∧
    (handleCanFrame sampleHeader (new staleFrame) shortStatusFrame).1 ≠ new staleFrame := by
  decide

/-- C12 (error handling, amended): `handleCanFrame` does not read the length code of a
received frame: two frames with the same identifier and the same eight data bytes leave
the same state and the same log whatever their length codes are, so a frame with a known
identifier is decoded from `data[0..7]` also when its length code is not 8; a Status
frame of any length code sets `dmcError` from the mask test on bytes 0-1 and `speedActual`
from bytes 6-7. -/
theorem handleCanFrame_ignores_dlc (h : Header) (s : BrusaMotorController)
    (id dlc1 dlc2 : Nat) (d : CanData) :
    handleCanFrame h s ⟨id, dlc1, d⟩ = handleCanFrame h s ⟨id, dlc2, d⟩ ∧
    (handleCanFrame h s ⟨h.CAN_ID_STATUS, dlc1, d⟩).1.dmcError
      = decide (toU16 (word16 (d.get 0) (d.get 1)) &&& h.errorFlag ≠ 0) ∧
    (handleCanFrame h s ⟨h.CAN_ID_STATUS, dlc1, d⟩).1.speedActual
      = toInt16 (word16 (d.get 6) (d.get 7)) := by
  refine ⟨?_, ?_, ?_⟩
  · simp only [handleCanFrame]
  · rw [handleCanFrame_status h s _ rfl]
  · rw [handleCanFrame_status h s _ rfl]

/-! ## The static frames -/

/-- C13 (functional): for every controller state `sendControl2` sends the payload
`00 00 00 00 C3 50 C3 50`, the big-endian words 0, 0, 50000, 50000, and `sendLimits`
sends `03 E8 03 E8 00 00 00 00`, the big-endian words 1000, 1000, 0, 0; so the two
payloads are the same from any two states. -/
theorem static_frames (h : Header) (s t : BrusaMotorController) :
    (sendControl2 h s).2.data = ⟨0x00, 0x00, 0x00, 0x00, 0xC3, 0x50, 0xC3, 0x50⟩ ∧
    (sendLimits h s).2.data = ⟨0x03, 0xE8, 0x03, 0xE8, 0x00, 0x00, 0x00, 0x00⟩ ∧
    (word16 (sendControl2 h s).2.data.d0 (sendControl2 h s).2.data.d1 = 0 ∧
      word16 (sendControl2 h s).2.data.d2 (sendControl2 h s).2.data.d3 = 0 ∧
      word16 (sendControl2 h s).2.data.d4 (sendControl2 h s).2.data.d5 = 50000 ∧
      word16 (sendControl2 h s).2.data.d6 (sendControl2 h s).2.data.d7 = 50000) ∧
    (word16 (sendLimits h s).2.data.d0 (sendLimits h s).2.data.d1 = 1000 ∧
      word16 (sendLimits h s).2.data.d2 (sendLimits h s).2.data.d3 = 1000 ∧
      word16 (sendLimits h s).2.data.d4 (sendLimits h s).2.data.d5 = 0 ∧
      word16 (sendLimits h s).2.data.d6 (sendLimits h s).2.data.d7 = 0) ∧
    (sendControl2 h s).2 = (sendControl2 h t).2 ∧
    (sendLimits h s).2 = (sendLimits h t).2 := by
  rw [sendControl2_frame, sendLimits_frame, sendControl2_frame, sendLimits_frame]
  refine ⟨rfl, rfl, ?_, ?_, rfl, rfl⟩ <;> dsimp only <;> decide

/-! ## The log of an Errors frame -/

theorem tableLog_snoc (level : Severity) (w : Nat) (table : List (Nat × String)) (m : Nat)
    (msg : String) :
    tableLog level w table ++ logIf (decide (w &&& m ≠ 0)) level msg
      = tableLog level w (table ++ [(m, msg)]) := by
  unfold tableLog logIf
  rw [List.filter_append, List.map_append]
  by_cases hc : w &&& m ≠ 0
  · simp [List.filter, hc]
  · simp [List.filter, hc]

theorem errorLog_eq_tableLog (h : Header) (e : Nat) :
    errorLog h e = tableLog Severity.error e h.errorTable := by
  unfold errorLog
  rw [show ([] : List LogEvent) = tableLog Severity.error e [] from rfl]
  simp only [tableLog_snoc, List.nil_append, List.cons_append, Header.errorTable]

theorem warningLog_eq_tableLog (h : Header) (w : Nat) :
    warningLog h w = tableLog Severity.warn w h.warningTable := by
  unfold warningLog
  rw [show ([] : List LogEvent) = tableLog Severity.warn w [] from rfl]
  simp only [tableLog_snoc, List.nil_append, List.cons_append, Header.warningTable]

theorem countLevel_append (level : Severity) (a b : List LogEvent) :
    countLevel level (a ++ b) = countLevel level a + countLevel level b := by
  unfold countLevel
  rw [List.filter_append, List.length_append]

theorem countLevel_tableLog_self (level : Severity) (w : Nat) (table : List (Nat × String)) :
    countLevel level (tableLog level w table)
      = (table.filter (fun p => decide (w &&& p.1 ≠ 0))).length := by
  unfold countLevel tableLog
  rw [List.filter_map]
  simp

theorem countLevel_tableLog_other (level other : Severity) (hne : other ≠ level) (w : Nat)
    (table : List (Nat × String)) : countLevel level (tableLog other w table) = 0 := by
  unfold countLevel tableLog
  rw [List.filter_map]
  simp [hne]

theorem filter_all {α : Type} (p : α → Bool) (l : List α) (hall : ∀ a ∈ l, p a = true) :
    l.filter p = l :=
  List.filter_eq_self.mpr hall

theorem filter_none {α : Type} (p : α → Bool) (l : List α) (hnone : ∀ a ∈ l, p a = false) :
    l.filter p = [] := by
  apply List.filter_eq_nil_iff.mpr
  intro a ha
  rw [hnone a ha]
  decide


/-- The log of the `CAN_ID_ERRORS` case in terms of the fields it has just assigned. -/
theorem handleCanFrame_errors_log (h : Header) (s : BrusaMotorController) (f : RX_CAN_FRAME)
    (hIds : h.RxIdsDistinct) (hId : f.id = h.CAN_ID_ERRORS) :
    (handleCanFrame h s f).2 =
      [⟨Severity.debug, "errors: %X, warning: %X"⟩]
        ++ errorLog h (handleCanFrame h s f).1.errorBitField
        ++ warningLog h (handleCanFrame h s f).1.warningBitField := by
  obtain ⟨n1, n2⟩ := rxIdsDistinct_errors hIds
  simp only [handleCanFrame, hId, if_neg n1, if_neg n2, if_true]

/-- C14, as the claim states it, fails: the Errors frame that sets every named error bit
and every named warning bit of the sample header yields 27 error-severity events, not
26 (and 10 warn-severity events). -/
theorem all_faults_frame_27_errors :
    allFaultsFrame.id = sampleHeader.CAN_ID_ERRORS ∧
    (handleCanFrame sampleHeader (new staleFrame) allFaultsFrame).1.errorBitField
      = 0x07FFFFFF ∧
    (handleCanFrame sampleHeader (new staleFrame) allFaultsFrame).1.warningBitField
      = 0x03FF ∧
    countLevel Severity.error (handleCanFrame sampleHeader (new staleFrame) allFaultsFrame).2
      = 27 ∧
    countLevel Severity.error (handleCanFrame sampleHeader (new staleFrame) allFaultsFrame).2
      ≠ 26 ∧
    countLevel Severity.warn (handleCanFrame sampleHeader (new staleFrame) allFaultsFrame).2
      = 10 := by
  decide

/-- C14 (functional, amended): the log of an Errors frame is one debug event, then one
error-severity event for each of the 27 named error conditions whose mask test on
`errorBitField` is non-zero, then one warn-severity event for each of the 10 named warning
conditions whose mask test on `warningBitField` is non-zero, in the order of the tables;
so a frame with every named bit set yields 27 error events and 10 warning events, and a
frame with both fields zero yields none. -/
theorem errors_frame_log (h : Header) (s : BrusaMotorController) (f : RX_CAN_FRAME)
    (hIds : h.RxIdsDistinct) (hId : f.id = h.CAN_ID_ERRORS) :
    (handleCanFrame h s f).2 =
      [⟨Severity.debug, "errors: %X, warning: %X"⟩]
        ++ tableLog Severity.error (handleCanFrame h s f).1.errorBitField h.errorTable
        ++ tableLog Severity.warn (handleCanFrame h s f).1.warningBitField h.warningTable ∧
    h.errorTable.length = 27 ∧ h.warningTable.length = 10 ∧
    countLevel Severity.error (handleCanFrame h s f).2
      = (h.errorTable.filter
          (fun p => decide ((handleCanFrame h s f).1.errorBitField &&& p.1 ≠ 0))).length ∧
    countLevel Severity.warn (handleCanFrame h s f).2
      = (h.warningTable.filter
          (fun p => decide ((handleCanFrame h s f).1.warningBitField &&& p.1 ≠ 0))).length ∧
    ((∀ p ∈ h.errorTable, (handleCanFrame h s f).1.errorBitField &&& p.1 ≠ 0) →
      countLevel Severity.error (handleCanFrame h s f).2 = 27) ∧
    ((∀ p ∈ h.warningTable, (handleCanFrame h s f).1.warningBitField &&& p.1 ≠ 0) →
      countLevel Severity.warn (handleCanFrame h s f).2 = 10) ∧
    ((handleCanFrame h s f).1.errorBitField = 0 →
      (handleCanFrame h s f).1.warningBitField = 0 →
      (handleCanFrame h s f).2 = [⟨Severity.debug, "errors: %X, warning: %X"⟩]) := by
  have hlog := handleCanFrame_errors_log h s f hIds hId
  rw [errorLog_eq_tableLog, warningLog_eq_tableLog] at hlog
  have hce : countLevel Severity.error (handleCanFrame h s f).2
      = (h.errorTable.filter
          (fun p => decide ((handleCanFrame h s f).1.errorBitField &&& p.1 ≠ 0))).length := by
    have hd : countLevel Severity.error
        [⟨Severity.debug, "errors: %X, warning: %X"⟩] = 0 := by decide
    rw [hlog, countLevel_append, countLevel_append, countLevel_tableLog_self,
      countLevel_tableLog_other _ _ (by decide), hd]
    omega
  have hcw : countLevel Severity.warn (handleCanFrame h s f).2
      = (h.warningTable.filter
          (fun p => decide ((handleCanFrame h s f).1.warningBitField &&& p.1 ≠ 0))).length := by
    have hd : countLevel Severity.warn
        [⟨Severity.debug, "errors: %X, warning: %X"⟩] = 0 := by decide
    rw [hlog, countLevel_append, countLevel_append, countLevel_tableLog_self,
      countLevel_tableLog_other _ _ (by decide), hd]
    omega
  refine ⟨hlog, rfl, rfl, hce, hcw, ?_, ?_, ?_⟩
  · intro hall
    rw [hce, filter_all _ _ (fun p hp => decide_eq_true (hall p hp))]
    rfl
  · intro hall
    rw [hcw, filter_all _ _ (fun p hp => decide_eq_true (hall p hp))]
    rfl
  · intro he hw
    rw [hlog, he, hw]
    unfold tableLog
    rw [filter_none _ _ (fun p _ => by simp), filter_none _ _ (fun p _ => by simp)]
    rfl

theorem errors_frame_log_witness :
    sampleHeader.RxIdsDistinct ∧ allFaultsFrame.id = sampleHeader.CAN_ID_ERRORS ∧
    (∀ p ∈ sampleHeader.errorTable,
      (handleCanFrame sampleHeader (new staleFrame) allFaultsFrame).1.errorBitField &&& p.1
        ≠ 0) ∧
    countLevel Severity.error (handleCanFrame sampleHeader (new staleFrame) allFaultsFrame).2
      = 27 :=
  have hw := errors_frame_log sampleHeader (new staleFrame) allFaultsFrame (by decide)
    (by decide)
  ⟨by decide, by decide, by decide, hw.2.2.2.2.2.1 (by decide)⟩


/-! ## Byte 0 of the control frame -/

/-- Under `ControlMasksOk` any two of the six control masks have no bit in common. -/
theorem controlMasksOk_disjoint {h : Header} (hOk : h.ControlMasksOk) :
    h.enablePositiveTorqueSpeed &&& h.enableNegativeTorqueSpeed = 0 ∧
    h.enablePositiveTorqueSpeed &&& h.clearErrorLatch = 0 ∧
    h.enablePositiveTorqueSpeed &&& h.enableOscillationLimiter = 0 ∧
    h.enablePositiveTorqueSpeed &&& h.enableSpeedMode = 0 ∧
    h.enablePositiveTorqueSpeed &&& h.enablePowerStage = 0 ∧
    h.enableNegativeTorqueSpeed &&& h.clearErrorLatch = 0 ∧
    h.enableNegativeTorqueSpeed &&& h.enableOscillationLimiter = 0 ∧
    h.enableNegativeTorqueSpeed &&& h.enableSpeedMode = 0 ∧
    h.enableNegativeTorqueSpeed &&& h.enablePowerStage = 0 ∧
    h.clearErrorLatch &&& h.enableOscillationLimiter = 0 ∧
    h.clearErrorLatch &&& h.enableSpeedMode = 0 ∧
    h.clearErrorLatch &&& h.enablePowerStage = 0 ∧
    h.enableOscillationLimiter &&& h.enableSpeedMode = 0 ∧
    h.enableOscillationLimiter &&& h.enablePowerStage = 0 ∧
    h.enableSpeedMode &&& h.enablePowerStage = 0 := by
  obtain ⟨b1, b2, b3, b4, b5, b6⟩ := controlMasksOk_bits hOk
  have hd := hOk.2
  simp only [Header.controlMasks, List.pairwise_cons, List.mem_cons, List.mem_singleton,
    forall_eq_or_imp, forall_eq] at hd
  refine ⟨?_, ?_, ?_, ?_, ?_, ?_, ?_, ?_, ?_, ?_, ?_, ?_, ?_, ?_, ?_⟩ <;>
    first
    | exact bit_and_bit_of_ne b1 b2 (by tauto)
    | exact bit_and_bit_of_ne b1 b3 (by tauto)
    | exact bit_and_bit_of_ne b1 b4 (by tauto)
    | exact bit_and_bit_of_ne b1 b5 (by tauto)
    | exact bit_and_bit_of_ne b1 b6 (by tauto)
    | exact bit_and_bit_of_ne b2 b3 (by tauto)
    | exact bit_and_bit_of_ne b2 b4 (by tauto)
    | exact bit_and_bit_of_ne b2 b5 (by tauto)
    | exact bit_and_bit_of_ne b2 b6 (by tauto)
    | exact bit_and_bit_of_ne b3 b4 (by tauto)
    | exact bit_and_bit_of_ne b3 b5 (by tauto)
    | exact bit_and_bit_of_ne b3 b6 (by tauto)
    | exact bit_and_bit_of_ne b4 b5 (by tauto)
    | exact bit_and_bit_of_ne b4 b6 (by tauto)
    | exact bit_and_bit_of_ne b5 b6 (by tauto)


/-- C17 (behaviour): with the control masks pairwise distinct single bits, byte 0 of the
control frame is `enablePositiveTorqueSpeed | enableNegativeTorqueSpeed`, plus
`clearErrorLatch` iff `dmcError`, plus `enablePowerStage` iff there is no error and the
controller is ready or above 1000 rpm, plus `enableSpeedMode` iff moreover it is running in
speed mode; `enableOscillationLimiter` is never set. The comparison with 1000 is signed and
strict: a controller that is not ready and has `speedActual ≤ 1000` (1000 itself, or any
negative speed) gets the power stage disabled and bytes 2..5 zero, running or not. -/
theorem sendControl_byte0 (h : Header) (s : BrusaMotorController) (hOk : h.ControlMasksOk) :
    (sendControl h s).2.data.d0 =
      h.enablePositiveTorqueSpeed ||| h.enableNegativeTorqueSpeed
      ||| (if s.dmcError = true then h.clearErrorLatch else 0)
      ||| (if s.dmcError = false ∧ (s.dmcReady = true ∨ s.speedActual > 1000)
            then h.enablePowerStage else 0)
      ||| (if s.dmcError = false ∧ (s.dmcReady = true ∨ s.speedActual > 1000)
              ∧ s.dmcRunning = true ∧ s.powerMode = PowerMode.modeSpeed
            then h.enableSpeedMode else 0) ∧
    (sendControl h s).2.data.d0 &&& h.enablePositiveTorqueSpeed
      = h.enablePositiveTorqueSpeed ∧
    (sendControl h s).2.data.d0 &&& h.enableNegativeTorqueSpeed
      = h.enableNegativeTorqueSpeed ∧
    ((sendControl h s).2.data.d0 &&& h.clearErrorLatch ≠ 0 ↔ s.dmcError = true) ∧
    ((sendControl h s).2.data.d0 &&& h.enablePowerStage ≠ 0 ↔
      (s.dmcError = false ∧ (s.dmcReady = true ∨ s.speedActual > 1000))) ∧
    ((sendControl h s).2.data.d0 &&& h.enableSpeedMode ≠ 0 ↔
      (s.dmcError = false ∧ (s.dmcReady = true ∨ s.speedActual > 1000)
        ∧ s.dmcRunning = true ∧ s.powerMode = PowerMode.modeSpeed)) ∧
    (sendControl h s).2.data.d0 &&& h.enableOscillationLimiter = 0 ∧
    (s.dmcReady = false → s.speedActual ≤ 1000 →
      (sendControl h s).2.data.d0 &&& h.enablePowerStage = 0 ∧
      (sendControl h s).2.data.d2 = 0 ∧ (sendControl h s).2.data.d3 = 0 ∧
      (sendControl h s).2.data.d4 = 0 ∧ (sendControl h s).2.data.d5 = 0) := by
  obtain ⟨b1, b2, b3, b4, b5, b6⟩ := controlMasksOk_bits hOk
  obtain ⟨p12, p13, p14, p15, p16, p23, p24, p25, p26, p34, p35, p36, p45, p46, p56⟩ :=
    controlMasksOk_disjoint hOk
  have q12 := p12
  rw [Nat.and_comm] at q12
  have q13 := p13
  rw [Nat.and_comm] at q13
  have q14 := p14
  rw [Nat.and_comm] at q14
  have q15 := p15
  rw [Nat.and_comm] at q15
  have q16 := p16
  rw [Nat.and_comm] at q16
  have q23 := p23
  rw [Nat.and_comm] at q23
  have q24 := p24
  rw [Nat.and_comm] at q24
  have q25 := p25
  rw [Nat.and_comm] at q25
  have q26 := p26
  rw [Nat.and_comm] at q26
  have q34 := p34
  rw [Nat.and_comm] at q34
  have q35 := p35
  rw [Nat.and_comm] at q35
  have q36 := p36
  rw [Nat.and_comm] at q36
  have q45 := p45
  rw [Nat.and_comm] at q45
  have q46 := p46
  rw [Nat.and_comm] at q46
  have q56 := p56
  rw [Nat.and_comm] at q56
  have n3 := bit_ne_zero b3
  have n5 := bit_ne_zero b5
  have n6 := bit_ne_zero b6
  have lpn := or_lt_256 (bit_lt_256 b1) (bit_lt_256 b2)
  have e0 := toU8_of_lt lpn
  have e1 := toU8_of_lt (or_lt_256 lpn (bit_lt_256 b3))
  have e2 := toU8_of_lt (or_lt_256 lpn (bit_lt_256 b6))
  have e3 := toU8_of_lt (or_lt_256 (or_lt_256 lpn (bit_lt_256 b6)) (bit_lt_256 b5))
  rw [sendControl_frame]
  by_cases hs : s.speedActual > 1000 <;>
    cases hE : s.dmcError <;> cases hR : s.dmcReady <;> cases hRun : s.dmcRunning <;>
    cases hM : s.powerMode <;>
    simp [hs, e0, e1, e2, e3, or_and_distrib_right, p12, p13, p14, p15, p16, p23, p24, p25,
      p26, p34, p35, p36, p45, p46, p56, q12, q13, q14, q15, q16, q23, q24, q25, q26, q34,
      q35, q36, q45, q46, q56, n3, n5, n6]

theorem sendControl_byte0_witness :
    sampleHeader.ControlMasksOk ∧ reverseState.dmcReady = false ∧
    reverseState.dmcRunning = true ∧ reverseState.speedActual = -3000 ∧
    (sendControl sampleHeader reverseState).2.data = ⟨0x03, 0, 0, 0, 0, 0, 0, 0⟩ ∧
    (sendControl sampleHeader reverseState).2.data.d0 &&& sampleHeader.enablePowerStage = 0 :=
  have hw := sendControl_byte0 sampleHeader reverseState (by decide)
  ⟨by decide, by decide, by decide, by decide, by decide,
    (hw.2.2.2.2.2.2.2 (by decide) (by decide)).1⟩


/-! ## The ramp inside `sendControl` -/

/-- The state left by `sendControl`: only the two request fields and the output buffer
change. -/
theorem sendControl_state (h : Header) (s : BrusaMotorController) :
    (sendControl h s).1 =
      { s with
        requestedTorque := 50
        requestedRPM :=
          if s.speedActual > 950 then 0 else if s.speedActual = 0 then 1000 else s.requestedRPM
        outputFrame := (sendControl h s).2 } := by
  cases s
  rename_i dmcReady dmcRunning dmcError dmcWarning _ _ speedActual _ _ _ _ _ _ _ _ _ _ _ _ _ _
    powerMode _ _ _ _ _ _
  cases dmcError <;> cases dmcReady <;> cases dmcRunning <;> cases powerMode <;>
    by_cases hs : speedActual > 1000 <;>
    simp [sendControl, prepareOutputFrame, setData, orData, CanData.set, CanData.get, hs]

/-- C19 (behaviour): `sendControl` overwrites the request: afterwards `requestedTorque`
is 50 whatever it was and whatever the speed; `requestedRPM` is 1000 if `speedActual = 0`,
0 if `speedActual > 950`, and its previous value otherwise; every other field but the
output buffer is unchanged. So when the command fields are written, bytes 4-5 are
`01 F4`, and the frame is the same for every torque the caller had requested. -/
theorem sendControl_overwrites_request (h : Header) (s : BrusaMotorController) :
    (sendControl h s).1.requestedTorque = 50 ∧
    (s.speedActual = 0 → (sendControl h s).1.requestedRPM = 1000) ∧
    (s.speedActual > 950 → (sendControl h s).1.requestedRPM = 0) ∧
    (s.speedActual ≠ 0 → ¬ s.speedActual > 950 →
      (sendControl h s).1.requestedRPM = s.requestedRPM) ∧
    (sendControl h s).1 =
      { s with
        requestedTorque := (sendControl h s).1.requestedTorque
        requestedRPM := (sendControl h s).1.requestedRPM
        outputFrame := (sendControl h s).2 } ∧
    (s.dmcError = false → (s.dmcReady = true ∨ s.speedActual > 1000) → s.dmcRunning = true →
      (sendControl h s).2.data.d4 = 0x01 ∧ (sendControl h s).2.data.d5 = 0xF4) ∧
    (∀ torque : Int,
      (sendControl h { s with requestedTorque := torque }).2 = (sendControl h s).2) := by
  refine ⟨sendControl_requestedTorque h s, ?_, ?_, ?_, ?_, ?_, ?_⟩
  · intro h0
    rw [sendControl_requestedRPM, h0]
    rfl
  · intro h950
    rw [sendControl_requestedRPM, if_pos h950]
  · intro h0 h950
    rw [sendControl_requestedRPM, if_neg h950, if_neg h0]
  · rw [sendControl_requestedTorque, sendControl_requestedRPM]
    exact sendControl_state h s
  · intro herr hgate hrun
    have hg : (s.dmcReady || decide (s.speedActual > 1000)) = true := by
      rcases hgate with hr | hsp
      · simp [hr]
      · simp [hsp]
    rw [sendControl_frame, herr, hg, hrun]
    simp only [if_true, Bool.false_eq_true, if_false]
    exact ⟨by decide, by decide⟩
  · intro torque
    rw [sendControl_frame, sendControl_frame]

theorem sendControl_overwrites_request_witness :
    runningState.requestedTorque = 120 ∧ runningState.dmcError = false ∧
    runningState.dmcReady = true ∧ runningState.dmcRunning = true ∧
    (sendControl sampleHeader runningState).1.requestedTorque = 50 ∧
    (sendControl sampleHeader runningState).2.data.d4 = 0x01 ∧
    (sendControl sampleHeader runningState).2.data.d5 = 0xF4 ∧
    (sendControl sampleHeader spinningState).1.requestedRPM = 0 :=
  have hw := sendControl_overwrites_request sampleHeader runningState
  have hx := hw.2.2.2.2.2.1 (by decide) (Or.inl (by decide)) (by decide)
  ⟨by decide, by decide, by decide, by decide, hw.1, hx.1, hx.2,
    (sendControl_overwrites_request sampleHeader spinningState).2.2.1 (by decide)⟩


/-! ## What each decoder changes -/

theorem rxIdsDistinct_all {h : Header} (hIds : h.RxIdsDistinct) :
    h.CAN_ID_STATUS ≠ h.CAN_ID_ACTUAL_VALUES ∧ h.CAN_ID_STATUS ≠ h.CAN_ID_ERRORS ∧
    h.CAN_ID_STATUS ≠ h.CAN_ID_TORQUE_LIMIT ∧ h.CAN_ID_STATUS ≠ h.CAN_ID_TEMP ∧
    h.CAN_ID_ACTUAL_VALUES ≠ h.CAN_ID_ERRORS ∧ h.CAN_ID_ACTUAL_VALUES ≠ h.CAN_ID_TORQUE_LIMIT ∧
    h.CAN_ID_ACTUAL_VALUES ≠ h.CAN_ID_TEMP ∧ h.CAN_ID_ERRORS ≠ h.CAN_ID_TORQUE_LIMIT ∧
    h.CAN_ID_ERRORS ≠ h.CAN_ID_TEMP ∧ h.CAN_ID_TORQUE_LIMIT ≠ h.CAN_ID_TEMP := by
  simp only [Header.RxIdsDistinct, List.pairwise_cons, List.mem_cons, List.mem_singleton,
    forall_eq_or_imp, forall_eq] at hIds
  tauto

/-- The state left by the `CAN_ID_ACTUAL_VALUES` case. -/
theorem handleCanFrame_actual (h : Header) (s : BrusaMotorController) (f : RX_CAN_FRAME)
    (hIds : h.RxIdsDistinct) (hId : f.id = h.CAN_ID_ACTUAL_VALUES) :
    (handleCanFrame h s f).1 =
      { s with
        dcVoltage := toU16 (word16 (f.data.get 0) (f.data.get 1))
        dcCurrent := toU16 (word16 (f.data.get 2) (f.data.get 3))
        acCurrent := toU16 (word16 (f.data.get 4) (f.data.get 5))
        mechanicalPower := toU16 (word16 (f.data.get 6) (f.data.get 7)) } := by
  obtain ⟨n1, _⟩ := rxIdsDistinct_all hIds
  simp only [handleCanFrame, hId, if_neg (Ne.symm n1), if_true]

/-- The state left by the `CAN_ID_TORQUE_LIMIT` case. -/
theorem handleCanFrame_torqueLimit (h : Header) (s : BrusaMotorController) (f : RX_CAN_FRAME)
    (hIds : h.RxIdsDistinct) (hId : f.id = h.CAN_ID_TORQUE_LIMIT) :
    (handleCanFrame h s f).1 =
      { s with
        maxPositiveTorque := toU16 (word16 (f.data.get 0) (f.data.get 1))
        minNegativeTorque := toU16 (word16 (f.data.get 2) (f.data.get 3))
        limiterStateNumber := toU8 (f.data.get 4) } := by
  obtain ⟨_, _, n3, _, _, n6, _, n8, _, _⟩ := rxIdsDistinct_all hIds
  simp only [handleCanFrame, hId, if_neg (Ne.symm n3), if_neg (Ne.symm n6),
    if_neg (Ne.symm n8), if_true]

/-- The state left by the `CAN_ID_TEMP` case. -/
theorem handleCanFrame_temp (h : Header) (s : BrusaMotorController) (f : RX_CAN_FRAME)
    (hIds : h.RxIdsDistinct) (hId : f.id = h.CAN_ID_TEMP) :
    (handleCanFrame h s f).1 =
      { s with
        temperatureInverter := toU16 (word16 (f.data.get 0) (f.data.get 1))
        temperatureMotor := toU16 (word16 (f.data.get 2) (f.data.get 3))
        temperatureSystem := toU8 (f.data.get 4) } := by
  obtain ⟨_, _, _, n4, _, _, n7, _, n9, n10⟩ := rxIdsDistinct_all hIds
  simp only [handleCanFrame, hId, if_neg (Ne.symm n4), if_neg (Ne.symm n7),
    if_neg (Ne.symm n9), if_neg (Ne.symm n10), if_true]

/-- A frame other than a Status frame leaves the fields that gate the control frame. -/
theorem handleCanFrame_gate_fields (h : Header) (s : BrusaMotorController) (f : RX_CAN_FRAME)
    (hne : f.id ≠ h.CAN_ID_STATUS) :
    (handleCanFrame h s f).1.dmcError = s.dmcError ∧
    (handleCanFrame h s f).1.dmcReady = s.dmcReady ∧
    (handleCanFrame h s f).1.dmcRunning = s.dmcRunning ∧
    (handleCanFrame h s f).1.dmcWarning = s.dmcWarning ∧
    (handleCanFrame h s f).1.speedActual = s.speedActual ∧
    (handleCanFrame h s f).1.powerMode = s.powerMode ∧
    (handleCanFrame h s f).1.requestedRPM = s.requestedRPM ∧
    (handleCanFrame h s f).1.tickCounter = s.tickCounter := by
  simp only [handleCanFrame, if_neg hne]
  split_ifs <;> exact ⟨rfl, rfl, rfl, rfl, rfl, rfl, rfl, rfl⟩

/-- The control frame depends on the state through the gate fields only. -/
theorem sendControl_frame_congr (h : Header) (s t : BrusaMotorController)
    (h1 : t.dmcError = s.dmcError) (h2 : t.dmcReady = s.dmcReady)
    (h3 : t.dmcRunning = s.dmcRunning) (h4 : t.speedActual = s.speedActual)
    (h5 : t.powerMode = s.powerMode) (h6 : t.requestedRPM = s.requestedRPM) :
    (sendControl h t).2 = (sendControl h s).2 := by
  rw [sendControl_frame, sendControl_frame, h1, h2, h3, h4, h5, h6]

/-- The frames of one tick: the control frame, then on every fifth tick the two static
frames. -/
theorem handleTick_frames (h : Header) (s : BrusaMotorController) :
    (handleTick h s).2 = (sendControl h s).2 ::
      (if s.tickCounter + 1 > 4 then
        [⟨h.CAN_ID_CONTROL_2, 8, 0, 0, ⟨0x00, 0x00, 0x00, 0x00, 0xC3, 0x50, 0xC3, 0x50⟩⟩,
         ⟨h.CAN_ID_LIMIT, 8, 0, 0, ⟨0x03, 0xE8, 0x03, 0xE8, 0x00, 0x00, 0x00, 0x00⟩⟩]
      else []) := by
  have hc : (sendControl h { s with tickCounter := s.tickCounter + 1 }).2
      = (sendControl h s).2 := sendControl_frame_congr h _ _ rfl rfl rfl rfl rfl rfl
  unfold handleTick
  simp only [sendControl_tickCounter]
  split
  · rw [sendControl2_frame, sendLimits_frame, hc]
  · rw [hc]

/-- One tick leaves the fields that gate the control frame, except `requestedRPM`. -/
theorem handleTick_gate_fields (h : Header) (s : BrusaMotorController) :
    (handleTick h s).1.dmcError = s.dmcError ∧
    (handleTick h s).1.dmcReady = s.dmcReady ∧
    (handleTick h s).1.dmcRunning = s.dmcRunning ∧
    (handleTick h s).1.speedActual = s.speedActual ∧
    (handleTick h s).1.powerMode = s.powerMode := by
  unfold handleTick
  simp only [sendControl_tickCounter]
  split
  · simp only [sendLimits, sendControl2, prepareOutputFrame, setData]
    rw [sendControl_state]
    exact ⟨rfl, rfl, rfl, rfl, rfl⟩
  · rw [sendControl_state]
    exact ⟨rfl, rfl, rfl, rfl, rfl⟩


theorem toU16_word16_get {d : CanData} (hB : d.IsBytes) :
    toU16 (word16 (d.get 0) (d.get 1)) = (d.d0 <<< 8) ||| d.d1 ∧
    toU16 (word16 (d.get 2) (d.get 3)) = (d.d2 <<< 8) ||| d.d3 ∧
    toU16 (word16 (d.get 4) (d.get 5)) = (d.d4 <<< 8) ||| d.d5 ∧
    toU16 (word16 (d.get 6) (d.get 7)) = (d.d6 <<< 8) ||| d.d7 ∧
    word16 (d.get 2) (d.get 3) = (d.d2 <<< 8) ||| d.d3 ∧
    word16 (d.get 4) (d.get 5) = (d.d4 <<< 8) ||| d.d5 ∧
    word16 (d.get 6) (d.get 7) = (d.d6 <<< 8) ||| d.d7 ∧
    toU8 (d.get 4) = d.d4 ∧
    toU32 (d.get 1 ||| (d.get 0 <<< 8) ||| (d.get 5 <<< 16) ||| (d.get 4 <<< 24))
      = d.d1 ||| (d.d0 <<< 8) ||| (d.d5 <<< 16) ||| (d.d4 <<< 24) := by
  obtain ⟨g0, g1, g2, g3, g4, g5, g6, g7⟩ := get_of_isBytes hB
  obtain ⟨b0, b1, b2, b3, b4, b5, b6, b7⟩ := hB
  rw [g0, g1, g2, g3, g4, g5, g6, g7]
  refine ⟨toU16_word16 b0 b1, toU16_word16 b2 b3, toU16_word16 b4 b5, toU16_word16 b6 b7,
    Nat.or_comm _ _, Nat.or_comm _ _, Nat.or_comm _ _, toU8_of_lt b4, ?_⟩
  unfold toU32
  rw [pack32 b1 b0 b5 b4]
  omega

/-- C20 (frame effect): each decoder changes its own field group only and stores the
raw words: a Status frame the status word, the three torque/speed words and the four
flags; an Actual-values frame `dcVoltage`, `dcCurrent`, `acCurrent`, `mechanicalPower`;
an Errors frame `errorBitField` and `warningBitField`; a Torque-limit frame
`maxPositiveTorque`, `minNegativeTorque` and `limiterStateNumber` (byte 4); a Temperature
frame `temperatureInverter`, `temperatureMotor` and `temperatureSystem` (byte 4). An
Errors frame therefore leaves the four flags as they were, and the control frame and the
frames of the next tick are the same as without it. -/
theorem decoders_change_own_fields (h : Header) (s : BrusaMotorController) (dlc : Nat)
    (d : CanData) (hIds : h.RxIdsDistinct) (hB : d.IsBytes) :
    (handleCanFrame h s ⟨h.CAN_ID_STATUS, dlc, d⟩).1 =
      { s with
        statusBitField := (d.d0 <<< 8) ||| d.d1
        torqueAvailable := toInt16 ((d.d2 <<< 8) ||| d.d3)
        torqueActual := toInt16 ((d.d4 <<< 8) ||| d.d5)
        speedActual := toInt16 ((d.d6 <<< 8) ||| d.d7)
        dmcReady := decide (((d.d0 <<< 8) ||| d.d1) &&& h.stateReady ≠ 0)
        dmcRunning := decide (((d.d0 <<< 8) ||| d.d1) &&& h.stateRunning ≠ 0)
        dmcError := decide (((d.d0 <<< 8) ||| d.d1) &&& h.errorFlag ≠ 0)
        dmcWarning := decide (((d.d0 <<< 8) ||| d.d1) &&& h.warningFlag ≠ 0) } ∧
    (handleCanFrame h s ⟨h.CAN_ID_ACTUAL_VALUES, dlc, d⟩).1 =
      { s with
        dcVoltage := (d.d0 <<< 8) ||| d.d1
        dcCurrent := (d.d2 <<< 8) ||| d.d3
        acCurrent := (d.d4 <<< 8) ||| d.d5
        mechanicalPower := (d.d6 <<< 8) ||| d.d7 } ∧
    (handleCanFrame h s ⟨h.CAN_ID_ERRORS, dlc, d⟩).1 =
      { s with
        errorBitField := d.d1 ||| (d.d0 <<< 8) ||| (d.d5 <<< 16) ||| (d.d4 <<< 24)
        warningBitField := (d.d6 <<< 8) ||| d.d7 } ∧
    (handleCanFrame h s ⟨h.CAN_ID_TORQUE_LIMIT, dlc, d⟩).1 =
      { s with
        maxPositiveTorque := (d.d0 <<< 8) ||| d.d1
        minNegativeTorque := (d.d2 <<< 8) ||| d.d3
        limiterStateNumber := d.d4 } ∧
    (handleCanFrame h s ⟨h.CAN_ID_TEMP, dlc, d⟩).1 =
      { s with
        temperatureInverter := (d.d0 <<< 8) ||| d.d1
        temperatureMotor := (d.d2 <<< 8) ||| d.d3
        temperatureSystem := d.d4 } ∧
    ((handleCanFrame h s ⟨h.CAN_ID_ERRORS, dlc, d⟩).1.dmcError = s.dmcError ∧
      (handleCanFrame h s ⟨h.CAN_ID_ERRORS, dlc, d⟩).1.dmcReady = s.dmcReady ∧
      (handleCanFrame h s ⟨h.CAN_ID_ERRORS, dlc, d⟩).1.dmcRunning = s.dmcRunning ∧
      (handleCanFrame h s ⟨h.CAN_ID_ERRORS, dlc, d⟩).1.dmcWarning = s.dmcWarning) ∧
    (sendControl h (handleCanFrame h s ⟨h.CAN_ID_ERRORS, dlc, d⟩).1).2 = (sendControl h s).2 ∧
    (handleTick h (handleCanFrame h s ⟨h.CAN_ID_ERRORS, dlc, d⟩).1).2 = (handleTick h s).2 := by
  obtain ⟨w01, w23, w45, w67, v23, v45, v67, u4, e32⟩ := toU16_word16_get hB
  have hne : (⟨h.CAN_ID_ERRORS, dlc, d⟩ : RX_CAN_FRAME).id ≠ h.CAN_ID_STATUS :=
    (rxIdsDistinct_errors hIds).1
  obtain ⟨k1, k2, k3, k4, k5, k6, k7, k8⟩ := handleCanFrame_gate_fields h s _ hne
  have hsc := sendControl_frame_congr h s _ k1 k2 k3 k5 k6 k7
  refine ⟨?_, ?_, ?_, ?_, ?_, ⟨k1, k2, k3, k4⟩, hsc, ?_⟩
  · rw [handleCanFrame_status h s _ rfl]
    simp only [w01, v23, v45, v67]
  · rw [handleCanFrame_actual h s _ hIds rfl]
    simp only [w01, w23, w45, w67]
  · rw [handleCanFrame_errors h s _ hIds rfl]
    simp only [w67, e32]
  · rw [handleCanFrame_torqueLimit h s _ hIds rfl]
    simp only [w01, w23, u4]
  · rw [handleCanFrame_temp h s _ hIds rfl]
    simp only [w01, w23, u4]
  · rw [handleTick_frames, handleTick_frames, hsc, k8]

theorem decoders_change_own_fields_witness :
    sampleHeader.RxIdsDistinct ∧ sampleErrorsFrame.data.IsBytes ∧
    (handleCanFrame sampleHeader errorState
      ⟨sampleHeader.CAN_ID_ERRORS, 8, sampleErrorsFrame.data⟩).1
      = { errorState with errorBitField := 0x9ABC1234, warningBitField := 0xDEF0 } ∧
    (handleTick sampleHeader (handleCanFrame sampleHeader errorState
      ⟨sampleHeader.CAN_ID_ERRORS, 8, sampleErrorsFrame.data⟩).1).2
      = (handleTick sampleHeader errorState).2 :=
  have hw := decoders_change_own_fields sampleHeader errorState 8 sampleErrorsFrame.data
    (by decide) (by decide)
  ⟨by decide, by decide, hw.2.2.1.trans (by decide), hw.2.2.2.2.2.2.2⟩


/-! ## Error gating across interleavings -/

theorem run_append (h : Header) (s : BrusaMotorController) (a b : List Event) :
    run h s (a ++ b)
      = ((run h (run h s a).1 b).1, (run h s a).2 ++ (run h (run h s a).1 b).2) := by
  induction a generalizing s with
  | nil => simp [run]
  | cons e es ih =>
    show run h s (e :: (es ++ b)) = _
    simp only [run, ih, List.append_assoc]

/-- The gate bits of byte 0 in the two situations that a Status frame can leave. -/
theorem sendControl_gate_bits (h : Header) (s : BrusaMotorController)
    (hOk : h.ControlMasksOk) :
    (s.dmcError = true →
      (sendControl h s).2.data.d0 &&& h.clearErrorLatch = h.clearErrorLatch ∧
      (sendControl h s).2.data.d0 &&& h.enablePowerStage = 0) ∧
    (s.dmcError = false → s.dmcReady = true →
      (sendControl h s).2.data.d0 &&& h.enablePowerStage = h.enablePowerStage ∧
      (sendControl h s).2.data.d0 &&& h.clearErrorLatch = 0) := by
  obtain ⟨b1, b2, b3, _, b5, b6⟩ := controlMasksOk_bits hOk
  obtain ⟨_, p13, _, _, p16, p23, _, _, p26, _, p35, p36, _, _, p56⟩ :=
    controlMasksOk_disjoint hOk
  have q36 := p36
  rw [Nat.and_comm] at q36
  have q35 := p35
  rw [Nat.and_comm] at q35
  have lpn := or_lt_256 (bit_lt_256 b1) (bit_lt_256 b2)
  have e0 := toU8_of_lt lpn
  have e1 := toU8_of_lt (or_lt_256 lpn (bit_lt_256 b3))
  have e2 := toU8_of_lt (or_lt_256 lpn (bit_lt_256 b6))
  have e3 := toU8_of_lt (or_lt_256 (or_lt_256 lpn (bit_lt_256 b6)) (bit_lt_256 b5))
  rw [sendControl_frame]
  constructor
  · intro hE
    simp [hE, e0, e1, or_and_distrib_right, p13, p23, p16, p26, p36]
  · intro hE hR
    cases hRun : s.dmcRunning <;> cases hM : s.powerMode <;>
      simp [hE, hR, e0, e2, e3, or_and_distrib_right, p13, p23, p16, p26, p36, q36, q35,
        p56]

/-- While `dmcError` is set and no Status frame arrives, it stays set and every control
frame sent requests the latch clear with the power stage off. -/
theorem run_error_phase (h : Header) (hOk : h.ControlMasksOk) (hTx : h.TxIdsDistinct)
    (evs : List Event) :
    ∀ s : BrusaMotorController, s.dmcError = true → (∀ e ∈ evs, e.NotStatus h) →
      (run h s evs).1.dmcError = true ∧
      ∀ o ∈ (run h s evs).2, o.id = h.CAN_ID_CONTROL →
        o.data.d0 &&& h.clearErrorLatch = h.clearErrorLatch ∧
        o.data.d0 &&& h.enablePowerStage = 0 := by
  obtain ⟨t12, t13, _⟩ := hTx
  induction evs with
  | nil =>
    intro s hs _
    exact ⟨hs, fun o ho => by simp [run] at ho⟩
  | cons e es ih =>
    intro s hs hall
    have he : e.NotStatus h := hall e (List.mem_cons_self _ _)
    have hes : ∀ e' ∈ es, e'.NotStatus h := fun e' h' => hall e' (List.mem_cons_of_mem _ h')
    cases e with
    | tick =>
      have hs1 : (handleTick h s).1.dmcError = true := by
        rw [(handleTick_gate_fields h s).1]; exact hs
      obtain ⟨i1, i2⟩ := ih (handleTick h s).1 hs1 hes
      refine ⟨i1, ?_⟩
      intro o ho hid
      simp only [run, step, List.mem_append] at ho
      rcases ho with ho | ho
      · rw [handleTick_frames, List.mem_cons] at ho
        rcases ho with ho | ho
        · rw [ho]
          exact (sendControl_gate_bits h s hOk).1 hs
        · split at ho
          · simp only [List.mem_cons, List.mem_singleton, List.not_mem_nil, or_false] at ho
            rcases ho with ho | ho
            · rw [ho] at hid
              exact absurd hid.symm t12
            · rw [ho] at hid
              exact absurd hid.symm t13
          · simp at ho
      · exact i2 o ho hid
    | frame g =>
      have hs1 : (handleCanFrame h s g).1.dmcError = true := by
        rw [(handleCanFrame_gate_fields h s g he).1]; exact hs
      obtain ⟨i1, i2⟩ := ih (handleCanFrame h s g).1 hs1 hes
      refine ⟨i1, ?_⟩
      intro o ho hid
      simp only [run, step, List.nil_append] at ho
      exact i2 o ho hid

/-- Frames other than Status frames send nothing and leave `dmcError` and `dmcReady`. -/
theorem run_quiet (h : Header) (evs : List Event) :
    ∀ s : BrusaMotorController, (∀ e ∈ evs, e.OtherFrame h) →
      (run h s evs).2 = [] ∧ (run h s evs).1.dmcError = s.dmcError ∧
      (run h s evs).1.dmcReady = s.dmcReady := by
  induction evs with
  | nil =>
    intro s _
    exact ⟨rfl, rfl, rfl⟩
  | cons e es ih =>
    intro s hall
    have he : e.OtherFrame h := hall e (List.mem_cons_self _ _)
    have hes : ∀ e' ∈ es, e'.OtherFrame h := fun e' h' => hall e' (List.mem_cons_of_mem _ h')
    cases e with
    | tick => exact absurd he (by simp [Event.OtherFrame])
    | frame g =>
      obtain ⟨i1, i2, i3⟩ := ih (handleCanFrame h s g).1 hes
      obtain ⟨k1, k2, _⟩ := handleCanFrame_gate_fields h s g he
      simp only [run, step, List.nil_append]
      exact ⟨i1, i2.trans k1, i3.trans k2⟩


/-- C18 (temporal): after a Status frame with the `errorFlag` bit set, every control
frame sent before the next Status frame has `clearErrorLatch` set and `enablePowerStage`
clear, whatever ticks and other frames are interleaved; and after a later Status frame
with `errorFlag` clear and `stateReady` set, followed by any frames other than Status
frames, the next tick sends first a control frame with `enablePowerStage` set and
`clearErrorLatch` clear: the fault is not latched in software. -/
theorem error_gating_follows_status (h : Header) (s : BrusaMotorController)
    (f g : RX_CAN_FRAME) (evs evs2 : List Event)
    (hOk : h.ControlMasksOk) (hTx : h.TxIdsDistinct)
    (hf : f.id = h.CAN_ID_STATUS) (hfErr : statusWord f &&& h.errorFlag ≠ 0)
    (hevs : ∀ e ∈ evs, e.NotStatus h)
    (hg : g.id = h.CAN_ID_STATUS) (hgErr : statusWord g &&& h.errorFlag = 0)
    (hgReady : statusWord g &&& h.stateReady ≠ 0)
    (hevs2 : ∀ e ∈ evs2, e.OtherFrame h) :
    (∀ o ∈ (run h s (Event.frame f :: evs)).2, o.id = h.CAN_ID_CONTROL →
      o.data.d0 &&& h.clearErrorLatch = h.clearErrorLatch ∧
      o.data.d0 &&& h.clearErrorLatch ≠ 0 ∧
      o.data.d0 &&& h.enablePowerStage = 0) ∧
    (run h (run h s (Event.frame f :: evs)).1 (Event.frame g :: evs2)).2 = [] ∧
    (∃ o rest,
      (run h (run h s (Event.frame f :: evs)).1 (Event.frame g :: evs2 ++ [Event.tick])).2
        = o :: rest ∧
      o.id = h.CAN_ID_CONTROL ∧
      o.data.d0 &&& h.enablePowerStage = h.enablePowerStage ∧
      o.data.d0 &&& h.enablePowerStage ≠ 0 ∧
      o.data.d0 &&& h.clearErrorLatch = 0) := by
  obtain ⟨_, _, b3, _, _, b6⟩ := controlMasksOk_bits hOk
  have hsf : (handleCanFrame h s f).1.dmcError = true := by
    rw [handleCanFrame_status h s f hf]
    exact decide_eq_true hfErr
  obtain ⟨_, i2⟩ := run_error_phase h hOk hTx evs (handleCanFrame h s f).1 hsf hevs
  refine ⟨?_, ?_, ?_⟩
  · intro o ho hid
    simp only [run, step, List.nil_append] at ho
    obtain ⟨c1, c2⟩ := i2 o ho hid
    exact ⟨c1, by rw [c1]; exact bit_ne_zero b3, c2⟩
  · simp only [run, step, List.nil_append]
    exact (run_quiet h evs2 _ hevs2).1
  · have hq := run_quiet h evs2
      (handleCanFrame h (run h s (Event.frame f :: evs)).1 g).1 hevs2
    obtain ⟨q1, q2, q3⟩ := hq
    have hE : (handleCanFrame h (run h s (Event.frame f :: evs)).1 g).1.dmcError = false := by
      rw [handleCanFrame_status h _ g hg]
      exact decide_eq_false (by rw [ne_eq, not_not]; exact hgErr)
    have hR : (handleCanFrame h (run h s (Event.frame f :: evs)).1 g).1.dmcReady = true := by
      rw [handleCanFrame_status h _ g hg]
      exact decide_eq_true hgReady
    rw [hE] at q2
    rw [hR] at q3
    obtain ⟨c1, c2⟩ := (sendControl_gate_bits h _ hOk).2 q2 q3
    have hrun : (run h (run h s (Event.frame f :: evs)).1
        (Event.frame g :: evs2 ++ [Event.tick])).2
        = (handleTick h (run h (handleCanFrame h (run h s (Event.frame f :: evs)).1 g).1
            evs2).1).2 := by
      rw [show Event.frame g :: evs2 ++ [Event.tick]
        = (Event.frame g :: evs2) ++ [Event.tick] from rfl, run_append]
      have q1c := q1
      simp only [run, step, List.nil_append] at q1c
      simp only [run, step, List.nil_append, List.append_nil, q1c]
    rw [hrun, handleTick_frames]
    exact ⟨_, _, rfl, by rw [sendControl_frame], c1, by rw [c1]; exact bit_ne_zero b6, c2⟩

theorem error_gating_follows_status_witness :
    sampleHeader.ControlMasksOk ∧ sampleHeader.TxIdsDistinct ∧
    statusWord faultStatusFrame &&& sampleHeader.errorFlag ≠ 0 ∧
    (∀ e ∈ faultEpisode, e.NotStatus sampleHeader) ∧
    statusWord readyStatusFrame &&& sampleHeader.errorFlag = 0 ∧
    statusWord readyStatusFrame &&& sampleHeader.stateReady ≠ 0 ∧
    (∀ e ∈ quietEpisode, e.OtherFrame sampleHeader) ∧
    ((run sampleHeader (new staleFrame) (Event.frame faultStatusFrame :: faultEpisode)).2.map
      (fun o => (o.id, o.data.d0)) =
      [(0x210, 0x0B), (0x210, 0x0B), (0x210, 0x0B), (0x210, 0x0B), (0x210, 0x0B),
       (0x211, 0x00), (0x212, 0x03), (0x210, 0x0B)]) ∧
    (∀ o ∈ (run sampleHeader (new staleFrame)
        (Event.frame faultStatusFrame :: faultEpisode)).2,
      o.id = sampleHeader.CAN_ID_CONTROL →
      o.data.d0 &&& sampleHeader.clearErrorLatch = sampleHeader.clearErrorLatch ∧
      o.data.d0 &&& sampleHeader.clearErrorLatch ≠ 0 ∧
      o.data.d0 &&& sampleHeader.enablePowerStage = 0) :=
  have hw := error_gating_follows_status sampleHeader (new staleFrame) faultStatusFrame
    readyStatusFrame faultEpisode quietEpisode (by decide) (by decide) (by decide)
    (by decide) (by decide) (by decide) (by decide) (by decide) (by decide)
  ⟨by decide, by decide, by decide, by decide, by decide, by decide, by decide, by decide,
    hw.1⟩


/-! ## Throttle detector: the order of the phases -/

theorem track1_other (t : ThrottleDetector) :
    t.track1.state = t.state ∧ t.track1.startTime = t.startTime ∧
    t.track1.potentiometerCount = t.potentiometerCount ∧
    t.track1.throttle1Value = t.throttle1Value ∧ t.track1.throttle2Value = t.throttle2Value ∧
    t.track1.throttle2Min = t.throttle2Min ∧ t.track1.throttle2Max = t.throttle2Max ∧
    t.track1.throttle2HighLow = t.throttle2HighLow := by
  unfold ThrottleDetector.track1
  split_ifs <;> exact ⟨rfl, rfl, rfl, rfl, rfl, rfl, rfl, rfl⟩

theorem track2_other (t : ThrottleDetector) :
    t.track2.state = t.state ∧ t.track2.startTime = t.startTime ∧
    t.track2.potentiometerCount = t.potentiometerCount ∧
    t.track2.throttle1Value = t.throttle1Value ∧ t.track2.throttle2Value = t.throttle2Value ∧
    t.track2.throttle1Min = t.throttle1Min ∧ t.track2.throttle1Max = t.throttle1Max ∧
    t.track2.throttle1HighLow = t.throttle1HighLow := by
  unfold ThrottleDetector.track2
  split_ifs <;> exact ⟨rfl, rfl, rfl, rfl, rfl, rfl, rfl, rfl⟩

/-- A `*Wait` handler keeps the phase or enters the phase it is given. -/
theorem waitPhase_state (t : ThrottleDetector) (cfg : DetectorConfig) (x : Reading)
    (p : DetectionState) :
    ((t.waitPhase cfg x p).1.state = t.state ∨ (t.waitPhase cfg x p).1.state = p) ∧
    (t.waitPhase cfg x p).1.potentiometerCount = t.potentiometerCount := by
  unfold ThrottleDetector.waitPhase
  simp only
  split_ifs
  · exact ⟨Or.inl rfl, rfl⟩
  · exact ⟨Or.inr rfl, rfl⟩
  · exact ⟨Or.inl rfl, rfl⟩

/-- One tick keeps the phase or moves to the next phase of its sequence, and keeps the
channel count. -/
theorem detector_step (t : ThrottleDetector) (cfg : DetectorConfig) (x : Reading) :
    ((t.handleTick cfg x).1.state = t.state ∨ (t.handleTick cfg x).1.state = t.state.next) ∧
    (t.handleTick cfg x).1.potentiometerCount = t.potentiometerCount := by
  unfold ThrottleDetector.handleTick
  cases hst : t.state
  · exact ⟨Or.inl hst, rfl⟩
  · have hw := waitPhase_state t cfg x DetectionState.DetectBothMinCalibrate
    rw [hst] at hw
    exact hw
  · simp only [ThrottleDetector.detectBothMinCalibrate]
    split_ifs
    · simp only [(track2_other _).1, (track1_other _).1, (track2_other _).2.2.1,
        (track1_other _).2.2.1]
      exact ⟨Or.inl hst, rfl⟩
    · exact ⟨Or.inr rfl, rfl⟩
  · have hw := waitPhase_state t cfg x DetectionState.DetectBothMaxCalibrate
    rw [hst] at hw
    exact hw
  · simp only [ThrottleDetector.detectBothMaxCalibrate]
    split_ifs
    · simp only [(track2_other _).1, (track1_other _).1, (track2_other _).2.2.1,
        (track1_other _).2.2.1]
      exact ⟨Or.inl hst, rfl⟩
    · exact ⟨Or.inr rfl, rfl⟩
  · have hw := waitPhase_state t cfg x DetectionState.DetectMinCalibrate
    rw [hst] at hw
    exact hw
  · simp only [ThrottleDetector.detectMinCalibrate]
    split_ifs
    · simp only [(track1_other _).1, (track1_other _).2.2.1]
      exact ⟨Or.inl hst, rfl⟩
    · exact ⟨Or.inr rfl, rfl⟩
  · have hw := waitPhase_state t cfg x DetectionState.DetectMaxCalibrate
    rw [hst] at hw
    exact hw
  · simp only [ThrottleDetector.detectMaxCalibrate]
    split_ifs
    · simp only [(track1_other _).1, (track1_other _).2.2.1]
      exact ⟨Or.inl hst, rfl⟩
    · exact ⟨Or.inr rfl, rfl⟩


theorem code_injective (a b : DetectionState) (hab : a.code = b.code) : a = b := by
  cases a <;> cases b <;> first | rfl | exact absurd hab (by decide)

theorem code_next_le (a : DetectionState) : a.next.code ≤ a.code := by
  cases a <;> decide

theorem onPath_next (dual : Bool) (a : DetectionState) (ha : a.onPath dual = true) :
    a.next.onPath dual = true := by
  cases a <;> first | rfl | exact ha

theorem detector_step_code (t : ThrottleDetector) (cfg : DetectorConfig) (x : Reading) :
    (t.handleTick cfg x).1.state.code ≤ t.state.code := by
  rcases (detector_step t cfg x).1 with hs | hs
  · rw [hs]
  · rw [hs]; exact code_next_le _

theorem trace_head (cfg : DetectorConfig) (xs : List Reading) (t : ThrottleDetector) :
    (t.trace cfg xs).head? = some t.state := by
  cases xs <;> rfl

theorem trace_code_le (cfg : DetectorConfig) (xs : List Reading) :
    ∀ t : ThrottleDetector, ∀ b ∈ t.trace cfg xs, b.code ≤ t.state.code := by
  induction xs with
  | nil =>
    intro t b hb
    simp only [ThrottleDetector.trace, List.mem_singleton] at hb
    rw [hb]
  | cons x xs ih =>
    intro t b hb
    simp only [ThrottleDetector.trace, List.mem_cons] at hb
    rcases hb with hb | hb
    · rw [hb]
    · exact Nat.le_trans (ih _ b hb) (detector_step_code t cfg x)

theorem trace_pairwise (cfg : DetectorConfig) (xs : List Reading) :
    ∀ t : ThrottleDetector, (t.trace cfg xs).Pairwise (fun a b => b.code ≤ a.code) := by
  induction xs with
  | nil =>
    intro t
    exact List.pairwise_singleton _ _
  | cons x xs ih =>
    intro t
    simp only [ThrottleDetector.trace, List.pairwise_cons]
    exact ⟨fun b hb => Nat.le_trans (trace_code_le cfg xs _ b hb) (detector_step_code t cfg x),
      ih _⟩

theorem trace_chain (cfg : DetectorConfig) (xs : List Reading) :
    ∀ t : ThrottleDetector, (t.trace cfg xs).Chain' (fun a b => b = a ∨ b = a.next) := by
  induction xs with
  | nil =>
    intro t
    exact List.chain'_singleton _
  | cons x xs ih =>
    intro t
    simp only [ThrottleDetector.trace]
    rw [List.chain'_cons']
    refine ⟨?_, ih _⟩
    intro y hy
    rw [trace_head, Option.mem_def, Option.some.injEq] at hy
    rw [← hy]
    exact (detector_step t cfg x).1

theorem trace_onPath (cfg : DetectorConfig) (dual : Bool) (xs : List Reading) :
    ∀ t : ThrottleDetector, t.state.onPath dual = true →
      ∀ b ∈ t.trace cfg xs, b.onPath dual = true := by
  induction xs with
  | nil =>
    intro t ht b hb
    simp only [ThrottleDetector.trace, List.mem_singleton] at hb
    rw [hb]; exact ht
  | cons x xs ih =>
    intro t ht b hb
    simp only [ThrottleDetector.trace, List.mem_cons] at hb
    rcases hb with hb | hb
    · rw [hb]; exact ht
    · refine ih _ ?_ b hb
      rcases (detector_step t cfg x).1 with hs | hs
      · rw [hs]; exact ht
      · rw [hs]; exact onPath_next dual _ ht

theorem runTicks_append (cfg : DetectorConfig) (xs ys : List Reading) :
    ∀ t : ThrottleDetector, t.runTicks cfg (xs ++ ys) = (t.runTicks cfg xs).runTicks cfg ys := by
  induction xs with
  | nil => intro t; rfl
  | cons x xs ih =>
    intro t
    exact ih _

theorem runTicks_doNothing (cfg : DetectorConfig) (ys : List Reading) :
    ∀ t : ThrottleDetector, t.state = DetectionState.DoNothing → t.runTicks cfg ys = t := by
  induction ys with
  | nil => intro t _; rfl
  | cons y ys ih =>
    intro t ht
    have h1 : (t.handleTick cfg y).1 = t := by
      unfold ThrottleDetector.handleTick
      rw [ht]
    show ThrottleDetector.runTicks (t.handleTick cfg y).1 cfg ys = t
    rw [h1]
    exact ih t ht

theorem runTicks_count (cfg : DetectorConfig) (xs : List Reading) :
    ∀ t : ThrottleDetector, (t.runTicks cfg xs).potentiometerCount = t.potentiometerCount := by
  induction xs with
  | nil => intro t; rfl
  | cons x xs ih =>
    intro t
    show (ThrottleDetector.runTicks (t.handleTick cfg x).1 cfg xs).potentiometerCount = _
    rw [ih, (detector_step t cfg x).2]

/-- The tick that returns to `DoNothing` keeps the results of the calibration. -/
theorem finish_keeps_results (t : ThrottleDetector) (cfg : DetectorConfig) (x : Reading)
    (hne : t.state ≠ DetectionState.DoNothing)
    (hdone : (t.handleTick cfg x).1.state = DetectionState.DoNothing) :
    (t.handleTick cfg x).1.throttle1Min = t.throttle1Min ∧
    (t.handleTick cfg x).1.throttle1Max = t.throttle1Max ∧
    (t.handleTick cfg x).1.throttle2Min = t.throttle2Min ∧
    (t.handleTick cfg x).1.throttle2Max = t.throttle2Max ∧
    (t.handleTick cfg x).1.throttle1HighLow = t.throttle1HighLow ∧
    (t.handleTick cfg x).1.throttle2HighLow = t.throttle2HighLow ∧
    (t.handleTick cfg x).1.potentiometerCount = t.potentiometerCount ∧
    ((t.handleTick cfg x).1.throttle2Inverse = t.throttle2Inverse ∨
      (t.handleTick cfg x).1.throttle2Inverse = (t.throttle1HighLow != t.throttle2HighLow)) := by
  have hstep := (detector_step t cfg x).1
  rw [hdone] at hstep
  have hnext : t.state.next = DetectionState.DoNothing := by
    rcases hstep with hs | hs
    · exact absurd hs.symm hne
    · exact hs.symm
  revert hdone
  unfold ThrottleDetector.handleTick
  cases hst : t.state <;> rw [hst] at hnext <;>
    first
    | exact absurd hst hne
    | exact absurd hnext (by decide)
    | skip
  · simp only [ThrottleDetector.detectBothMaxCalibrate]
    split_ifs
    · intro hd
      rw [(track2_other _).1, (track1_other _).1] at hd
      exact absurd (hst.symm.trans hd) (by decide)
    · intro _
      exact ⟨rfl, rfl, rfl, rfl, rfl, rfl, rfl, Or.inr rfl⟩
  · simp only [ThrottleDetector.detectMaxCalibrate]
    split_ifs
    · intro hd
      rw [(track1_other _).1] at hd
      exact absurd (hst.symm.trans hd) (by decide)
    · intro _
      exact ⟨rfl, rfl, rfl, rfl, rfl, rfl, rfl, Or.inl rfl⟩


/-- C15 (invariant): after `detect()`, every sequence of `handleTick` calls goes through
the phases in the order of section 4.4: it starts in `DetectBothMinWait` (two channels) or
`DetectMinWait` (one channel), each call keeps the phase or moves to the next one of that
sequence, only phases of that sequence occur, and a phase that has been left does not occur
again; once `DoNothing` is reached further calls change nothing, the tick that reaches it
keeps `min`/`max`/`highLow` and the channel count (setting `throttle2Inverse` from the two
polarities on the dual path), and the channel count is the one chosen by `detect()`. -/
theorem calibration_phases_forward (cfg : DetectorConfig) (t0 : ThrottleDetector)
    (x0 : Reading) (throttle2Provided : Bool) (xs : List Reading) :
    (t0.detect x0 throttle2Provided).state =
      (if throttle2Provided then DetectionState.DetectBothMinWait
        else DetectionState.DetectMinWait) ∧
    ((t0.detect x0 throttle2Provided).trace cfg xs).Chain'
      (fun a b => b = a ∨ b = a.next) ∧
    (∀ b ∈ (t0.detect x0 throttle2Provided).trace cfg xs,
      b.onPath throttle2Provided = true) ∧
    (∀ (pre mid post : List DetectionState) (a : DetectionState),
      (t0.detect x0 throttle2Provided).trace cfg xs = pre ++ a :: (mid ++ a :: post) →
      ∀ b ∈ mid, b = a) ∧
    (∀ ys : List Reading,
      ((t0.detect x0 throttle2Provided).runTicks cfg xs).state = DetectionState.DoNothing →
      (t0.detect x0 throttle2Provided).runTicks cfg (xs ++ ys)
        = (t0.detect x0 throttle2Provided).runTicks cfg xs) ∧
    ((t0.detect x0 throttle2Provided).runTicks cfg xs).potentiometerCount
      = (if throttle2Provided then 2 else 1) ∧
    (∀ (t : ThrottleDetector) (x : Reading), t.state ≠ DetectionState.DoNothing →
      (t.handleTick cfg x).1.state = DetectionState.DoNothing →
      (t.handleTick cfg x).1.throttle1Min = t.throttle1Min ∧
      (t.handleTick cfg x).1.throttle1Max = t.throttle1Max ∧
      (t.handleTick cfg x).1.throttle2Min = t.throttle2Min ∧
      (t.handleTick cfg x).1.throttle2Max = t.throttle2Max ∧
      (t.handleTick cfg x).1.throttle1HighLow = t.throttle1HighLow ∧
      (t.handleTick cfg x).1.throttle2HighLow = t.throttle2HighLow ∧
      (t.handleTick cfg x).1.potentiometerCount = t.potentiometerCount ∧
      ((t.handleTick cfg x).1.throttle2Inverse = t.throttle2Inverse ∨
        (t.handleTick cfg x).1.throttle2Inverse
          = (t.throttle1HighLow != t.throttle2HighLow))) := by
  refine ⟨rfl, trace_chain cfg xs _, ?_, ?_, ?_, ?_, fun t x => finish_keeps_results t cfg x⟩
  · apply trace_onPath cfg throttle2Provided xs
    cases throttle2Provided <;> rfl
  · intro pre mid post a htr b hb
    have hp := trace_pairwise cfg xs (t0.detect x0 throttle2Provided)
    rw [htr, List.pairwise_append] at hp
    have hp2 := hp.2.1
    rw [List.pairwise_cons] at hp2
    have h1 : b.code ≤ a.code :=
      hp2.1 b (List.mem_append_left _ hb)
    have hp3 := hp2.2
    rw [List.pairwise_append] at hp3
    have h2 : a.code ≤ b.code := hp3.2.2 b hb a (List.mem_cons_self _ _)
    exact code_injective b a (Nat.le_antisymm h1 h2)
  · intro ys hdone
    rw [runTicks_append, runTicks_doNothing cfg ys _ hdone]
  · rw [runTicks_count]
    rfl

theorem calibration_phases_forward_witness :
    ((idleDetector.detect ⟨0, 500, 3000⟩ true).trace sampleConfig sampleReadings =
      [DetectionState.DetectBothMinWait, DetectionState.DetectBothMinWait,
       DetectionState.DetectBothMinCalibrate, DetectionState.DetectBothMinCalibrate,
       DetectionState.DetectBothMinCalibrate, DetectionState.DetectBothMaxWait,
       DetectionState.DetectBothMaxWait, DetectionState.DetectBothMaxWait,
       DetectionState.DetectBothMaxCalibrate, DetectionState.DetectBothMaxCalibrate,
       DetectionState.DetectBothMaxCalibrate, DetectionState.DoNothing,
       DetectionState.DoNothing]) ∧
    ((idleDetector.detect ⟨0, 500, 3000⟩ true).trace sampleConfig sampleReadings).Chain'
      (fun a b => b = a ∨ b = a.next) ∧
    ((idleDetector.detect ⟨0, 500, 3000⟩ true).runTicks sampleConfig
      sampleReadings).potentiometerCount = 2 :=
  have hw := calibration_phases_forward sampleConfig idleDetector ⟨0, 500, 3000⟩ true
    sampleReadings
  ⟨by decide, hw.2.1, hw.2.2.2.2.2.1⟩


/-! ## Throttle detector: polarity and correlation -/

theorem nonIncreasing_cons {a b : Nat} {l : List Nat} :
    NonIncreasing (a :: b :: l) ↔ b ≤ a ∧ NonIncreasing (b :: l) := by
  unfold NonIncreasing
  exact List.chain'_cons

theorem nonDecreasing_cons {a b : Nat} {l : List Nat} :
    NonDecreasing (a :: b :: l) ↔ a ≤ b ∧ NonDecreasing (b :: l) := by
  unfold NonDecreasing
  exact List.chain'_cons

/-- A segment fed with samples that never rise: the minimum follows the latest sample, the
maximum stays, and the flag is raised as soon as a sample is below the first one. -/
theorem feed_nonIncreasing (vs : List Nat) :
    ∀ c : Channel, NonIncreasing (c.value :: vs) → c.min = c.value → c.value ≤ c.max →
      (vs.foldl Channel.feed c).min = (vs.foldl Channel.feed c).value ∧
      (vs.foldl Channel.feed c).max = c.max ∧
      (vs.foldl Channel.feed c).value ≤ c.value ∧
      (∀ v ∈ vs, (vs.foldl Channel.feed c).value ≤ v ∧ v ≤ c.value) ∧
      (vs.foldl Channel.feed c).highLow
        = (c.highLow || decide ((vs.foldl Channel.feed c).value < c.value)) := by
  induction vs with
  | nil =>
    intro c _ hmin _
    simp [hmin]
  | cons v vs ih =>
    intro c hchain hmin hmax
    rw [nonIncreasing_cons] at hchain
    obtain ⟨hv, hrest⟩ := hchain
    have hfeed : c.feed v = ⟨v, v, c.max, c.highLow || decide (v < c.value)⟩ := by
      unfold Channel.feed
      by_cases h1 : v < c.min
      · rw [if_pos h1]
        have : v < c.value := by omega
        simp [this]
      · rw [if_neg h1, if_neg (by omega)]
        have h2 : v = c.min := by omega
        have h3 : ¬ v < c.value := by omega
        simp [h3, ← h2]
    simp only [List.foldl_cons, hfeed]
    have ih1 := ih ⟨v, v, c.max, c.highLow || decide (v < c.value)⟩ hrest rfl
      (by show v ≤ c.max; omega)
    simp only at ih1
    obtain ⟨i1, i2, i3, i4, i5⟩ := ih1
    refine ⟨i1, i2, by omega, ?_, ?_⟩
    · intro w hw
      rw [List.mem_cons] at hw
      rcases hw with hw | hw
      · rw [hw]; exact ⟨i3, hv⟩
      · exact ⟨(i4 w hw).1, by have := (i4 w hw).2; omega⟩
    · rw [i5]
      generalize (List.foldl Channel.feed
        ⟨v, v, c.max, c.highLow || decide (v < c.value)⟩ vs).value = fv at i3
      have key : (decide (v < c.value) || decide (fv < v)) = decide (fv < c.value) := by
        by_cases h1 : v < c.value
        · have h2 : fv < c.value := by omega
          simp [h1, h2]
        · have h2 : v = c.value := by omega
          simp [h2]
      rw [Bool.or_assoc, key]

/-- A segment fed with samples that never fall: the maximum follows the latest sample and
a cleared flag stays cleared. -/
theorem feed_nonDecreasing (vs : List Nat) :
    ∀ c : Channel, NonDecreasing (c.value :: vs) → c.max = c.value → c.min ≤ c.value →
      c.highLow = false →
      (vs.foldl Channel.feed c).max = (vs.foldl Channel.feed c).value ∧
      (vs.foldl Channel.feed c).min = c.min ∧
      (vs.foldl Channel.feed c).highLow = false := by
  induction vs with
  | nil =>
    intro c _ hmax _ hflag
    simp [hmax, hflag]
  | cons v vs ih =>
    intro c hchain hmax hmin hflag
    rw [nonDecreasing_cons] at hchain
    obtain ⟨hv, hrest⟩ := hchain
    have hfeed : c.feed v = ⟨v, c.min, v, false⟩ := by
      unfold Channel.feed
      rw [if_neg (by omega)]
      by_cases h1 : v > c.max
      · rw [if_pos h1]
      · rw [if_neg h1]
        have h2 : v = c.max := by omega
        simp [hflag, ← h2]
    simp only [List.foldl_cons, hfeed]
    have ih1 := ih ⟨v, c.min, v, false⟩ hrest rfl (by show c.min ≤ v; omega) rfl
    simp only at ih1
    exact ih1

/-- In a sequence that never rises and is not constant the last sample is below the
first, so the flag of the segment is raised. -/
theorem feed_nonIncreasing_nonConstant (v0 : Nat) (vs : List Nat)
    (hchain : NonIncreasing (v0 :: vs)) (hnc : NonConstant (v0 :: vs)) :
    (vs.foldl Channel.feed ⟨v0, v0, v0, false⟩).highLow = true := by
  obtain ⟨_, _, _, i4, i5⟩ := feed_nonIncreasing vs ⟨v0, v0, v0, false⟩ hchain rfl
    (Nat.le_refl _)
  obtain ⟨v, hv, hne⟩ := hnc
  simp only [List.head?_cons, ne_eq, Option.some.injEq] at hne
  rw [List.mem_cons] at hv
  rcases hv with hv | hv
  · exact absurd hv hne
  · have := i4 v hv
    simp only at this
    rw [i5]
    have hlt : (List.foldl Channel.feed ⟨v0, v0, v0, false⟩ vs).value < v0 := by omega
    simp [hlt]

theorem feed_nonDecreasing_flag (v0 : Nat) (vs : List Nat)
    (hchain : NonDecreasing (v0 :: vs)) :
    (vs.foldl Channel.feed ⟨v0, v0, v0, false⟩).highLow = false :=
  (feed_nonDecreasing vs ⟨v0, v0, v0, false⟩ hchain rfl (Nat.le_refl _) rfl).2.2


theorem read_track1_channel1 (t : ThrottleDetector) (x : Reading) :
    ((t.readThrottleValues x).track1).channel1 = t.channel1.feed (toU16 x.raw1) := by
  unfold ThrottleDetector.track1 ThrottleDetector.readThrottleValues Channel.feed
    ThrottleDetector.channel1
  simp only
  split_ifs <;> rfl

theorem read_track2_channel2 (t : ThrottleDetector) (x : Reading) :
    ((t.readThrottleValues x).track2).channel2 = t.channel2.feed (toU16 x.raw2) := by
  unfold ThrottleDetector.track2 ThrottleDetector.readThrottleValues Channel.feed
    ThrottleDetector.channel2
  simp only
  split_ifs <;> rfl

theorem track2_channel1 (t : ThrottleDetector) : t.track2.channel1 = t.channel1 := by
  obtain ⟨_, _, _, h4, _, h6, h7, h8⟩ := track2_other t
  unfold ThrottleDetector.channel1
  rw [h4, h6, h7, h8]

theorem track1_channel2 (t : ThrottleDetector) : t.track1.channel2 = t.channel2 := by
  obtain ⟨_, _, _, _, h5, h6, h7, h8⟩ := track1_other t
  unfold ThrottleDetector.channel2
  rw [h5, h6, h7, h8]

theorem track2_channel2 (u : ThrottleDetector) :
    u.track2.channel2 = u.channel2.feed u.throttle2Value := by
  unfold ThrottleDetector.track2 Channel.feed ThrottleDetector.channel2
  simp only
  split_ifs <;> rfl

theorem read_track1_track2_channel2 (t : ThrottleDetector) (x : Reading) :
    (((t.readThrottleValues x).track1).track2).channel2 = t.channel2.feed (toU16 x.raw2) := by
  rw [track2_channel2, track1_channel2, (track1_other _).2.2.2.2.1]
  rfl

/-- A tick inside the window of a `*Calibrate` phase feeds the sample to channel 1 (and
to channel 2 on the dual path) and keeps phase and window. -/
theorem calibrate_tick (t : ThrottleDetector) (cfg : DetectorConfig) (x : Reading)
    (hcal : t.state.IsCalibrate) (hwin : x.millis - t.startTime < cfg.calibrateTime) :
    (t.handleTick cfg x).1.state = t.state ∧
    (t.handleTick cfg x).1.startTime = t.startTime ∧
    (t.handleTick cfg x).1.channel1 = t.channel1.feed (toU16 x.raw1) ∧
    (t.state.IsBothCalibrate →
      (t.handleTick cfg x).1.channel2 = t.channel2.feed (toU16 x.raw2)) := by
  unfold ThrottleDetector.handleTick
  rcases hcal with hst | hst | hst | hst
  · rw [hst]
    simp only [ThrottleDetector.detectBothMinCalibrate, if_pos hwin]
    refine ⟨?_, ?_, ?_, fun _ => read_track1_track2_channel2 t x⟩
    · rw [(track2_other _).1, (track1_other _).1]; exact hst
    · rw [(track2_other _).2.1, (track1_other _).2.1]; rfl
    · rw [track2_channel1, read_track1_channel1]
  · rw [hst]
    simp only [ThrottleDetector.detectBothMaxCalibrate, if_pos hwin]
    refine ⟨?_, ?_, ?_, fun _ => read_track1_track2_channel2 t x⟩
    · rw [(track2_other _).1, (track1_other _).1]; exact hst
    · rw [(track2_other _).2.1, (track1_other _).2.1]; rfl
    · rw [track2_channel1, read_track1_channel1]
  · rw [hst]
    simp only [ThrottleDetector.detectMinCalibrate, if_pos hwin]
    refine ⟨?_, ?_, read_track1_channel1 t x, ?_⟩
    · rw [(track1_other _).1]; exact hst
    · rw [(track1_other _).2.1]; rfl
    · intro hb
      exact absurd hb (by unfold DetectionState.IsBothCalibrate; decide)
  · rw [hst]
    simp only [ThrottleDetector.detectMaxCalibrate, if_pos hwin]
    refine ⟨?_, ?_, read_track1_channel1 t x, ?_⟩
    · rw [(track1_other _).1]; exact hst
    · rw [(track1_other _).2.1]; rfl
    · intro hb
      exact absurd hb (by unfold DetectionState.IsBothCalibrate; decide)

/-- The ticks inside the window of a `*Calibrate` phase feed their samples, in order. -/
theorem calibrate_run (cfg : DetectorConfig) (xs : List Reading) :
    ∀ t : ThrottleDetector, t.state.IsCalibrate →
      (∀ x ∈ xs, x.millis - t.startTime < cfg.calibrateTime) →
      (t.runTicks cfg xs).state = t.state ∧
      (t.runTicks cfg xs).startTime = t.startTime ∧
      (t.runTicks cfg xs).channel1 = (samples1 xs).foldl Channel.feed t.channel1 ∧
      (t.state.IsBothCalibrate →
        (t.runTicks cfg xs).channel2 = (samples2 xs).foldl Channel.feed t.channel2) := by
  induction xs with
  | nil =>
    intro t _ _
    exact ⟨rfl, rfl, rfl, fun _ => rfl⟩
  | cons x xs ih =>
    intro t hcal hwin
    obtain ⟨s1, s2, s3, s4⟩ := calibrate_tick t cfg x hcal (hwin x (List.mem_cons_self _ _))
    have hcal' : (t.handleTick cfg x).1.state.IsCalibrate := by rw [s1]; exact hcal
    have hwin' : ∀ y ∈ xs, y.millis - (t.handleTick cfg x).1.startTime < cfg.calibrateTime := by
      intro y hy
      rw [s2]
      exact hwin y (List.mem_cons_of_mem _ hy)
    obtain ⟨i1, i2, i3, i4⟩ := ih _ hcal' hwin'
    show (ThrottleDetector.runTicks (t.handleTick cfg x).1 cfg xs).state = t.state ∧
      (ThrottleDetector.runTicks (t.handleTick cfg x).1 cfg xs).startTime = t.startTime ∧
      (ThrottleDetector.runTicks (t.handleTick cfg x).1 cfg xs).channel1
        = (samples1 (x :: xs)).foldl Channel.feed t.channel1 ∧
      (t.state.IsBothCalibrate →
        (ThrottleDetector.runTicks (t.handleTick cfg x).1 cfg xs).channel2
          = (samples2 (x :: xs)).foldl Channel.feed t.channel2)
    refine ⟨i1.trans s1, i2.trans s2, ?_, ?_⟩
    · rw [i3, s3]; rfl
    · intro hb
      rw [i4 (by rw [s1]; exact hb), s4 hb]; rfl


/-- The tick on which a `*Wait` handler enters its `*Calibrate` phase starts the window
and the segment of each channel at the sample just taken. -/
theorem waitPhase_enter (t : ThrottleDetector) (cfg : DetectorConfig) (x : Reading)
    (p : DetectionState) (hp : t.state ≠ p) (hEnter : (t.waitPhase cfg x p).1.state = p) :
    (t.waitPhase cfg x p).1.startTime = x.millis ∧
    (t.waitPhase cfg x p).1.channel1
      = ⟨toU16 x.raw1, toU16 x.raw1, toU16 x.raw1, false⟩ ∧
    (t.waitPhase cfg x p).1.channel2
      = ⟨toU16 x.raw2, toU16 x.raw2, toU16 x.raw2, false⟩ := by
  revert hEnter
  unfold ThrottleDetector.waitPhase
  simp only
  split_ifs
  · intro h; exact absurd h hp
  · intro _; exact ⟨rfl, rfl, rfl⟩
  · intro h; exact absurd h hp

theorem wait_enter (t : ThrottleDetector) (cfg : DetectorConfig) (x : Reading)
    (hWait : t.state.next.IsCalibrate) (hEnter : (t.handleTick cfg x).1.state = t.state.next) :
    (t.handleTick cfg x).1.startTime = x.millis ∧
    (t.handleTick cfg x).1.channel1
      = ⟨toU16 x.raw1, toU16 x.raw1, toU16 x.raw1, false⟩ ∧
    (t.handleTick cfg x).1.channel2
      = ⟨toU16 x.raw2, toU16 x.raw2, toU16 x.raw2, false⟩ := by
  revert hEnter hWait
  unfold ThrottleDetector.handleTick
  cases hst : t.state <;> intro hWait hEnter <;>
    first
    | exact absurd hWait (by unfold DetectionState.IsCalibrate; decide)
    | exact waitPhase_enter t cfg x _ (by rw [hst]; decide) hEnter

/-- The tick at the end of the window of a `*Calibrate` phase advances to the next phase,
keeps the data of both channels and, on the dual path, sets the correlation flag from the
two polarities. -/
theorem calibrate_finish (t : ThrottleDetector) (cfg : DetectorConfig) (x : Reading)
    (hcal : t.state.IsCalibrate) (hend : ¬ x.millis - t.startTime < cfg.calibrateTime) :
    (t.handleTick cfg x).1.state = t.state.next ∧
    (t.handleTick cfg x).1.channel1 = t.channel1 ∧
    (t.handleTick cfg x).1.channel2 = t.channel2 ∧
    (t.state.IsBothCalibrate →
      (t.handleTick cfg x).1.throttle2Inverse
        = (t.throttle1HighLow != t.throttle2HighLow)) := by
  unfold ThrottleDetector.handleTick
  rcases hcal with hst | hst | hst | hst <;> rw [hst]
  · simp only [ThrottleDetector.detectBothMinCalibrate, if_neg hend]
    exact ⟨rfl, rfl, rfl, fun _ => trivial⟩
  · simp only [ThrottleDetector.detectBothMaxCalibrate, if_neg hend]
    exact ⟨rfl, rfl, rfl, fun _ => trivial⟩
  · simp only [ThrottleDetector.detectMinCalibrate, if_neg hend]
    exact ⟨rfl, rfl, rfl, fun hb => absurd hb (by unfold DetectionState.IsBothCalibrate; decide)⟩
  · simp only [ThrottleDetector.detectMaxCalibrate, if_neg hend]
    exact ⟨rfl, rfl, rfl, fun hb => absurd hb (by unfold DetectionState.IsBothCalibrate; decide)⟩

/-- A complete `*Calibrate` segment: entered on reading `x0`, fed the readings `xs` inside
its window and closed by the reading `xend`. -/
theorem calibrate_segment (cfg : DetectorConfig) (tW : ThrottleDetector) (x0 : Reading)
    (xs : List Reading) (xend : Reading)
    (hWait : tW.state.next.IsCalibrate)
    (hEnter : (tW.handleTick cfg x0).1.state = tW.state.next)
    (hWin : ∀ x ∈ xs, x.millis - x0.millis < cfg.calibrateTime)
    (hEnd : ¬ xend.millis - x0.millis < cfg.calibrateTime) :
    (tW.runTicks cfg (x0 :: (xs ++ [xend]))).state = tW.state.next.next ∧
    (tW.runTicks cfg (x0 :: (xs ++ [xend]))).throttle1HighLow
      = ((samples1 xs).foldl Channel.feed
          ⟨toU16 x0.raw1, toU16 x0.raw1, toU16 x0.raw1, false⟩).highLow ∧
    (tW.state.next.IsBothCalibrate →
      (tW.runTicks cfg (x0 :: (xs ++ [xend]))).throttle2HighLow
        = ((samples2 xs).foldl Channel.feed
            ⟨toU16 x0.raw2, toU16 x0.raw2, toU16 x0.raw2, false⟩).highLow ∧
      (tW.runTicks cfg (x0 :: (xs ++ [xend]))).throttle2Inverse
        = ((tW.runTicks cfg (x0 :: (xs ++ [xend]))).throttle1HighLow
            != (tW.runTicks cfg (x0 :: (xs ++ [xend]))).throttle2HighLow)) := by
  obtain ⟨e1, e2, e3⟩ := wait_enter tW cfg x0 hWait hEnter
  have hcal1 : (tW.handleTick cfg x0).1.state.IsCalibrate := by rw [hEnter]; exact hWait
  have hwin1 : ∀ x ∈ xs, x.millis - (tW.handleTick cfg x0).1.startTime < cfg.calibrateTime := by
    intro x hx; rw [e1]; exact hWin x hx
  obtain ⟨r1, r2, r3, r4⟩ := calibrate_run cfg xs _ hcal1 hwin1
  have hcal2 : ((tW.handleTick cfg x0).1.runTicks cfg xs).state.IsCalibrate := by
    rw [r1]; exact hcal1
  have hend2 : ¬ xend.millis - ((tW.handleTick cfg x0).1.runTicks cfg xs).startTime
      < cfg.calibrateTime := by
    rw [r2, e1]; exact hEnd
  obtain ⟨f1, f2, f3, f4⟩ := calibrate_finish _ cfg xend hcal2 hend2
  have hrun : tW.runTicks cfg (x0 :: (xs ++ [xend]))
      = (((tW.handleTick cfg x0).1.runTicks cfg xs).handleTick cfg xend).1 := by
    show ThrottleDetector.runTicks (tW.handleTick cfg x0).1 cfg (xs ++ [xend]) = _
    rw [runTicks_append]
    rfl
  rw [hrun]
  have c1 : ((((tW.handleTick cfg x0).1.runTicks cfg xs).handleTick cfg xend).1).throttle1HighLow
      = ((samples1 xs).foldl Channel.feed
          ⟨toU16 x0.raw1, toU16 x0.raw1, toU16 x0.raw1, false⟩).highLow := by
    have := congrArg Channel.highLow (f2.trans (r3.trans (by rw [e2])))
    exact this
  refine ⟨?_, c1, ?_⟩
  · rw [f1, r1, hEnter]
  · intro hb
    have hb1 : (tW.handleTick cfg x0).1.state.IsBothCalibrate := by rw [hEnter]; exact hb
    have hb2 : ((tW.handleTick cfg x0).1.runTicks cfg xs).state.IsBothCalibrate := by
      rw [r1]; exact hb1
    have c2 : ((((tW.handleTick cfg x0).1.runTicks cfg xs).handleTick cfg xend).1).throttle2HighLow
        = ((samples2 xs).foldl Channel.feed
            ⟨toU16 x0.raw2, toU16 x0.raw2, toU16 x0.raw2, false⟩).highLow := by
      have := congrArg Channel.highLow (f3.trans ((r4 hb1).trans (by rw [e3])))
      exact this
    refine ⟨c2, ?_⟩
    rw [f4 hb2]
    have g1 := congrArg Channel.highLow f2
    have g2 := congrArg Channel.highLow f3
    simp only [ThrottleDetector.channel1, ThrottleDetector.channel2] at g1 g2
    rw [g1, g2]


/-- C16 (functional): in a `*Calibrate` segment (entered on reading `x0`, fed the readings
`xs` inside its window, closed by `xend`) the phase is completed and a sample sequence of
channel 1 that falls (never rises and is not constant) leaves
`isThrottle1HighLow() = true`, one that rises (never falls) leaves it `false`; on the dual
path the same holds for channel 2 and `isThrottle2HighLow()`, and `isThrottle2Inverse()`
is `true` when the two channels move in opposite directions and `false` when they move
together. -/
theorem calibrate_polarity (cfg : DetectorConfig) (tW : ThrottleDetector) (x0 : Reading)
    (xs : List Reading) (xend : Reading)
    (hWait : tW.state.next.IsCalibrate)
    (hEnter : (tW.handleTick cfg x0).1.state = tW.state.next)
    (hWin : ∀ x ∈ xs, x.millis - x0.millis < cfg.calibrateTime)
    (hEnd : ¬ xend.millis - x0.millis < cfg.calibrateTime) :
    (tW.runTicks cfg (x0 :: (xs ++ [xend]))).state = tW.state.next.next ∧
    (NonIncreasing (samples1 (x0 :: xs)) → NonConstant (samples1 (x0 :: xs)) →
      (tW.runTicks cfg (x0 :: (xs ++ [xend]))).isThrottle1HighLow = true) ∧
    (NonDecreasing (samples1 (x0 :: xs)) →
      (tW.runTicks cfg (x0 :: (xs ++ [xend]))).isThrottle1HighLow = false) ∧
    (tW.state.next.IsBothCalibrate →
      (NonIncreasing (samples2 (x0 :: xs)) → NonConstant (samples2 (x0 :: xs)) →
        (tW.runTicks cfg (x0 :: (xs ++ [xend]))).isThrottle2HighLow = true) ∧
      (NonDecreasing (samples2 (x0 :: xs)) →
        (tW.runTicks cfg (x0 :: (xs ++ [xend]))).isThrottle2HighLow = false) ∧
      (NonIncreasing (samples1 (x0 :: xs)) → NonConstant (samples1 (x0 :: xs)) →
        NonDecreasing (samples2 (x0 :: xs)) →
        (tW.runTicks cfg (x0 :: (xs ++ [xend]))).isThrottle2Inverse = true) ∧
      (NonDecreasing (samples1 (x0 :: xs)) →
        NonIncreasing (samples2 (x0 :: xs)) → NonConstant (samples2 (x0 :: xs)) →
        (tW.runTicks cfg (x0 :: (xs ++ [xend]))).isThrottle2Inverse = true) ∧
      (NonIncreasing (samples1 (x0 :: xs)) → NonConstant (samples1 (x0 :: xs)) →
        NonIncreasing (samples2 (x0 :: xs)) → NonConstant (samples2 (x0 :: xs)) →
        (tW.runTicks cfg (x0 :: (xs ++ [xend]))).isThrottle2Inverse = false) ∧
      (NonDecreasing (samples1 (x0 :: xs)) → NonDecreasing (samples2 (x0 :: xs)) →
        (tW.runTicks cfg (x0 :: (xs ++ [xend]))).isThrottle2Inverse = false)) := by
  obtain ⟨s1, s2, s3⟩ := calibrate_segment cfg tW x0 xs xend hWait hEnter hWin hEnd
  have d1 : NonIncreasing (samples1 (x0 :: xs)) → NonConstant (samples1 (x0 :: xs)) →
      (tW.runTicks cfg (x0 :: (xs ++ [xend]))).throttle1HighLow = true := by
    intro h1 h2
    rw [s2]
    exact feed_nonIncreasing_nonConstant _ _ h1 h2
  have u1 : NonDecreasing (samples1 (x0 :: xs)) →
      (tW.runTicks cfg (x0 :: (xs ++ [xend]))).throttle1HighLow = false := by
    intro h1
    rw [s2]
    exact feed_nonDecreasing_flag _ _ h1
  refine ⟨s1, d1, u1, ?_⟩
  intro hb
  obtain ⟨s4, s5⟩ := s3 hb
  have d2 : NonIncreasing (samples2 (x0 :: xs)) → NonConstant (samples2 (x0 :: xs)) →
      (tW.runTicks cfg (x0 :: (xs ++ [xend]))).throttle2HighLow = true := by
    intro h1 h2
    rw [s4]
    exact feed_nonIncreasing_nonConstant _ _ h1 h2
  have u2 : NonDecreasing (samples2 (x0 :: xs)) →
      (tW.runTicks cfg (x0 :: (xs ++ [xend]))).throttle2HighLow = false := by
    intro h1
    rw [s4]
    exact feed_nonDecreasing_flag _ _ h1
  refine ⟨d2, u2, ?_, ?_, ?_, ?_⟩
  · intro a1 a2 b1
    show (tW.runTicks cfg (x0 :: (xs ++ [xend]))).throttle2Inverse = true
    rw [s5, d1 a1 a2, u2 b1]
    rfl
  · intro a1 b1 b2
    show (tW.runTicks cfg (x0 :: (xs ++ [xend]))).throttle2Inverse = true
    rw [s5, u1 a1, d2 b1 b2]
    rfl
  · intro a1 a2 b1 b2
    show (tW.runTicks cfg (x0 :: (xs ++ [xend]))).throttle2Inverse = false
    rw [s5, d1 a1 a2, d2 b1 b2]
    rfl
  · intro a1 b1
    show (tW.runTicks cfg (x0 :: (xs ++ [xend]))).throttle2Inverse = false
    rw [s5, u1 a1, u2 b1]
    rfl

theorem calibrate_polarity_witness :
    waitingDetector.state.next.IsCalibrate ∧
    (waitingDetector.handleTick sampleConfig ⟨3000, 3000, 400⟩).1.state
      = waitingDetector.state.next ∧
    (∀ x ∈ sweepReadings, x.millis - 3000 < sampleConfig.calibrateTime) ∧
    samples1 (⟨3000, 3000, 400⟩ :: sweepReadings) = [3000, 2900, 2900, 2700, 2500] ∧
    samples2 (⟨3000, 3000, 400⟩ :: sweepReadings) = [400, 500, 650, 800, 900] ∧
    (waitingDetector.runTicks sampleConfig
      (⟨3000, 3000, 400⟩ :: (sweepReadings ++ [⟨5000, 2500, 900⟩]))).state
      = DetectionState.DoNothing ∧
    (waitingDetector.runTicks sampleConfig
      (⟨3000, 3000, 400⟩ :: (sweepReadings ++ [⟨5000, 2500, 900⟩]))).isThrottle1HighLow
      = true ∧
    (waitingDetector.runTicks sampleConfig
      (⟨3000, 3000, 400⟩ :: (sweepReadings ++ [⟨5000, 2500, 900⟩]))).isThrottle2HighLow
      = false ∧
    (waitingDetector.runTicks sampleConfig
      (⟨3000, 3000, 400⟩ :: (sweepReadings ++ [⟨5000, 2500, 900⟩]))).isThrottle2Inverse
      = true :=
  have hw := calibrate_polarity sampleConfig waitingDetector ⟨3000, 3000, 400⟩ sweepReadings
    ⟨5000, 2500, 900⟩ (by decide) (by decide) (by decide) (by decide)
  have hb := hw.2.2.2 (by decide)
  have n1 : NonIncreasing (samples1 (⟨3000, 3000, 400⟩ :: sweepReadings)) := by
    simp [NonIncreasing, samples1, sweepReadings, toU16]
  have n2 : NonDecreasing (samples2 (⟨3000, 3000, 400⟩ :: sweepReadings)) := by
    simp [NonDecreasing, samples2, sweepReadings, toU16]
  ⟨by decide, by decide, by decide, by decide, by decide, hw.1,
    hw.2.1 n1 (by decide), hb.2.1 n2, hb.2.2.1 n1 (by decide) n2⟩

end GEVCU
